import Mathlib

/-!
# RCPS: CAN radar to Nextion display controller

A shallow embedding of the firmware's detection pipeline and of its buzzer
logic, followed by theorems about them.

* `RCPS`       embeds revision v3.7.0 (`.history/src/main_20251119164848.cpp`),
  the latest revision of the firmware.
* `RCPS.V350`  embeds `handleDetection`, `handleBuzzer`, `loop` and the
  EEPROM functions of revision v3.5.0 (`src/main.cpp`) with the functions they
  call.  Both revisions decode a frame with the same four statements, so
  `V350` uses the decoding definitions of `RCPS`.
* `RCPS.Spec`  holds the reference definitions written from the
  specification, which the theorems compare with the embedded code.

Modelling conventions.

* `float` and `double` values are exact rationals (`ℚ`): arithmetic is exact,
  and there is no NaN or infinity.  The decoded quantities are multiples of
  1/4 and the constants 0.25, 0.5, 0.75, 1.5, 3.0, 5.0 are dyadic, so for them
  the machine comparison and the exact one coincide.
* The settings a command of the display carries are the exception: `atof`,
  the division by 10.0 and the conversion to `float` are modelled with their
  rounding (`Floating`, `roundToDouble`, `roundToFloat`), so that a setting
  holds the `float` the firmware stores.  A command that stores a NaN or an
  infinity is marked `nonFinite`; the state cannot hold such a value.
* `int` is `Int`; the cast `(int)x` truncates toward zero.  A cast of a value
  outside the range of `int` has no defined result in C++ and is not
  modelled (no such value arises from a decoded frame in v3.7.0's target
  projection).
* `unsigned long` is a natural number taken modulo `2 ^ 32`.
* Global variables are the fields of `State`; every function takes the state
  and returns the new one.  The text sent with `sendCommand` is returned as a
  list of `Command`s, in order.  The level written to `BUZZER_PIN` with
  `digitalWrite` is the field `buzzerPin`.
* Debug output on `Serial` is not modelled.
* The bytes the display sends are a list of characters given to
  `handleNextionInput`; the C library functions it calls (`strstr`, `strtok`,
  `atof`, `atoi`) are modelled on such lists.
* The EEPROM is seen through its writes: every call of `saveSettingsToEEPROM`
  is recorded as the `SavedSettings` it stores.
  The bytes of the store are modelled apart, in `RCPS.Store` (and
  `RCPS.V350.Store`): there a setting is the object `EEPROM.put` copies, a
  `float` being its four bytes, and `floatValue` gives the number they denote.
-/

namespace RCPS

/-! ## Constants -/

def SCREEN_WIDTH_PX : Int := 272
def SCREEN_HEIGHT_PX : Int := 480
def TARGET_OBJECT_SIZE_PX : Int := 30
def VEHICLE_HEIGHT_PX : Int := 10
def VEHICLE_COLOR : Int := 31

def PIC_ID_SAFE : Int := 4
def PIC_ID_WARNING : Int := 1
def PIC_ID_DANGER : Int := 2
def PIC_ID_ALARM : Int := 0

def COLOR_RED : Int := 63488
def COLOR_ORANGE : Int := 64512
def COLOR_YELLOW : Int := 65504
def COLOR_GREEN : Int := 2016

def SOLID_TONE_DISTANCE_M : ℚ := 3 / 4
def BEEP_ON_DURATION_MS : Int := 60
def BEEP_INTERVAL_YELLOW_MS : Int := 400
def BEEP_INTERVAL_ORANGE_MS : Int := 200
def BEEP_INTERVAL_RED_MS : Int := 80

/-! ## Data -/

/-- The part of `twai_message_t` the firmware reads: the identifier and the
eight data bytes, each an unsigned value below 256. -/
structure twai_message_t where
  identifier : Nat
  data : Fin 8 → Fin 256

/-- One piece of the text of a display command: a literal, `String(int)` or
`String(float, 2)`.  The decimal rendering itself is left symbolic. -/
inductive TextPart where
  | lit (s : String)
  | int (v : Int)
  | fixed2 (v : ℚ)
deriving DecidableEq, Repr

/-- An argument of `sendCommand`.
`vis obj v` is `vis obj,v`; `assign attr v` is `attr=v` with `v` printed by
`String(int)`; `text attr parts` is `attr="parts"`. -/
inductive Command where
  | vis (obj : String) (v : Int)
  | assign (attr : String) (v : Int)
  | text (attr : String) (parts : List TextPart)
deriving DecidableEq, Repr

/-- The global variables of revision v3.7.0 that the control loop reads or
writes, with the level of the buzzer pin. -/
structure State where
  warningZone_m : ℚ
  dangerZone_m : ℚ
  vehicleRealWidth_m : ℚ
  autoZoom_enabled : Bool
  audioAlarm_enabled : Bool
  sideMargin_m : ℚ
  maxWidth_m : ℚ
  targetVisible : Bool
  buzzerShouldBeActive : Bool
  buzzerIsOn : Bool
  lastBuzzerToggleTime : Nat
  currentBeepInterval : Int
  buzzerPin : Bool
deriving DecidableEq, Repr

/-! ## Arithmetic helpers -/

/-- The C cast `(int)x` of a floating value: truncation toward zero. -/
def toInt (x : ℚ) : Int := if 0 ≤ x then ⌊x⌋ else ⌈x⌉

/-- Arduino `constrain(amt, low, high)`. -/
def constrain (amt low high : Int) : Int :=
  if amt < low then low else if amt > high then high else amt

/-- Conversion of an `int` to `unsigned long` (32 bit). -/
def toUnsignedLong (v : Int) : Nat := (v % (2 ^ 32 : Int)).toNat

/-- Subtraction of two `unsigned long` values (32 bit, wrapping). -/
def subUnsignedLong (a b : Nat) : Nat := (a % 2 ^ 32 + 2 ^ 32 - b % 2 ^ 32) % 2 ^ 32

/-! ## Detection decoding (`handleDetection`, step 1) -/

/-- Local `polarRadius_m = msg.data[0] * 0.25`. -/
def polarRadius_m (msg : twai_message_t) : ℚ := ((msg.data 0).val : ℚ) * (1 / 4)

/-- Local `polarAngle_deg = (int)msg.data[1] - 128`. -/
def polarAngle_deg (msg : twai_message_t) : Int := ((msg.data 1).val : Int) - 128

/-- Local `doc_x_m = msg.data[2] * 0.25` (forward offset). -/
def doc_x_m (msg : twai_message_t) : ℚ := ((msg.data 2).val : ℚ) * (1 / 4)

/-- Local `doc_y_m = ((int)msg.data[3] - 128) * 0.25` (lateral offset). -/
def doc_y_m (msg : twai_message_t) : ℚ :=
  ((((msg.data 3).val : Int) - 128 : Int) : ℚ) * (1 / 4)

/-! ## Grid selection (`handleDetection`, step 2) -/

/-- The three locals set by step 2 of `handleDetection`. -/
structure GridChoice where
  currentMaxGridXMeters : ℚ
  backgroundPicId : Int
  targetColor : Int
deriving DecidableEq, Repr

/-- Step 2 of `handleDetection`: the `if (autoZoom_enabled) ... else ...` block
that sets `currentMaxGridXMeters`, `backgroundPicId` and `targetColor`. -/
def selectGrid (autoZoom_enabled : Bool) (warningZone_m dangerZone_m : ℚ)
    (polarRadius_m : ℚ) : GridChoice :=
  if autoZoom_enabled then
    if polarRadius_m > 5 then
      { currentMaxGridXMeters := 10, backgroundPicId := PIC_ID_SAFE, targetColor := COLOR_GREEN }
    else if polarRadius_m > 3 then
      { currentMaxGridXMeters := 8, backgroundPicId := PIC_ID_WARNING, targetColor := COLOR_YELLOW }
    else if polarRadius_m > 3 / 2 then
      { currentMaxGridXMeters := 6, backgroundPicId := PIC_ID_DANGER, targetColor := COLOR_ORANGE }
    else
      { currentMaxGridXMeters := 4, backgroundPicId := PIC_ID_ALARM, targetColor := COLOR_RED }
  else
    if polarRadius_m > warningZone_m then
      { currentMaxGridXMeters := 10, backgroundPicId := PIC_ID_SAFE, targetColor := COLOR_GREEN }
    else if polarRadius_m > dangerZone_m then
      { currentMaxGridXMeters := 10, backgroundPicId := PIC_ID_WARNING, targetColor := COLOR_YELLOW }
    else
      { currentMaxGridXMeters := 10, backgroundPicId := PIC_ID_ALARM, targetColor := COLOR_RED }

/-! ## Projection (`handleDetection`, steps 3 and 4) -/

/-- Local `fixedScale = (float)SCREEN_WIDTH_PX / currentMaxGridXMeters`. -/
def fixedScale (currentMaxGridXMeters : ℚ) : ℚ :=
  (SCREEN_WIDTH_PX : ℚ) / currentMaxGridXMeters

/-- Local `targetX_px` after `constrain`. -/
def targetX_px (currentMaxGridXMeters doc_y_m : ℚ) : Int :=
  let targetX_float := (doc_y_m + currentMaxGridXMeters / 2) * fixedScale currentMaxGridXMeters
  constrain (toInt (targetX_float + 1 / 2)) 0 (SCREEN_WIDTH_PX - TARGET_OBJECT_SIZE_PX)

/-- Local `targetY_px` after `constrain`. -/
def targetY_px (currentMaxGridXMeters doc_x_m : ℚ) : Int :=
  let targetY_float := (SCREEN_HEIGHT_PX : ℚ) - doc_x_m * fixedScale currentMaxGridXMeters
  constrain (toInt (targetY_float + 1 / 2)) 0 (SCREEN_HEIGHT_PX - TARGET_OBJECT_SIZE_PX)

/-! ## Display functions -/

/-- Local `vehicle_width_px` of `updateVehicleDisplay`, after both limits. -/
def vehicle_width_px (vehicleRealWidth_m currentMaxGridXMeters : ℚ) : Int :=
  let g := if currentMaxGridXMeters < 1 / 10 then 10 else currentMaxGridXMeters
  let w0 := toInt (vehicleRealWidth_m * fixedScale g + 1 / 2)
  let w1 := if w0 > SCREEN_WIDTH_PX then SCREEN_WIDTH_PX else w0
  if w1 < 2 then 2 else w1

/-- Local `vehicle_x_px` of `updateVehicleDisplay`, after the lower limit. -/
def vehicle_x_px (vehicle_width_px : Int) : Int :=
  let x0 := toInt (((SCREEN_WIDTH_PX : ℚ) - (vehicle_width_px : ℚ)) / 2 + 1 / 2)
  if x0 < 0 then 0 else x0

/-- `updateVehicleDisplay`: reads `vehicleRealWidth_m`, sends five commands. -/
def updateVehicleDisplay (s : State) (currentMaxGridXMeters : ℚ) : List Command :=
  let w := vehicle_width_px s.vehicleRealWidth_m currentMaxGridXMeters
  [ Command.assign "rVehicle.x" (vehicle_x_px w),
    Command.assign "rVehicle.w" w,
    Command.assign "rVehicle.y" (SCREEN_HEIGHT_PX - VEHICLE_HEIGHT_PX),
    Command.assign "rVehicle.h" VEHICLE_HEIGHT_PX,
    Command.assign "rVehicle.bco" VEHICLE_COLOR ]

/-- `updateTargetDisplay`. -/
def updateTargetDisplay (s : State) (x y color : Int) : State × List Command :=
  let r : State × List Command :=
    if !s.targetVisible then
      ({ s with targetVisible := true }, [Command.vis "rTarget" 1])
    else (s, [])
  (r.1, r.2 ++ [ Command.assign "rTarget.pco" color,
                 Command.assign "rTarget.x" x,
                 Command.assign "rTarget.y" y ])

/-- `updateTextDisplays`. -/
def updateTextDisplays (radius : ℚ) (angle : Int) (x_m y_m : ℚ) : List Command :=
  [ Command.text "tDurum.txt" [TextPart.lit "HEDEF"],
    Command.text "tMesafe.txt" [TextPart.fixed2 radius, TextPart.lit "m"],
    Command.text "tAci.txt" [TextPart.int angle, TextPart.lit "d"],
    Command.text "tX.txt" [TextPart.lit "Y: ", TextPart.fixed2 y_m],
    Command.text "tY.txt" [TextPart.lit "X: ", TextPart.fixed2 x_m] ]

/-- `clearDetection`. -/
def clearDetection (s : State) : State × List Command :=
  ({ s with targetVisible := false, buzzerShouldBeActive := false },
   [ Command.vis "rTarget" 0, Command.assign "page0.pic" PIC_ID_SAFE ]
     ++ updateVehicleDisplay s 10
     ++ [ Command.text "tDurum.txt" [TextPart.lit "Temiz"],
          Command.text "tMesafe.txt" [TextPart.lit "--"],
          Command.text "tAci.txt" [TextPart.lit "--"],
          Command.text "tX.txt" [TextPart.lit "--"],
          Command.text "tY.txt" [TextPart.lit "--"] ])

/-! ## Alarm intent (`handleDetection`, step 5) -/

/-- The condition of the `if` of step 5. -/
def buzzerCondition (s : State) (polarRadius_m doc_y_m : ℚ) : Bool :=
  s.audioAlarm_enabled && decide (polarRadius_m < s.warningZone_m)
    && decide (|doc_y_m| < s.vehicleRealWidth_m / 2 + s.sideMargin_m)

/-- Step 5 of `handleDetection`: sets `buzzerShouldBeActive` and, when the
buzzer is armed, `currentBeepInterval`. -/
def buzzerLogic (s : State) (polarRadius_m doc_y_m : ℚ) (backgroundPicId : Int) : State :=
  if buzzerCondition s polarRadius_m doc_y_m then
    { s with
      buzzerShouldBeActive := true,
      currentBeepInterval :=
        if polarRadius_m ≤ SOLID_TONE_DISTANCE_M then 0
        else if backgroundPicId = PIC_ID_ALARM then BEEP_INTERVAL_RED_MS
        else if backgroundPicId = PIC_ID_DANGER then BEEP_INTERVAL_ORANGE_MS
        else BEEP_INTERVAL_YELLOW_MS }
  else
    { s with buzzerShouldBeActive := false }

/-! ## `handleDetection` -/

/-- Step 2 as `handleDetection` runs it: on the settings of the state and the
decoded range of the frame. -/
def selectedGrid (s : State) (msg : twai_message_t) : GridChoice :=
  selectGrid s.autoZoom_enabled s.warningZone_m s.dangerZone_m (polarRadius_m msg)

/-- `handleDetection`: decode, select the grid, project, set the alarm intent,
then update the display. -/
def handleDetection (s : State) (msg : twai_message_t) : State × List Command :=
  let r := polarRadius_m msg
  let angle := polarAngle_deg msg
  let x_m := doc_x_m msg
  let y_m := doc_y_m msg
  let g := selectedGrid s msg
  let tx := targetX_px g.currentMaxGridXMeters y_m
  let ty := targetY_px g.currentMaxGridXMeters x_m
  let s1 := buzzerLogic s r y_m g.backgroundPicId
  let t := updateTargetDisplay s1 tx ty g.targetColor
  (t.1,
   [Command.assign "page0.pic" g.backgroundPicId]
     ++ updateVehicleDisplay s1 g.currentMaxGridXMeters
     ++ t.2
     ++ updateTextDisplays r angle y_m x_m)

/-! ## Buzzer phase (`handleBuzzer`) -/

/-- `handleBuzzer`; `millis` is the value `millis()` returns in this call. -/
def handleBuzzer (s : State) (millis : Nat) : State :=
  if !s.audioAlarm_enabled then
    if s.buzzerIsOn then { s with buzzerPin := false, buzzerIsOn := false } else s
  else if !s.buzzerShouldBeActive then
    if s.buzzerIsOn then { s with buzzerPin := false, buzzerIsOn := false } else s
  else
    let currentTime := millis % 2 ^ 32
    if s.currentBeepInterval = 0 then
      if !s.buzzerIsOn then { s with buzzerPin := true, buzzerIsOn := true } else s
    else if s.buzzerIsOn then
      if subUnsignedLong currentTime s.lastBuzzerToggleTime ≥ toUnsignedLong BEEP_ON_DURATION_MS then
        { s with buzzerPin := false, buzzerIsOn := false, lastBuzzerToggleTime := currentTime }
      else s
    else
      if subUnsignedLong currentTime s.lastBuzzerToggleTime ≥ toUnsignedLong s.currentBeepInterval then
        { s with buzzerPin := true, buzzerIsOn := true, lastBuzzerToggleTime := currentTime }
      else s

/-! ## `loop` -/

/-- What one pass of `loop` leaves: the state, the commands sent, and the
local `detectionThisCycle`, which the source sets in the statement before its
only call of `handleDetection`. -/
structure LoopResult where
  state : State
  sent : List Command
  detectionThisCycle : Bool
deriving DecidableEq, Repr

/-- One pass of `loop`.
`handleNextionInput` is the effect of this pass's call of `handleNextionInput`
(it depends on the bytes waiting on the display's serial line); `rx` is
`some message` when `twai_receive` returns `ESP_OK` and `none` when it times
out; `millis` is the clock value read by `handleBuzzer`. -/
def loop (handleNextionInput : State → State × List Command)
    (rx : Option twai_message_t) (millis : Nat) (s : State) : LoopResult :=
  let h := handleNextionInput s
  let d : (State × List Command) × Bool :=
    match rx with
    | some message =>
      if message.identifier ≥ 0x310 ∧ message.identifier ≤ 0x38F then
        let validDetection := !decide ((message.data 7).val &&& 1 ≠ 0)
        if validDetection then (handleDetection h.1 message, true)
        else ((h.1, []), false)
      else ((h.1, []), false)
    | none => ((h.1, []), false)
  let detectionThisCycle := d.2
  let c : State × List Command :=
    if !detectionThisCycle && d.1.1.targetVisible then clearDetection d.1.1
    else (d.1.1, [])
  { state := handleBuzzer c.1 millis,
    sent := h.2 ++ d.1.2 ++ c.2,
    detectionThisCycle := detectionThisCycle }

/-! ## Settings written to the EEPROM -/

def DEFAULT_WARNING_ZONE_M : ℚ := 5
def DEFAULT_DANGER_ZONE_M : ℚ := 2
def DEFAULT_VEHICLE_WIDTH_M : ℚ := 2
def DEFAULT_SIDE_MARGIN_M : ℚ := 1 / 2
def DEFAULT_MAX_WIDTH_M : ℚ := 10
def DEFAULT_AUTOZOOM_EN : Bool := true
def DEFAULT_AUDIOALARM_EN : Bool := true

/-- The seven values one call of `saveSettingsToEEPROM` puts behind the magic
key, in the order of the `EEPROM.put` calls. -/
structure SavedSettings where
  warningZone_m : ℚ
  dangerZone_m : ℚ
  vehicleRealWidth_m : ℚ
  autoZoom_enabled : Bool
  audioAlarm_enabled : Bool
  sideMargin_m : ℚ
  maxWidth_m : ℚ
deriving DecidableEq, Repr

/-- What `saveSettingsToEEPROM` writes when called in state `s`. -/
def savedSettings (s : State) : SavedSettings :=
  { warningZone_m := s.warningZone_m, dangerZone_m := s.dangerZone_m,
    vehicleRealWidth_m := s.vehicleRealWidth_m,
    autoZoom_enabled := s.autoZoom_enabled, audioAlarm_enabled := s.audioAlarm_enabled,
    sideMargin_m := s.sideMargin_m, maxWidth_m := s.maxWidth_m }

/-- `resetToDefaults`: the new globals and the record written by the call of
`saveSettingsToEEPROM` that ends it. -/
def resetToDefaults (s : State) : State × SavedSettings :=
  let s1 : State :=
    { s with
      warningZone_m := DEFAULT_WARNING_ZONE_M,
      dangerZone_m := DEFAULT_DANGER_ZONE_M,
      vehicleRealWidth_m := DEFAULT_VEHICLE_WIDTH_M,
      autoZoom_enabled := DEFAULT_AUTOZOOM_EN,
      audioAlarm_enabled := DEFAULT_AUDIOALARM_EN,
      sideMargin_m := DEFAULT_SIDE_MARGIN_M,
      maxWidth_m := DEFAULT_MAX_WIDTH_M }
  (s1, savedSettings s1)

/-! ## Values of the C floating types

A `float` global of the state is a rational number.  The values `atof`
returns and the arithmetic done on them before they are assigned to a global
are modelled with their rounding, and with the infinities and NaN they can
produce. -/

/-- A value of a C floating type: a finite number, an infinity or a NaN.  The
sign of a zero is not kept. -/
inductive Floating where
  | finite (v : ℚ)
  | infinity (negative : Bool)
  | nan
deriving DecidableEq, Repr

/-- The integer nearest to `x`, the even one when two are equally near. -/
def roundHalfEven (x : ℚ) : Int :=
  if x - ⌊x⌋ < 1 / 2 then ⌊x⌋
  else if 1 / 2 < x - ⌊x⌋ then ⌊x⌋ + 1
  else if ⌊x⌋ % 2 = 0 then ⌊x⌋ else ⌊x⌋ + 1

/-- Rounding to nearest, ties to even, in the binary floating format with
`precision` significant bits and exponents `emin .. emax` (IEEE 754): the
value is rounded to a multiple of the unit in the last place of its binade
(of the lowest binade for subnormal values), and a result of magnitude
`2 ^ (emax + 1)` or more is an infinity. -/
def roundToFormat (precision : Nat) (emin emax : Int) (x : ℚ) : Floating :=
  if x = 0 then Floating.finite 0
  else
    let e : Int := max (Int.log 2 |x|) emin
    let quantum : ℚ := (2 : ℚ) ^ (e - ((precision : Int) - 1))
    let r : ℚ := (roundHalfEven (x / quantum) : ℚ) * quantum
    if (2 : ℚ) ^ (emax + 1) ≤ |r| then Floating.infinity (decide (x < 0))
    else Floating.finite r

/-- Rounding to `double` (binary64). -/
def roundToDouble (x : ℚ) : Floating := roundToFormat 53 (-1022) 1023 x

/-- Rounding to `float` (binary32). -/
def roundToFloat (x : ℚ) : Floating := roundToFormat 24 (-126) 127 x

/-- The quotient `x / y` of a `double` by a finite `double` `y > 0`. -/
def Floating.divDouble (x : Floating) (y : ℚ) : Floating :=
  match x with
  | Floating.finite v => roundToDouble (v / y)
  | Floating.infinity negative => Floating.infinity negative
  | Floating.nan => Floating.nan

/-- The conversion of a `double` to `float`. -/
def Floating.toFloat (x : Floating) : Floating :=
  match x with
  | Floating.finite v => roundToFloat v
  | Floating.infinity negative => Floating.infinity negative
  | Floating.nan => Floating.nan

/-- Whether the value is a finite number. -/
def Floating.isFinite (x : Floating) : Bool :=
  match x with
  | Floating.finite _ => true
  | Floating.infinity _ => false
  | Floating.nan => false

/-- What a `float` global of the state holds after `x` is assigned to it: `x`
when it is finite.  The state has no NaN and no infinity: when `x` is one of
them the field keeps `old`, and the call that made the assignment is marked
(`HmiResult.nonFinite`), which says that the field no longer describes the
global. -/
def assignFloat (old : ℚ) (x : Floating) : ℚ :=
  match x with
  | Floating.finite v => v
  | Floating.infinity _ => old
  | Floating.nan => old

/-! ## C library functions used by `handleNextionInput`

Text is a list of characters; a byte of the serial line is a character with
code below 256, and the terminator `0xFF` is `Char.ofNat 255`. -/

/-- `isspace` in the C locale. -/
def isspace (c : Char) : Bool :=
  c.toNat = 32 || (9 ≤ c.toNat && c.toNat ≤ 13)

/-- `isdigit`. -/
def isdigit (c : Char) : Bool := 48 ≤ c.toNat && c.toNat ≤ 57

/-- Value of a run of decimal digits, most significant first. -/
def digitsValue (ds : List Char) : Nat :=
  ds.foldl (fun acc c => 10 * acc + (c.toNat - 48)) 0

/-- Optional sign in front of a number: `true` for a minus sign, and the text
after the sign. -/
def takeSign (s : List Char) : Bool × List Char :=
  match s with
  | c :: t => if c = '-' then (true, t) else if c = '+' then (false, t) else (false, s)
  | [] => (false, s)

/-- `atoi`: white space, an optional sign, decimal digits; 0 when there is no
digit.  A value outside the range of `long` (32 bit on the target) is
saturated, as `strtol` does. -/
def atoi (s : List Char) : Int :=
  let p := takeSign (s.dropWhile isspace)
  let n : Int := (digitsValue (p.2.takeWhile isdigit) : Int)
  let v := if p.1 then -n else n
  if v > 2147483647 then 2147483647 else if v < -2147483648 then -2147483648 else v

/-- The exponent part of a decimal floating literal: `e` or `E`, an optional
sign and at least one digit; 0 when the text does not start with one. -/
def exponentPart (s : List Char) : Int :=
  match s with
  | c :: t =>
    if c = 'e' || c = 'E' then
      let p := takeSign t
      let ds := p.2.takeWhile isdigit
      if ds = [] then 0 else if p.1 then -(digitsValue ds : Int) else (digitsValue ds : Int)
    else 0
  | [] => 0

/-- A decimal floating literal as `strtod` scans it: the sign, the digits of
the integer and fraction parts read as one number, the number of fraction
digits, and the exponent. -/
structure DecimalLiteral where
  negative : Bool
  digits : Nat
  fractionLength : Nat
  exponent : Int
deriving DecidableEq, Repr

/-- The scan of `strtod` on decimal text: white space, an optional sign,
digits with an optional fraction, an optional exponent; `none` when there is
no digit (no conversion). -/
def scanDecimal (s : List Char) : Option DecimalLiteral :=
  let p := takeSign (s.dropWhile isspace)
  let intDigits := p.2.takeWhile isdigit
  let r := p.2.dropWhile isdigit
  let fracDigits := match r with
    | c :: t => if c = '.' then t.takeWhile isdigit else []
    | [] => []
  let r2 := match r with
    | c :: t => if c = '.' then t.dropWhile isdigit else r
    | [] => r
  if intDigits = [] ∧ fracDigits = [] then none
  else some
    { negative := p.1, digits := digitsValue (intDigits ++ fracDigits),
      fractionLength := fracDigits.length, exponent := exponentPart r2 }

/-- `isxdigit`. -/
def isxdigit (c : Char) : Bool :=
  isdigit c || (97 ≤ c.toNat && c.toNat ≤ 102) || (65 ≤ c.toNat && c.toNat ≤ 70)

/-- The value of a hexadecimal digit. -/
def hexDigitValue (c : Char) : Nat :=
  if isdigit c then c.toNat - 48 else if 97 ≤ c.toNat then c.toNat - 87 else c.toNat - 55

/-- Value of a run of hexadecimal digits, most significant first. -/
def hexDigitsValue (ds : List Char) : Nat :=
  ds.foldl (fun v c => 16 * v + hexDigitValue c) 0

/-- The binary exponent part of a hexadecimal floating literal: `p` or `P`, an
optional sign and at least one decimal digit; 0 when the text does not start
with one. -/
def binaryExponentPart (s : List Char) : Int :=
  match s with
  | c :: t =>
    if c = 'p' || c = 'P' then
      let p := takeSign t
      let ds := p.2.takeWhile isdigit
      if ds = [] then 0 else if p.1 then -(digitsValue ds : Int) else (digitsValue ds : Int)
    else 0
  | [] => 0

/-- A hexadecimal floating literal as `strtod` scans it: the hexadecimal
digits of the integer and fraction parts read as one number, the number of
fraction digits, and the binary exponent. -/
structure HexLiteral where
  digits : Nat
  fractionLength : Nat
  exponent : Int
deriving DecidableEq, Repr

/-- The scan of `strtod` for the hexadecimal form, on the text after the sign:
`0x` or `0X`, hexadecimal digits with an optional fraction, an optional binary
exponent; `none` when the text does not start with `0x` and a hexadecimal
digit. -/
def scanHex (body : List Char) : Option HexLiteral :=
  match body with
  | z :: x :: t =>
    if z = '0' ∧ (x = 'x' ∨ x = 'X') then
      let intDigits := t.takeWhile isxdigit
      let r := t.dropWhile isxdigit
      let fracDigits := match r with
        | c :: u => if c = '.' then u.takeWhile isxdigit else []
        | [] => []
      let r2 := match r with
        | c :: u => if c = '.' then u.dropWhile isxdigit else r
        | [] => r
      if intDigits = [] ∧ fracDigits = [] then none
      else some
        { digits := hexDigitsValue (intDigits ++ fracDigits),
          fractionLength := fracDigits.length, exponent := binaryExponentPart r2 }
    else none
  | _ => none

/-- What `strtod` finds at the start of a text. -/
inductive Scanned where
  | decimal (l : DecimalLiteral)
  | hexadecimal (negative : Bool) (l : HexLiteral)
  | infinity (negative : Bool)
  | nan
deriving DecidableEq, Repr

/-- The scan of `strtod`: white space, an optional sign, then `inf` or
`infinity`, or `nan` (with an optional parenthesised sequence), in any case of
the letters, or a hexadecimal literal, or a decimal one; `none` when there is
none of them (no conversion). -/
def scanNumber (s : List Char) : Option Scanned :=
  let p := takeSign (s.dropWhile isspace)
  if "inf".toList.isPrefixOf (p.2.map Char.toLower) then some (Scanned.infinity p.1)
  else if "nan".toList.isPrefixOf (p.2.map Char.toLower) then some Scanned.nan
  else
    match scanHex p.2 with
    | some h => some (Scanned.hexadecimal p.1 h)
    | none => (scanDecimal s).map Scanned.decimal

/-- `atof`, which is `strtod`: the `double` nearest to the number scanned, an
infinity when it is out of range or the text says so, NaN for `nan`, and 0
when there is no conversion. -/
def atof (s : List Char) : Floating :=
  match scanNumber s with
  | none => Floating.finite 0
  | some (Scanned.decimal l) =>
    let v := (l.digits : ℚ) / (10 : ℚ) ^ l.fractionLength * (10 : ℚ) ^ l.exponent
    roundToDouble (if l.negative then -v else v)
  | some (Scanned.hexadecimal negative l) =>
    let v := (l.digits : ℚ) / (16 : ℚ) ^ l.fractionLength * (2 : ℚ) ^ l.exponent
    roundToDouble (if negative then -v else v)
  | some (Scanned.infinity negative) => Floating.infinity negative
  | some Scanned.nan => Floating.nan

/-- The value of the expression `atof(val) / 10.0` when it is assigned to a
`float` global: the quotient is a `double`, the assignment converts it. -/
def tenth (val : List Char) : Floating :=
  ((atof val).divDouble 10).toFloat

/-- `strstr(haystack, needle)`: the text from the first occurrence of
`needle` on, or `none` (`NULL`) when there is none. -/
def strstr (needle : List Char) : List Char → Option (List Char)
  | [] => if needle = [] then some [] else none
  | c :: t => if needle.isPrefixOf (c :: t) then some (c :: t) else strstr needle t

/-- One call of `strtok` with the single delimiter `delim` on the text `s`
still to be scanned: the token (`none` for `NULL`) and the text left for the
next call `strtok(NULL, ..)`. -/
def strtok (delim : Char) (s : List Char) : Option (List Char) × List Char :=
  let s1 := s.dropWhile (fun c => c = delim)
  if s1 = [] then (none, [])
  else (some (s1.takeWhile (fun c => c ≠ delim)), (s1.dropWhile (fun c => c ≠ delim)).drop 1)

/-- `Stream::readBytesUntil(terminator, buffer, length)`: the bytes stored,
which are those before the first terminator, at most `length` of them.
`stream` holds the bytes the serial line delivers before a read times out.
The terminator `(char)0xFF` is the byte 255 (`char` is unsigned on the
target).  Bytes that are not stored stay on the line for a later call. -/
def readBytesUntil (terminator : Char) (length : Nat) (stream : List Char) : List Char :=
  (stream.takeWhile (fun c => c ≠ terminator)).take length

/-! ## HMI input (`handleNextionInput`) -/

def RX_BUFFER_SIZE : Nat := 64

/-- What one call of `handleNextionInput` leaves: the state, the commands sent
to the display, and one record for every call of `saveSettingsToEEPROM`.
`nonFinite` is true when the call assigned a NaN or an infinity to a setting
(see `assignFloat`): the fields so assigned, in `state` and in the record
saved, then keep their old value and do not describe the globals. -/
structure HmiResult where
  state : State
  sent : List Command
  saved : List SavedSettings
  nonFinite : Bool := false
deriving DecidableEq, Repr

/-- The C string in `rxBuffer` after the read: the bytes stored, up to the
first zero byte. -/
def rxBuffer (serial : List Char) : List Char :=
  (readBytesUntil (Char.ofNat 255) (RX_BUFFER_SIZE - 1) serial).takeWhile
    (fun c => c ≠ Char.ofNat 0)

/-- The branch `SAVE1` of `handleNextionInput`; `cmdPtr` is the result of
`strstr(rxBuffer, "SAVE1:")`. -/
def handleSave1 (s : State) (cmdPtr : List Char) : HmiResult :=
  let ptr := cmdPtr.drop 6
  let t1 := strtok ',' ptr
  let t2 := strtok ',' t1.2
  match t1.1, t2.1 with
  | some val1, some val2 =>
    let s1 := { s with
      warningZone_m := assignFloat s.warningZone_m (tenth val1),
      dangerZone_m := assignFloat s.dangerZone_m (tenth val2) }
    { state := s1, sent := [], saved := [savedSettings s1],
      nonFinite := !((tenth val1).isFinite && (tenth val2).isFinite) }
  | _, _ => { state := s, sent := [], saved := [] }

/-- The branch `SAVE2` of `handleNextionInput`. -/
def handleSave2 (s : State) (cmdPtr : List Char) : HmiResult :=
  let ptr := cmdPtr.drop 6
  let t1 := strtok ',' ptr
  let t2 := strtok ',' t1.2
  let t3 := strtok ',' t2.2
  match t1.1, t2.1, t3.1 with
  | some vMargin, some vWidth, some vMax =>
    let s1 := { s with
      sideMargin_m := assignFloat s.sideMargin_m (tenth vMargin),
      vehicleRealWidth_m := assignFloat s.vehicleRealWidth_m (tenth vWidth),
      maxWidth_m := assignFloat s.maxWidth_m (tenth vMax) }
    { state := s1, sent := [], saved := [savedSettings s1],
      nonFinite :=
        !((tenth vMargin).isFinite && (tenth vWidth).isFinite && (tenth vMax).isFinite) }
  | _, _, _ => { state := s, sent := [], saved := [] }

/-- The branch `SAVE3` of `handleNextionInput`, with the master switch that
silences the buzzer when the audio alarm is turned off. -/
def handleSave3 (s : State) (cmdPtr : List Char) : HmiResult :=
  let ptr := cmdPtr.drop 6
  let t1 := strtok ',' ptr
  let t2 := strtok ',' t1.2
  match t1.1, t2.1 with
  | some vZoom, some vAudio =>
    let s1 := { s with autoZoom_enabled := decide (atoi vZoom = 1) }
    let newAudioState := decide (atoi vAudio = 1)
    let s2 :=
      if !newAudioState then
        { s1 with buzzerPin := false, buzzerIsOn := false, buzzerShouldBeActive := false }
      else s1
    let s3 := { s2 with audioAlarm_enabled := newAudioState }
    { state := s3, sent := [], saved := [savedSettings s3] }
  | _, _ => { state := s, sent := [], saved := [] }

/-- `handleNextionInput`; `serial` holds the bytes waiting on the display's
serial line followed by those that arrive before a read times out (empty when
`available()` is 0). -/
def handleNextionInput (s : State) (serial : List Char) : HmiResult :=
  if serial = [] then { state := s, sent := [], saved := [] }
  else
    let bytesRead := (readBytesUntil (Char.ofNat 255) (RX_BUFFER_SIZE - 1) serial).length
    if bytesRead = 0 then { state := s, sent := [], saved := [] }
    else
      match strstr "SAVE1:".toList (rxBuffer serial) with
      | some cmdPtr => handleSave1 s cmdPtr
      | none =>
        match strstr "SAVE2:".toList (rxBuffer serial) with
        | some cmdPtr => handleSave2 s cmdPtr
        | none =>
          match strstr "SAVE3:".toList (rxBuffer serial) with
          | some cmdPtr => handleSave3 s cmdPtr
          | none =>
            match strstr "RESETALL".toList (rxBuffer serial) with
            | some _ =>
              let r := resetToDefaults s
              { state := r.1, sent := [], saved := [r.2] }
            | none => { state := s, sent := [], saved := [] }

/-- The call of `handleNextionInput` in a pass of `loop` that finds the bytes
`serial` on the serial line, in the form `loop` takes. -/
def hmiStep (serial : List Char) (s : State) : State × List Command :=
  ((handleNextionInput s serial).state, (handleNextionInput s serial).sent)

/-! ## `setup` -/

/-- `sendSettingsToNextion`. -/
def sendSettingsToNextion (s : State) : List Command :=
  [ Command.assign "pageSet1.h0.val" (toInt (s.warningZone_m * 10)),
    Command.assign "pageSet1.h1.val" (toInt (s.dangerZone_m * 10)),
    Command.assign "pageSet2.h0.val" (toInt (s.sideMargin_m * 10)),
    Command.assign "pageSet2.h1.val" (toInt (s.vehicleRealWidth_m * 10)),
    Command.assign "pageSet2.h2.val" (toInt (s.maxWidth_m * 10)),
    Command.assign "pageSet3.btZoom.val" (if s.autoZoom_enabled then 1 else 0),
    Command.assign "pageSet3.btAudio.val" (if s.audioAlarm_enabled then 1 else 0) ]

/-- The globals as their initialisers leave them, with the settings (which
have no initialiser) taken from `v`, and the buzzer pin low. -/
def initialState (v : SavedSettings) : State :=
  { warningZone_m := v.warningZone_m, dangerZone_m := v.dangerZone_m,
    vehicleRealWidth_m := v.vehicleRealWidth_m,
    autoZoom_enabled := v.autoZoom_enabled, audioAlarm_enabled := v.audioAlarm_enabled,
    sideMargin_m := v.sideMargin_m, maxWidth_m := v.maxWidth_m,
    targetVisible := false, buzzerShouldBeActive := false, buzzerIsOn := false,
    lastBuzzerToggleTime := 0, currentBeepInterval := BEEP_INTERVAL_YELLOW_MS,
    buzzerPin := false }

/-- `setup` when the CAN driver starts.  `stored` is what the EEPROM holds:
`none` when the byte at the magic key address is not 124, so that
`loadSettingsFromEEPROM` calls `resetToDefaults`, and `some v` when it is and
the seven `EEPROM.get` calls yield `v`.  `zero` fills the settings before they
are loaded. -/
def setup (stored : Option SavedSettings) : HmiResult :=
  let zero : SavedSettings :=
    { warningZone_m := 0, dangerZone_m := 0, vehicleRealWidth_m := 0,
      autoZoom_enabled := false, audioAlarm_enabled := false,
      sideMargin_m := 0, maxWidth_m := 0 }
  let l : State × List SavedSettings :=
    match stored with
    | none => ((resetToDefaults (initialState zero)).1, [(resetToDefaults (initialState zero)).2])
    | some v => (initialState v, [])
  let c := clearDetection l.1
  { state := c.1, sent := sendSettingsToNextion l.1 ++ c.2, saved := l.2 }

/-! ## Runs of `handleBuzzer` -/

/-- The state after `handleBuzzer` has been called once at every millisecond
`0, 1, ..., t`, starting from `s`. -/
def buzzerAfter (s : State) : Nat → State
  | 0 => handleBuzzer s 0
  | t + 1 => handleBuzzer (buzzerAfter s t) (t + 1)

/-- The state after `handleBuzzer` has been called once at every millisecond
`t0 + 1, ..., t0 + k`, starting from `s` (the state the call at `t0` left). -/
def buzzerRun (s : State) (t0 : Nat) : Nat → State
  | 0 => s
  | k + 1 => handleBuzzer (buzzerRun s t0 k) (t0 + (k + 1))

/-! ## Operations of the program -/

/-- One step of the program on its globals: a call of `handleNextionInput`
that finds the bytes `serial`, a call of `handleDetection` on a frame, a call
of `clearDetection`, or a call of `handleBuzzer` at clock value `millis`. -/
inductive Operation where
  | hmi (serial : List Char)
  | detection (msg : twai_message_t)
  | clear
  | buzzer (millis : Nat)

/-- The state an operation leaves. -/
def applyOperation (s : State) : Operation → State
  | Operation.hmi serial => (handleNextionInput s serial).state
  | Operation.detection msg => (handleDetection s msg).1
  | Operation.clear => (clearDetection s).1
  | Operation.buzzer millis => handleBuzzer s millis

/-- The state after a sequence of operations, run in order. -/
def runOperations (s : State) (ops : List Operation) : State :=
  ops.foldl applyOperation s

/-! ## Runs of `loop` -/

/-- What one pass of `loop` meets: the bytes on the display's serial line,
the result of `twai_receive`, and the clock value read by `handleBuzzer`. -/
structure CycleInput where
  serial : List Char
  rx : Option twai_message_t
  millis : Nat

/-- One pass of `loop` with `handleNextionInput` run on the bytes of the
input. -/
def cycle (s : State) (i : CycleInput) : LoopResult :=
  loop (hmiStep i.serial) i.rx i.millis s

/-- The results of consecutive passes of `loop`, each starting in the state
the one before left. -/
def runCycles : State → List CycleInput → List LoopResult
  | _, [] => []
  | s, i :: rest => cycle s i :: runCycles (cycle s i).state rest

/-! ## The EEPROM (`EEPROM.h`) and the settings stored in it

The settings are stored as objects: `EEPROM.put` copies the bytes of an
object to the store and `EEPROM.get` copies them back.  A `float` object is
its four bytes (least significant first, as on the target), a `bool` object
one byte, an `int` object four bytes. -/

abbrev EEPROM_SIZE : Nat := 64
def EEPROM_MAGIC_KEY : Int := 124
def ADDR_MAGIC_KEY : Nat := 0
def ADDR_WARN_ZONE : Nat := 4
def ADDR_DANGER_ZONE : Nat := 8
def ADDR_VEHICLE_WIDTH : Nat := 12
def ADDR_PASSWORD : Nat := 16
def ADDR_AUTOZOOM_EN : Nat := 44
def ADDR_AUDIOALARM_EN : Nat := 45
def ADDR_SIDE_MARGIN : Nat := 48
def ADDR_MAX_WIDTH : Nat := 52

/-- The bytes of the store after `EEPROM.begin(EEPROM_SIZE)`. -/
abbrev EEPROMClass : Type := Fin EEPROM_SIZE → Fin 256

/-- `EEPROM.put(address, t)` for an object `t` of `n` bytes, as committed by
the `EEPROM.commit()` that ends `saveSettingsToEEPROM`: the bytes of `t` go to
`address, ..., address + n - 1`; nothing is written when they do not fit. -/
def EEPROM_put {n : Nat} (e : EEPROMClass) (address : Nat) (t : Fin n → Fin 256) :
    EEPROMClass :=
  if address + n ≤ EEPROM_SIZE then
    fun i =>
      if h : address ≤ i.val ∧ i.val < address + n then t ⟨i.val - address, by omega⟩
      else e i
  else e

/-- `EEPROM.get(address, t)` for an object `t` of `n` bytes: the new bytes of
`t`, which are those at `address, ..., address + n - 1`; `t` is left as it is
when they are not all in the store. -/
def EEPROM_get {n : Nat} (e : EEPROMClass) (address : Nat) (t : Fin n → Fin 256) :
    Fin n → Fin 256 :=
  if h : address + n ≤ EEPROM_SIZE then
    fun j => e ⟨address + j.val, by have := j.isLt; omega⟩
  else t

/-- `EEPROM.read(address)`: the byte at `address`, 0 outside the store. -/
def EEPROM_read (e : EEPROMClass) (address : Nat) : Fin 256 :=
  if h : address < EEPROM_SIZE then e ⟨address, h⟩ else 0

/-- The bytes of an `int` object (32 bit, two's complement, least significant
byte first). -/
def intObject (v : Int) : Fin 4 → Fin 256 :=
  fun j => ⟨(v % 2 ^ 32).toNat / 256 ^ j.val % 256, Nat.mod_lt _ (by norm_num)⟩

/-- The byte of a `bool` object. -/
def boolObject (b : Bool) : Fin 1 → Fin 256 := fun _ => if b then 1 else 0

/-- The value of a `bool` object read back from its byte: false for 0, true
for 1 (and for any other byte, which `saveSettingsToEEPROM` never writes). -/
def objectBool (o : Fin 1 → Fin 256) : Bool := decide (o 0 ≠ 0)

/-- The bit pattern of a `float` object. -/
def floatBits (x : Fin 4 → Fin 256) : Nat :=
  (x 0).val + 256 * (x 1).val + 65536 * (x 2).val + 16777216 * (x 3).val

/-- The value of a `float` object (IEEE 754 binary32): `none` for the
infinities and NaN. -/
def floatValue (x : Fin 4 → Fin 256) : Option ℚ :=
  let bits : Nat := floatBits x
  let sign : ℚ := if bits / 2 ^ 31 = 1 then -1 else 1
  let e : Nat := bits / 2 ^ 23 % 256
  let m : Nat := bits % 2 ^ 23
  if e = 255 then none
  else if e = 0 then some (sign * (m : ℚ) * (2 : ℚ) ^ (-149 : Int))
  else some (sign * ((2 : ℚ) ^ 23 + (m : ℚ)) * (2 : ℚ) ^ ((e : Int) - 150))

namespace Store

/-- The seven settings globals, as objects. -/
structure SettingsObjects where
  warningZone_m : Fin 4 → Fin 256
  dangerZone_m : Fin 4 → Fin 256
  vehicleRealWidth_m : Fin 4 → Fin 256
  autoZoom_enabled : Bool
  audioAlarm_enabled : Bool
  sideMargin_m : Fin 4 → Fin 256
  maxWidth_m : Fin 4 → Fin 256

/-- `DEFAULT_WARNING_ZONE_M = 5.0` as a `float` object (0x40A00000). -/
def DEFAULT_WARNING_ZONE_M : Fin 4 → Fin 256 := ![0x00, 0x00, 0xA0, 0x40]
/-- `DEFAULT_DANGER_ZONE_M = 2.0` as a `float` object (0x40000000). -/
def DEFAULT_DANGER_ZONE_M : Fin 4 → Fin 256 := ![0x00, 0x00, 0x00, 0x40]
/-- `DEFAULT_VEHICLE_WIDTH_M = 2.0` as a `float` object (0x40000000). -/
def DEFAULT_VEHICLE_WIDTH_M : Fin 4 → Fin 256 := ![0x00, 0x00, 0x00, 0x40]
/-- `DEFAULT_SIDE_MARGIN_M = 0.5` as a `float` object (0x3F000000). -/
def DEFAULT_SIDE_MARGIN_M : Fin 4 → Fin 256 := ![0x00, 0x00, 0x00, 0x3F]
/-- `DEFAULT_MAX_WIDTH_M = 10.0` as a `float` object (0x41200000). -/
def DEFAULT_MAX_WIDTH_M : Fin 4 → Fin 256 := ![0x00, 0x00, 0x20, 0x41]

/-- `saveSettingsToEEPROM`: the store after the eight `EEPROM.put` calls and
the `EEPROM.commit()`. -/
def saveSettingsToEEPROM (g : SettingsObjects) (e : EEPROMClass) : EEPROMClass :=
  let e1 := EEPROM_put e ADDR_MAGIC_KEY (intObject EEPROM_MAGIC_KEY)
  let e2 := EEPROM_put e1 ADDR_WARN_ZONE g.warningZone_m
  let e3 := EEPROM_put e2 ADDR_DANGER_ZONE g.dangerZone_m
  let e4 := EEPROM_put e3 ADDR_VEHICLE_WIDTH g.vehicleRealWidth_m
  let e5 := EEPROM_put e4 ADDR_AUTOZOOM_EN (boolObject g.autoZoom_enabled)
  let e6 := EEPROM_put e5 ADDR_AUDIOALARM_EN (boolObject g.audioAlarm_enabled)
  let e7 := EEPROM_put e6 ADDR_SIDE_MARGIN g.sideMargin_m
  EEPROM_put e7 ADDR_MAX_WIDTH g.maxWidth_m

/-- What a function that may save leaves: the globals, the store, and the
number of calls of `saveSettingsToEEPROM` it made. -/
structure Result where
  globals : SettingsObjects
  eeprom : EEPROMClass
  saves : Nat

/-- `resetToDefaults`: the globals are set to the defaults and saved. -/
def resetToDefaults (e : EEPROMClass) : Result :=
  let g : SettingsObjects :=
    { warningZone_m := DEFAULT_WARNING_ZONE_M,
      dangerZone_m := DEFAULT_DANGER_ZONE_M,
      vehicleRealWidth_m := DEFAULT_VEHICLE_WIDTH_M,
      autoZoom_enabled := DEFAULT_AUTOZOOM_EN,
      audioAlarm_enabled := DEFAULT_AUDIOALARM_EN,
      sideMargin_m := DEFAULT_SIDE_MARGIN_M,
      maxWidth_m := DEFAULT_MAX_WIDTH_M }
  { globals := g, eeprom := saveSettingsToEEPROM g e, saves := 1 }

/-- `loadSettingsFromEEPROM`, up to its call of `sendSettingsToNextion`; `g`
holds the globals before the call and `e` the store after
`EEPROM.begin(EEPROM_SIZE)`.  The byte read at `ADDR_MAGIC_KEY` is compared
with the `int` 124.  The ten bytes the source reads from `ADDR_PASSWORD` go to
a local array that is not used. -/
def loadSettingsFromEEPROM (g : SettingsObjects) (e : EEPROMClass) : Result :=
  if ((EEPROM_read e ADDR_MAGIC_KEY).val : Int) ≠ EEPROM_MAGIC_KEY then resetToDefaults e
  else
    { globals :=
        { warningZone_m := EEPROM_get e ADDR_WARN_ZONE g.warningZone_m,
          dangerZone_m := EEPROM_get e ADDR_DANGER_ZONE g.dangerZone_m,
          vehicleRealWidth_m := EEPROM_get e ADDR_VEHICLE_WIDTH g.vehicleRealWidth_m,
          autoZoom_enabled :=
            objectBool (EEPROM_get e ADDR_AUTOZOOM_EN (boolObject g.autoZoom_enabled)),
          audioAlarm_enabled :=
            objectBool (EEPROM_get e ADDR_AUDIOALARM_EN (boolObject g.audioAlarm_enabled)),
          sideMargin_m := EEPROM_get e ADDR_SIDE_MARGIN g.sideMargin_m,
          maxWidth_m := EEPROM_get e ADDR_MAX_WIDTH g.maxWidth_m },
      eeprom := e,
      saves := 0 }

/-- The byte ranges `(address, size)` of the eight objects
`saveSettingsToEEPROM` writes, in the order of its `EEPROM.put` calls. -/
def fieldRanges : List (Nat × Nat) :=
  [ (ADDR_MAGIC_KEY, 4), (ADDR_WARN_ZONE, 4), (ADDR_DANGER_ZONE, 4), (ADDR_VEHICLE_WIDTH, 4),
    (ADDR_AUTOZOOM_EN, 1), (ADDR_AUDIOALARM_EN, 1), (ADDR_SIDE_MARGIN, 4), (ADDR_MAX_WIDTH, 4) ]

end Store

/-! ## Revision v3.5.0 (`src/main.cpp`) -/

namespace V350

def DEFAULT_MAX_WIDTH_M : ℚ := 10
def MAX_FORWARD_RANGE_M : ℚ := 7

/-- The global variables of revision v3.5.0, with the level of the buzzer
pin. -/
structure State where
  warningZone_m : ℚ
  dangerZone_m : ℚ
  vehicleRealWidth_m : ℚ
  password : List Char
  lateralRange_L1 : ℚ
  lateralRange_L2 : ℚ
  lateralRange_L3 : ℚ
  lateralRange_L4 : ℚ
  autoZoom_enabled : Bool
  audioAlarm_enabled : Bool
  sideMargin_m : ℚ
  maxWidth_m : ℚ
  targetVisible : Bool
  buzzerShouldBeActive : Bool
  buzzerIsOn : Bool
  lastBuzzerToggleTime : Nat
  currentBeepInterval : Int
  buzzerPin : Bool
deriving DecidableEq, Repr

/-- The three locals set by step 2 of `handleDetection`. -/
structure VisualChoice where
  backgroundPicId : Int
  currentLateralRange_m : ℚ
  targetColor : Int
deriving DecidableEq, Repr

/-- Step 2 of `handleDetection` (v3.5.0). -/
def visualLogic (s : State) (polarRadius_m : ℚ) : VisualChoice :=
  if s.autoZoom_enabled then
    if polarRadius_m > s.warningZone_m then
      { backgroundPicId := PIC_ID_SAFE, currentLateralRange_m := s.lateralRange_L1,
        targetColor := COLOR_GREEN }
    else if polarRadius_m > s.dangerZone_m then
      { backgroundPicId := PIC_ID_WARNING, currentLateralRange_m := s.lateralRange_L2,
        targetColor := COLOR_YELLOW }
    else if polarRadius_m > 3 / 2 then
      { backgroundPicId := PIC_ID_DANGER, currentLateralRange_m := s.lateralRange_L3,
        targetColor := COLOR_ORANGE }
    else
      { backgroundPicId := PIC_ID_ALARM, currentLateralRange_m := s.lateralRange_L4,
        targetColor := COLOR_RED }
  else
    if polarRadius_m > s.warningZone_m then
      { backgroundPicId := PIC_ID_SAFE, currentLateralRange_m := s.maxWidth_m / 2,
        targetColor := COLOR_GREEN }
    else if polarRadius_m > s.dangerZone_m then
      { backgroundPicId := PIC_ID_WARNING, currentLateralRange_m := s.maxWidth_m / 2,
        targetColor := COLOR_YELLOW }
    else
      { backgroundPicId := PIC_ID_ALARM, currentLateralRange_m := s.maxWidth_m / 2,
        targetColor := COLOR_RED }

/-- The condition of the `if` of step 3 (v3.5.0). -/
def buzzerCondition (s : State) (polarRadius_m doc_y_m : ℚ) : Bool :=
  s.audioAlarm_enabled && decide (polarRadius_m < s.warningZone_m)
    && decide (|doc_y_m| < s.vehicleRealWidth_m / 2 + s.sideMargin_m)

/-- Step 3 of `handleDetection` (v3.5.0): the interval chain ends with an
`else if`, so the interval keeps its value when no branch applies. -/
def buzzerLogic (s : State) (polarRadius_m doc_y_m : ℚ) (backgroundPicId : Int) : State :=
  if buzzerCondition s polarRadius_m doc_y_m then
    { s with
      buzzerShouldBeActive := true,
      currentBeepInterval :=
        if polarRadius_m ≤ SOLID_TONE_DISTANCE_M then 0
        else if backgroundPicId = PIC_ID_ALARM then BEEP_INTERVAL_RED_MS
        else if backgroundPicId = PIC_ID_DANGER then BEEP_INTERVAL_ORANGE_MS
        else if backgroundPicId = PIC_ID_WARNING then BEEP_INTERVAL_YELLOW_MS
        else s.currentBeepInterval }
  else
    { s with buzzerShouldBeActive := false }

/-- The guard that opens step 4 and `updateVehicleDisplay`. -/
def guardRange (currentLateralRange_m : ℚ) : ℚ :=
  if currentLateralRange_m < 1 / 10 then DEFAULT_MAX_WIDTH_M / 2 else currentLateralRange_m

/-- Local `targetX_px` of step 4 after `constrain`; the argument is the
lateral range after the guard. -/
def targetX_px (currentLateralRange_m doc_y_m : ℚ) : Int :=
  let scale_x := doc_y_m / currentLateralRange_m
  constrain
    (toInt ((SCREEN_WIDTH_PX : ℚ) / 2 + scale_x * ((SCREEN_WIDTH_PX : ℚ) / 2) + 1 / 2))
    0 (SCREEN_WIDTH_PX - TARGET_OBJECT_SIZE_PX)

/-- Local `targetY_px` of step 4 after `constrain`. -/
def targetY_px (doc_x_m : ℚ) : Int :=
  constrain
    (toInt (((MAX_FORWARD_RANGE_M - doc_x_m) / MAX_FORWARD_RANGE_M) * (SCREEN_HEIGHT_PX : ℚ)))
    0 (SCREEN_HEIGHT_PX - TARGET_OBJECT_SIZE_PX)

/-- `updateVehicleDisplay` (v3.5.0). -/
def updateVehicleDisplay (s : State) (currentLateralRange_m : ℚ) : List Command :=
  let pixels_per_meter := (SCREEN_WIDTH_PX : ℚ) / (guardRange currentLateralRange_m * 2)
  let vehicle_width_px := toInt (s.vehicleRealWidth_m * pixels_per_meter + 1 / 2)
  let vehicle_x_px := toInt (((SCREEN_WIDTH_PX : ℚ) - (vehicle_width_px : ℚ)) / 2 + 1 / 2)
  let vehicle_y_px := SCREEN_HEIGHT_PX - VEHICLE_HEIGHT_PX
  [ Command.assign "rVehicle.w" vehicle_width_px,
    Command.assign "rVehicle.x" vehicle_x_px,
    Command.assign "rVehicle.y" vehicle_y_px,
    Command.assign "rVehicle.h" VEHICLE_HEIGHT_PX,
    Command.assign "rVehicle.bco" VEHICLE_COLOR ]

/-- `updateTargetDisplay` (v3.5.0). -/
def updateTargetDisplay (s : State) (x y color : Int) : State × List Command :=
  let r : State × List Command :=
    if !s.targetVisible then
      ({ s with targetVisible := true }, [Command.vis "rTarget" 1])
    else (s, [])
  (r.1, r.2 ++ [ Command.assign "rTarget.pco" color,
                 Command.assign "rTarget.x" x,
                 Command.assign "rTarget.y" y ])

/-- `updateTextDisplays` (v3.5.0). -/
def updateTextDisplays (radius : ℚ) (angle : Int) (x_m y_m : ℚ) : List Command :=
  [ Command.text "tDurum.txt" [TextPart.lit "Algilandi"],
    Command.text "tMesafe.txt" [TextPart.fixed2 radius, TextPart.lit " m"],
    Command.text "tAci.txt" [TextPart.int angle, TextPart.lit " derece"],
    Command.text "tX.txt" [TextPart.lit "Y: ", TextPart.fixed2 y_m, TextPart.lit " m"],
    Command.text "tY.txt" [TextPart.lit "X: ", TextPart.fixed2 x_m, TextPart.lit " m"] ]

/-- `clearDetection` (v3.5.0). -/
def clearDetection (s : State) : State × List Command :=
  ({ s with targetVisible := false, buzzerShouldBeActive := false },
   [ Command.vis "rTarget" 0, Command.assign "page0.pic" PIC_ID_SAFE ]
     ++ updateVehicleDisplay s (if s.autoZoom_enabled then s.lateralRange_L1 else s.maxWidth_m / 2)
     ++ [ Command.text "tDurum.txt" [TextPart.lit "Temiz"],
          Command.text "tMesafe.txt" [TextPart.lit "--"],
          Command.text "tAci.txt" [TextPart.lit "--"],
          Command.text "tX.txt" [TextPart.lit "--"],
          Command.text "tY.txt" [TextPart.lit "--"] ])

/-- `handleDetection` (v3.5.0). -/
def handleDetection (s : State) (msg : twai_message_t) : State × List Command :=
  let r := polarRadius_m msg
  let angle := polarAngle_deg msg
  let x_m := doc_x_m msg
  let y_m := doc_y_m msg
  let v := visualLogic s r
  let s1 := buzzerLogic s r y_m v.backgroundPicId
  let range := guardRange v.currentLateralRange_m
  let tx := targetX_px range y_m
  let ty := targetY_px x_m
  let t := updateTargetDisplay s1 tx ty v.targetColor
  (t.1,
   [Command.assign "page0.pic" v.backgroundPicId]
     ++ updateVehicleDisplay s1 range
     ++ t.2
     ++ updateTextDisplays r angle y_m x_m)

/-- `handleBuzzer` (v3.5.0); `millis` is the value `millis()` returns. -/
def handleBuzzer (s : State) (millis : Nat) : State :=
  if !s.buzzerShouldBeActive then
    if s.buzzerIsOn then { s with buzzerPin := false, buzzerIsOn := false } else s
  else
    let currentTime := millis % 2 ^ 32
    if s.currentBeepInterval = 0 then
      if !s.buzzerIsOn then { s with buzzerPin := true, buzzerIsOn := true } else s
    else if s.buzzerIsOn then
      if subUnsignedLong currentTime s.lastBuzzerToggleTime ≥ toUnsignedLong BEEP_ON_DURATION_MS then
        { s with buzzerPin := false, buzzerIsOn := false, lastBuzzerToggleTime := currentTime }
      else s
    else
      if subUnsignedLong currentTime s.lastBuzzerToggleTime ≥ toUnsignedLong s.currentBeepInterval then
        { s with buzzerPin := true, buzzerIsOn := true, lastBuzzerToggleTime := currentTime }
      else s

/-- The result of one pass of `loop` (v3.5.0). -/
structure LoopResult where
  state : State
  sent : List Command
  detectionThisCycle : Bool
deriving DecidableEq, Repr

/-- One pass of `loop` (v3.5.0); the arguments are those of `RCPS.loop`. -/
def loop (handleNextionInput : State → State × List Command)
    (rx : Option twai_message_t) (millis : Nat) (s : State) : LoopResult :=
  let h := handleNextionInput s
  let d : (State × List Command) × Bool :=
    match rx with
    | some message =>
      if message.identifier ≥ 0x310 ∧ message.identifier ≤ 0x38F then
        let validDetection := !decide ((message.data 7).val &&& 1 ≠ 0)
        if validDetection then (handleDetection h.1 message, true)
        else ((h.1, []), false)
      else ((h.1, []), false)
    | none => ((h.1, []), false)
  let detectionThisCycle := d.2
  let c : State × List Command :=
    if !detectionThisCycle && d.1.1.targetVisible then clearDetection d.1.1
    else (d.1.1, [])
  { state := handleBuzzer c.1 millis,
    sent := h.2 ++ d.1.2 ++ c.2,
    detectionThisCycle := detectionThisCycle }

/-- The state after `handleBuzzer` (v3.5.0) has been called once at every
millisecond `t0 + 1, ..., t0 + k`, starting from `s`. -/
def buzzerRun (s : State) (t0 : Nat) : Nat → State
  | 0 => s
  | k + 1 => handleBuzzer (buzzerRun s t0 k) (t0 + (k + 1))

/-! ### The settings in the EEPROM (v3.5.0) -/

def ADDR_LATERAL_L1 : Nat := 28
def ADDR_LATERAL_L2 : Nat := 32
def ADDR_LATERAL_L3 : Nat := 36
def ADDR_LATERAL_L4 : Nat := 40

namespace Store

/-- The settings globals of v3.5.0, as objects; `password` is a `char[10]`. -/
structure SettingsObjects where
  warningZone_m : Fin 4 → Fin 256
  dangerZone_m : Fin 4 → Fin 256
  vehicleRealWidth_m : Fin 4 → Fin 256
  password : Fin 10 → Fin 256
  lateralRange_L1 : Fin 4 → Fin 256
  lateralRange_L2 : Fin 4 → Fin 256
  lateralRange_L3 : Fin 4 → Fin 256
  lateralRange_L4 : Fin 4 → Fin 256
  autoZoom_enabled : Bool
  audioAlarm_enabled : Bool
  sideMargin_m : Fin 4 → Fin 256
  maxWidth_m : Fin 4 → Fin 256

/-- `DEFAULT_VEHICLE_WIDTH_M = 3.0` as a `float` object (0x40400000). -/
def DEFAULT_VEHICLE_WIDTH_M : Fin 4 → Fin 256 := ![0x00, 0x00, 0x40, 0x40]
/-- `DEFAULT_PASSWORD`, the text `1234` and its terminating zero byte. -/
def DEFAULT_PASSWORD : Fin 5 → Fin 256 := ![49, 50, 51, 52, 0]
/-- `DEFAULT_LATERAL_L1 = 6.0` as a `float` object (0x40C00000). -/
def DEFAULT_LATERAL_L1 : Fin 4 → Fin 256 := ![0x00, 0x00, 0xC0, 0x40]
/-- `DEFAULT_LATERAL_L2 = 5.0` as a `float` object (0x40A00000). -/
def DEFAULT_LATERAL_L2 : Fin 4 → Fin 256 := ![0x00, 0x00, 0xA0, 0x40]
/-- `DEFAULT_LATERAL_L3 = 3.0` as a `float` object (0x40400000). -/
def DEFAULT_LATERAL_L3 : Fin 4 → Fin 256 := ![0x00, 0x00, 0x40, 0x40]
/-- `DEFAULT_LATERAL_L4 = 2.0` as a `float` object (0x40000000). -/
def DEFAULT_LATERAL_L4 : Fin 4 → Fin 256 := ![0x00, 0x00, 0x00, 0x40]

/-- `saveSettingsToEEPROM` (v3.5.0): the store after the thirteen `EEPROM.put`
calls and the `EEPROM.commit()`. -/
def saveSettingsToEEPROM (g : SettingsObjects) (e : EEPROMClass) : EEPROMClass :=
  let e1 := EEPROM_put e ADDR_MAGIC_KEY (intObject EEPROM_MAGIC_KEY)
  let e2 := EEPROM_put e1 ADDR_WARN_ZONE g.warningZone_m
  let e3 := EEPROM_put e2 ADDR_DANGER_ZONE g.dangerZone_m
  let e4 := EEPROM_put e3 ADDR_VEHICLE_WIDTH g.vehicleRealWidth_m
  let e5 := EEPROM_put e4 ADDR_PASSWORD g.password
  let e6 := EEPROM_put e5 ADDR_LATERAL_L1 g.lateralRange_L1
  let e7 := EEPROM_put e6 ADDR_LATERAL_L2 g.lateralRange_L2
  let e8 := EEPROM_put e7 ADDR_LATERAL_L3 g.lateralRange_L3
  let e9 := EEPROM_put e8 ADDR_LATERAL_L4 g.lateralRange_L4
  let e10 := EEPROM_put e9 ADDR_AUTOZOOM_EN (boolObject g.autoZoom_enabled)
  let e11 := EEPROM_put e10 ADDR_AUDIOALARM_EN (boolObject g.audioAlarm_enabled)
  let e12 := EEPROM_put e11 ADDR_SIDE_MARGIN g.sideMargin_m
  EEPROM_put e12 ADDR_MAX_WIDTH g.maxWidth_m

/-- What a function that may save leaves (v3.5.0). -/
structure Result where
  globals : SettingsObjects
  eeprom : EEPROMClass
  saves : Nat

/-- `resetToDefaults` (v3.5.0); `strcpy` overwrites the first five bytes of
`password`. -/
def resetToDefaults (g : SettingsObjects) (e : EEPROMClass) : Result :=
  let g1 : SettingsObjects :=
    { warningZone_m := RCPS.Store.DEFAULT_WARNING_ZONE_M,
      dangerZone_m := RCPS.Store.DEFAULT_DANGER_ZONE_M,
      vehicleRealWidth_m := DEFAULT_VEHICLE_WIDTH_M,
      password := fun j => if h : j.val < 5 then DEFAULT_PASSWORD ⟨j.val, h⟩ else g.password j,
      lateralRange_L1 := DEFAULT_LATERAL_L1,
      lateralRange_L2 := DEFAULT_LATERAL_L2,
      lateralRange_L3 := DEFAULT_LATERAL_L3,
      lateralRange_L4 := DEFAULT_LATERAL_L4,
      autoZoom_enabled := DEFAULT_AUTOZOOM_EN,
      audioAlarm_enabled := DEFAULT_AUDIOALARM_EN,
      sideMargin_m := RCPS.Store.DEFAULT_SIDE_MARGIN_M,
      maxWidth_m := RCPS.Store.DEFAULT_MAX_WIDTH_M }
  { globals := g1, eeprom := saveSettingsToEEPROM g1 e, saves := 1 }

/-- `loadSettingsFromEEPROM` (v3.5.0), up to its call of
`sendSettingsToNextion`; `g` holds the globals before the call. -/
def loadSettingsFromEEPROM (g : SettingsObjects) (e : EEPROMClass) : Result :=
  if ((EEPROM_read e ADDR_MAGIC_KEY).val : Int) ≠ EEPROM_MAGIC_KEY then resetToDefaults g e
  else
    { globals :=
        { warningZone_m := EEPROM_get e ADDR_WARN_ZONE g.warningZone_m,
          dangerZone_m := EEPROM_get e ADDR_DANGER_ZONE g.dangerZone_m,
          vehicleRealWidth_m := EEPROM_get e ADDR_VEHICLE_WIDTH g.vehicleRealWidth_m,
          password := EEPROM_get e ADDR_PASSWORD g.password,
          lateralRange_L1 := EEPROM_get e ADDR_LATERAL_L1 g.lateralRange_L1,
          lateralRange_L2 := EEPROM_get e ADDR_LATERAL_L2 g.lateralRange_L2,
          lateralRange_L3 := EEPROM_get e ADDR_LATERAL_L3 g.lateralRange_L3,
          lateralRange_L4 := EEPROM_get e ADDR_LATERAL_L4 g.lateralRange_L4,
          autoZoom_enabled :=
            objectBool (EEPROM_get e ADDR_AUTOZOOM_EN (boolObject g.autoZoom_enabled)),
          audioAlarm_enabled :=
            objectBool (EEPROM_get e ADDR_AUDIOALARM_EN (boolObject g.audioAlarm_enabled)),
          sideMargin_m := EEPROM_get e ADDR_SIDE_MARGIN g.sideMargin_m,
          maxWidth_m := EEPROM_get e ADDR_MAX_WIDTH g.maxWidth_m },
      eeprom := e,
      saves := 0 }

/-- The byte ranges `(address, size)` of the thirteen objects
`saveSettingsToEEPROM` writes (v3.5.0). -/
def fieldRanges : List (Nat × Nat) :=
  [ (ADDR_MAGIC_KEY, 4), (ADDR_WARN_ZONE, 4), (ADDR_DANGER_ZONE, 4), (ADDR_VEHICLE_WIDTH, 4),
    (ADDR_PASSWORD, 10), (ADDR_LATERAL_L1, 4), (ADDR_LATERAL_L2, 4), (ADDR_LATERAL_L3, 4),
    (ADDR_LATERAL_L4, 4), (ADDR_AUTOZOOM_EN, 1), (ADDR_AUDIOALARM_EN, 1),
    (ADDR_SIDE_MARGIN, 4), (ADDR_MAX_WIDTH, 4) ]

end Store

end V350

/-! ## Reference definitions, written from the specification -/

namespace Spec

/-- Validity rule of the specification: the identifier lies in the sensor's
range `0x310 .. 0x38F` and bit 0 of byte 7 is clear. -/
def validFrame (msg : twai_message_t) : Prop :=
  0x310 ≤ msg.identifier ∧ msg.identifier ≤ 0x38F ∧ (msg.data 7).val % 2 = 0

instance (msg : twai_message_t) : Decidable (validFrame msg) := by
  unfold validFrame; infer_instance

/-- Rounding to the nearest integer, halves up: `floor (v + 1/2)`. -/
def round (v : ℚ) : Int := ⌊v + 1 / 2⌋

/-- Clamping `v` into `[lo, hi]`. -/
def clamp (v lo hi : Int) : Int := max lo (min v hi)

/-- Pixels per metre, `scale = screenWidthPx / gridWidth_m`. -/
def scale (gridWidth_m : ℚ) : ℚ := 272 / gridWidth_m

/-- Horizontal pixel of the target marker,
`clamp (round ((lateral_m + gridWidth_m / 2) * scale)) 0 242`. -/
def pixelX (lateral_m gridWidth_m : ℚ) : Int :=
  clamp (round ((lateral_m + gridWidth_m / 2) * scale gridWidth_m)) 0 242

/-- Vertical pixel of the target marker,
`clamp (round (480 - forward_m * scale)) 0 450`. -/
def pixelY (forward_m gridWidth_m : ℚ) : Int :=
  clamp (round (480 - forward_m * scale gridWidth_m)) 0 450

/-- Width of the vehicle indicator: the grid width is replaced by 10 when it
is below 0.1, then `clamp (round (vehicleWidth_m * scale)) 2 272`. -/
def vehicleWidthPx (vehicleWidth_m gridWidth_m : ℚ) : Int :=
  let g := if gridWidth_m < 1 / 10 then 10 else gridWidth_m
  clamp (round (vehicleWidth_m * scale g)) 2 272

/-- Left edge of the vehicle indicator, `max 0 (round ((272 - widthPx) / 2))`. -/
def vehicleX (widthPx : Int) : Int :=
  max 0 (round ((272 - (widthPx : ℚ)) / 2))

/-- A pass of the loop without a valid detection: the sensor poll times out,
or the frame received is rejected by the validity rule. -/
def noDetection (rx : Option twai_message_t) : Prop :=
  ∀ msg : twai_message_t, rx = some msg → ¬ validFrame msg

/-- The non-empty comma-separated fields of a command payload. -/
def fields (payload : List Char) : List (List Char) :=
  (payload.splitOn ',').filter (fun f => decide (f ≠ []))

/-- The decimal text of a non-negative integer, as `toString` prints it. -/
def decimal (a : Nat) : List Char := Nat.toDigits 10 a

/-- The text of the command `SAVE1:a,b`. -/
def save1Command (a b : Nat) : List Char :=
  "SAVE1:".toList ++ decimal a ++ ',' :: decimal b

/-- The text of the command `SAVE2:a,b,c`. -/
def save2Command (a b c : Nat) : List Char :=
  "SAVE2:".toList ++ decimal a ++ ',' :: (decimal b ++ ',' :: decimal c)

/-- The text of the command `SAVE3:a,b`. -/
def save3Command (a b : Nat) : List Char :=
  "SAVE3:".toList ++ decimal a ++ ',' :: decimal b

/-- The state of the phase layer. -/
structure Phase where
  audioEnabled : Bool
  shouldBeActive : Bool
  isOn : Bool
  lastToggle : Nat
  interval : Int
deriving DecidableEq, Repr

/-- The unsigned 32-bit difference `(now - lastToggle) mod 2^32`. -/
def elapsed (now lastToggle : Nat) : Int := ((now : Int) - (lastToggle : Int)) % 2 ^ 32

/-- The step of the phase layer at clock value `now`: off when the audio is
disabled or the buzzer is not armed; on when the interval is 0; otherwise a
buzzer that is on turns off, recording `now`, once 60 ms have elapsed, and one
that is off turns on, recording `now`, once the interval has elapsed. -/
def phaseStep (p : Phase) (now : Nat) : Phase :=
  if p.audioEnabled = false ∨ p.shouldBeActive = false then { p with isOn := false }
  else if p.interval = 0 then { p with isOn := true }
  else if p.isOn = true then
    (if elapsed now p.lastToggle ≥ 60 then { p with isOn := false, lastToggle := now } else p)
  else
    (if elapsed now p.lastToggle ≥ p.interval then { p with isOn := true, lastToggle := now }
     else p)

/-- The phase layer stepped once at every millisecond `t0 + 1, ..., t0 + k`,
each time with the reading of the 32-bit clock. -/
def phaseRun (p : Phase) (t0 : Nat) : Nat → Phase
  | 0 => p
  | k + 1 => phaseStep (phaseRun p t0 k) ((t0 + (k + 1)) % 2 ^ 32)

/-- The invariant of the specification: all distance settings are
non-negative. -/
def distancesNonneg (s : State) : Prop :=
  0 ≤ s.warningZone_m ∧ 0 ≤ s.dangerZone_m ∧ 0 ≤ s.vehicleRealWidth_m
    ∧ 0 ≤ s.sideMargin_m ∧ 0 ≤ s.maxWidth_m

/-- The tenth of `a` as the firmware computes it: the `double` nearest to `a`,
divided by 10.0 in `double` arithmetic, converted to `float`. -/
def machineTenth (a : Nat) : Floating :=
  ((roundToDouble (a : ℚ)).divDouble 10).toFloat

end Spec

/-! ## The globals as the phase layer sees them -/

/-- The phase layer's view of the globals. -/
def phase (s : State) : Spec.Phase :=
  { audioEnabled := s.audioAlarm_enabled, shouldBeActive := s.buzzerShouldBeActive,
    isOn := s.buzzerIsOn, lastToggle := s.lastBuzzerToggleTime,
    interval := s.currentBeepInterval }

/-- The phase layer's view of the globals of v3.5.0, whose `handleBuzzer`
does not read the audio setting. -/
def V350.phase (s : V350.State) : Spec.Phase :=
  { audioEnabled := true, shouldBeActive := s.buzzerShouldBeActive,
    isOn := s.buzzerIsOn, lastToggle := s.lastBuzzerToggleTime,
    interval := s.currentBeepInterval }

/-! ## Example inputs -/

/-- A state with the audio alarm switched off while the buzzer is sounding. -/
def mutedWhileOn : State :=
  { warningZone_m := 5, dangerZone_m := 2, vehicleRealWidth_m := 2,
    autoZoom_enabled := true, audioAlarm_enabled := false,
    sideMargin_m := 1 / 2, maxWidth_m := 10,
    targetVisible := true, buzzerShouldBeActive := true, buzzerIsOn := true,
    lastBuzzerToggleTime := 0, currentBeepInterval := 80, buzzerPin := true }

/-- A frame of a target 0.5 m away, straight ahead: bytes 2, 128, 2, 128 and
four zero bytes, identifier 0x310. -/
def nearFrame : twai_message_t :=
  { identifier := 0x310, data := ![2, 128, 2, 128, 0, 0, 0, 0] }

/-- The frame of the end-to-end scenario: bytes 20, 128, 12, 118 and four
zero bytes, identifier 0x310. -/
def scenarioFrame : twai_message_t :=
  { identifier := 0x310, data := ![20, 128, 12, 118, 0, 0, 0, 0] }

/-- A state in which the buzzer is armed with the 200 ms interval and is
off, with the last toggle at time 0 and the audio alarm enabled. -/
def pulseStart : State :=
  { warningZone_m := 5, dangerZone_m := 2, vehicleRealWidth_m := 2,
    autoZoom_enabled := true, audioAlarm_enabled := true,
    sideMargin_m := 1 / 2, maxWidth_m := 10,
    targetVisible := true, buzzerShouldBeActive := true, buzzerIsOn := false,
    lastBuzzerToggleTime := 0, currentBeepInterval := BEEP_INTERVAL_ORANGE_MS,
    buzzerPin := false }

/-- The three bytes `0xFF 0xFF 0xFF` that end every message of the display. -/
def endOfMessage : List Char := [Char.ofNat 255, Char.ofNat 255, Char.ofNat 255]

/-- A target is reported 0.5 m ahead, the buzzer is ticked at 100 ms, then
the display sends `SAVE3:1,0` (auto-zoom on, audio off). -/
def muteWhileSounding : List Operation :=
  [ Operation.detection nearFrame, Operation.buzzer 100,
    Operation.hmi ("SAVE3:1,0".toList ++ endOfMessage) ]

/-- A frame in the sensor's identifier range whose validity bit (byte 7,
bit 0) is set. -/
def invalidFrame : twai_message_t :=
  { identifier := 0x310, data := ![2, 128, 2, 128, 0, 0, 0, 1] }

/-- Three passes of `loop` without a valid detection: a time-out, a frame
with the validity bit set, and a frame with identifier 0x100; no bytes from
the display. -/
def idleRun : List CycleInput :=
  [ { serial := [], rx := none, millis := 0 },
    { serial := [], rx := some invalidFrame, millis := 50 },
    { serial := [], rx := some { nearFrame with identifier := 0x100 }, millis := 100 } ]

/-- The state `pulseStart` with auto-zoom switched off. -/
def manualMode : State := { pulseStart with autoZoom_enabled := false }

/-- A frame of a target 2 m away, straight ahead: bytes 8, 128, 8, 128 and
four zero bytes, identifier 0x310. -/
def midFrame : twai_message_t :=
  { identifier := 0x310, data := ![8, 128, 8, 128, 0, 0, 0, 0] }

/-- An erased store: every byte is 0xFF. -/
def blankStore : EEPROMClass := fun _ => 255

/-! # Theorems -/

/-! ## Shape of the results of the display functions -/

theorem updateTargetDisplay_fst (s : State) (x y color : Int) :
    (updateTargetDisplay s x y color).1 = { s with targetVisible := true } := by
  cases h : s.targetVisible
  · simp [updateTargetDisplay, h]
  · simp only [updateTargetDisplay, h, Bool.not_true, Bool.false_eq_true, if_false]
    rw [← h]

theorem updateTargetDisplay_snd (s : State) (x y color : Int) :
    (updateTargetDisplay s x y color).2 =
      (if s.targetVisible then [] else [Command.vis "rTarget" 1]) ++
        [Command.assign "rTarget.pco" color, Command.assign "rTarget.x" x,
          Command.assign "rTarget.y" y] := by
  cases h : s.targetVisible <;> simp [updateTargetDisplay, h]

theorem buzzerLogic_targetVisible (s : State) (r y : ℚ) (pic : Int) :
    (buzzerLogic s r y pic).targetVisible = s.targetVisible := by
  unfold buzzerLogic; split <;> rfl

theorem buzzerLogic_vehicleRealWidth_m (s : State) (r y : ℚ) (pic : Int) :
    (buzzerLogic s r y pic).vehicleRealWidth_m = s.vehicleRealWidth_m := by
  unfold buzzerLogic; split <;> rfl

theorem handleDetection_fst (s : State) (msg : twai_message_t) :
    (handleDetection s msg).1 =
      { buzzerLogic s (polarRadius_m msg) (doc_y_m msg) (selectedGrid s msg).backgroundPicId
        with targetVisible := true } := by
  simp only [handleDetection, updateTargetDisplay_fst]

theorem handleDetection_snd (s : State) (msg : twai_message_t) :
    (handleDetection s msg).2 =
      [Command.assign "page0.pic" (selectedGrid s msg).backgroundPicId]
        ++ updateVehicleDisplay s (selectedGrid s msg).currentMaxGridXMeters
        ++ ((if s.targetVisible then [] else [Command.vis "rTarget" 1]) ++
            [Command.assign "rTarget.pco" (selectedGrid s msg).targetColor,
              Command.assign "rTarget.x"
                (targetX_px (selectedGrid s msg).currentMaxGridXMeters (doc_y_m msg)),
              Command.assign "rTarget.y"
                (targetY_px (selectedGrid s msg).currentMaxGridXMeters (doc_x_m msg))])
        ++ updateTextDisplays (polarRadius_m msg) (polarAngle_deg msg) (doc_y_m msg)
            (doc_x_m msg) := by
  simp only [handleDetection, updateTargetDisplay_snd, buzzerLogic_targetVisible,
    updateVehicleDisplay, buzzerLogic_vehicleRealWidth_m]

/-! ## Decoding -/

theorem handleDetection_textSuffix_v350 (s : V350.State) (msg : twai_message_t) :
    V350.updateTextDisplays (polarRadius_m msg) (polarAngle_deg msg) (doc_y_m msg) (doc_x_m msg)
      <:+ (V350.handleDetection s msg).2 := by
  simp only [V350.handleDetection]
  exact List.suffix_append _ _

theorem handleDetection_congr_bytes (s : State) (msg other : twai_message_t)
    (h0 : other.data 0 = msg.data 0) (h1 : other.data 1 = msg.data 1)
    (h2 : other.data 2 = msg.data 2) (h3 : other.data 3 = msg.data 3) :
    handleDetection s other = handleDetection s msg := by
  simp only [handleDetection, selectedGrid, polarRadius_m, polarAngle_deg, doc_x_m, doc_y_m,
    h0, h1, h2, h3]

theorem handleDetection_congr_bytes_v350 (s : V350.State) (msg other : twai_message_t)
    (h0 : other.data 0 = msg.data 0) (h1 : other.data 1 = msg.data 1)
    (h2 : other.data 2 = msg.data 2) (h3 : other.data 3 = msg.data 3) :
    V350.handleDetection s other = V350.handleDetection s msg := by
  simp only [V350.handleDetection, polarRadius_m, polarAngle_deg, doc_x_m, doc_y_m,
    h0, h1, h2, h3]

theorem byte_bounds (b : Fin 256) : (0 : ℚ) ≤ (b.val : ℚ) ∧ (b.val : ℚ) ≤ 255 := by
  constructor
  · exact Nat.cast_nonneg _
  · have h : b.val ≤ 255 := by omega
    exact_mod_cast h

/-- C1. Detection decoding: `handleDetection` (both revisions) works with
range = byte0 * 0.25, angle = byte1 - 128, forward = byte2 * 0.25 and
lateral = (byte3 - 128) * 0.25, and sends exactly these values to the text
fields; they lie in [0, 63.75], [-128, 127], [0, 63.75] and [-32, 31.75]; a
frame that agrees on bytes 0..3 gives the same result whatever its bytes 4..7
and identifier are. -/
theorem detection_decoding (s : State) (v : V350.State) (msg : twai_message_t) :
    (polarRadius_m msg = ((msg.data 0).val : ℚ) * (1 / 4)
      ∧ polarAngle_deg msg = ((msg.data 1).val : Int) - 128
      ∧ doc_x_m msg = ((msg.data 2).val : ℚ) * (1 / 4)
      ∧ doc_y_m msg = (((msg.data 3).val : ℚ) - 128) * (1 / 4))
    ∧ (updateTextDisplays (((msg.data 0).val : ℚ) * (1 / 4)) (((msg.data 1).val : Int) - 128)
          ((((msg.data 3).val : ℚ) - 128) * (1 / 4)) (((msg.data 2).val : ℚ) * (1 / 4))
        <:+ (handleDetection s msg).2)
    ∧ (V350.updateTextDisplays (((msg.data 0).val : ℚ) * (1 / 4))
          (((msg.data 1).val : Int) - 128)
          ((((msg.data 3).val : ℚ) - 128) * (1 / 4)) (((msg.data 2).val : ℚ) * (1 / 4))
        <:+ (V350.handleDetection v msg).2)
    ∧ (0 ≤ polarRadius_m msg ∧ polarRadius_m msg ≤ 255 / 4)
    ∧ (-128 ≤ polarAngle_deg msg ∧ polarAngle_deg msg ≤ 127)
    ∧ (0 ≤ doc_x_m msg ∧ doc_x_m msg ≤ 255 / 4)
    ∧ (-32 ≤ doc_y_m msg ∧ doc_y_m msg ≤ 127 / 4)
    ∧ (∀ other : twai_message_t,
        (other.data 0 = msg.data 0 ∧ other.data 1 = msg.data 1
          ∧ other.data 2 = msg.data 2 ∧ other.data 3 = msg.data 3) →
        handleDetection s other = handleDetection s msg
          ∧ V350.handleDetection v other = V350.handleDetection v msg) := by
  have hy : doc_y_m msg = (((msg.data 3).val : ℚ) - 128) * (1 / 4) := by
    simp [doc_y_m]
  have b0 := byte_bounds (msg.data 0)
  have b2 := byte_bounds (msg.data 2)
  have b3 := byte_bounds (msg.data 3)
  have b1 : (msg.data 1).val ≤ 255 := by omega
  refine ⟨⟨rfl, rfl, rfl, hy⟩, ?_, ?_, ?_, ?_, ?_, ?_, ?_⟩
  · rw [← hy]
    simp only [handleDetection]
    exact List.suffix_append _ _
  · rw [← hy]
    exact handleDetection_textSuffix_v350 v msg
  · simp only [polarRadius_m]; constructor <;> linarith [b0.1, b0.2]
  · simp only [polarAngle_deg]; constructor <;> omega
  · simp only [doc_x_m]; constructor <;> linarith [b2.1, b2.2]
  · rw [hy]; constructor <;> linarith [b3.1, b3.2]
  · rintro other ⟨h0, h1, h2, h3⟩
    exact ⟨handleDetection_congr_bytes s msg other h0 h1 h2 h3,
      handleDetection_congr_bytes_v350 v msg other h0 h1 h2 h3⟩

/-! ## Validity rule -/

theorem handleDetection_targetVisible (s : State) (msg : twai_message_t) :
    (handleDetection s msg).1.targetVisible = true := by
  rw [handleDetection_fst]

theorem updateTargetDisplay_targetVisible_v350 (s : V350.State) (x y color : Int) :
    (V350.updateTargetDisplay s x y color).1.targetVisible = true := by
  cases h : s.targetVisible <;> simp [V350.updateTargetDisplay, h]

theorem handleDetection_targetVisible_v350 (s : V350.State) (msg : twai_message_t) :
    (V350.handleDetection s msg).1.targetVisible = true := by
  simp only [V350.handleDetection, updateTargetDisplay_targetVisible_v350]

theorem validDetection_iff (msg : twai_message_t) :
    ((msg.identifier ≥ 0x310 ∧ msg.identifier ≤ 0x38F)
        ∧ (!decide ((msg.data 7).val &&& 1 ≠ 0)) = true) ↔ Spec.validFrame msg := by
  simp only [Spec.validFrame, Nat.and_one_is_mod, ne_eq, decide_not, Bool.not_not,
    decide_eq_true_eq, ge_iff_le, and_assoc]

/-- C2. Validity rule: in one pass of `loop` (both revisions) that receives a
frame, `handleDetection` is called, and `detectionThisCycle` set, exactly when
the identifier lies in 0x310..0x38F and bit 0 of byte 7 is 0.  Then the pass
is `handleNextionInput`, `handleDetection` on that frame, `handleBuzzer`; for
every other frame it is `handleNextionInput`, `clearDetection` if the target
is visible, `handleBuzzer`, with no call of `handleDetection`. -/
theorem loop_validity_rule (h : State → State × List Command)
    (hv : V350.State → V350.State × List Command)
    (msg : twai_message_t) (millis : Nat) (s : State) (v : V350.State) :
    ((loop h (some msg) millis s).detectionThisCycle = true ↔ Spec.validFrame msg)
    ∧ loop h (some msg) millis s =
        (if Spec.validFrame msg then
          { state := handleBuzzer (handleDetection (h s).1 msg).1 millis,
            sent := (h s).2 ++ (handleDetection (h s).1 msg).2,
            detectionThisCycle := true }
        else
          { state := handleBuzzer
              (if (h s).1.targetVisible then (clearDetection (h s).1).1 else (h s).1) millis,
            sent := (h s).2 ++
              (if (h s).1.targetVisible then (clearDetection (h s).1).2 else []),
            detectionThisCycle := false })
    ∧ ((V350.loop hv (some msg) millis v).detectionThisCycle = true ↔ Spec.validFrame msg)
    ∧ V350.loop hv (some msg) millis v =
        (if Spec.validFrame msg then
          { state := V350.handleBuzzer (V350.handleDetection (hv v).1 msg).1 millis,
            sent := (hv v).2 ++ (V350.handleDetection (hv v).1 msg).2,
            detectionThisCycle := true }
        else
          { state := V350.handleBuzzer
              (if (hv v).1.targetVisible then (V350.clearDetection (hv v).1).1
                else (hv v).1) millis,
            sent := (hv v).2 ++
              (if (hv v).1.targetVisible then (V350.clearDetection (hv v).1).2 else []),
            detectionThisCycle := false }) := by
  have key := validDetection_iff msg
  by_cases hvalid : Spec.validFrame msg
  · obtain ⟨hid, hbit⟩ := key.mpr hvalid
    simp only [loop, V350.loop, hid, hbit, hvalid, if_true, and_self,
      handleDetection_targetVisible, handleDetection_targetVisible_v350]
    simp
  · have hno : ¬ ((msg.identifier ≥ 0x310 ∧ msg.identifier ≤ 0x38F)
        ∧ (!decide ((msg.data 7).val &&& 1 ≠ 0)) = true) := fun hc => hvalid (key.mp hc)
    by_cases hid : msg.identifier ≥ 0x310 ∧ msg.identifier ≤ 0x38F
    · have hbit : (!decide ((msg.data 7).val &&& 1 ≠ 0)) = false := by
        cases hb : (!decide ((msg.data 7).val &&& 1 ≠ 0))
        · rfl
        · exact absurd ⟨hid, hb⟩ hno
      simp only [loop, V350.loop, hid, hbit, hvalid]
      refine ⟨by simp, ?_, by simp, ?_⟩
      · cases hh : (h s).1.targetVisible <;> simp [hh]
      · cases hh : (hv v).1.targetVisible <;> simp [hh]
    · simp only [loop, V350.loop, hid, hvalid]
      refine ⟨by simp, ?_, by simp, ?_⟩
      · cases hh : (h s).1.targetVisible <;> simp [hh]
      · cases hh : (hv v).1.targetVisible <;> simp [hh]

/-! ## Grid selection -/

/-- C3. Zoom selector, auto-zoom on (v3.7.0): for every range r and whatever
the two thresholds are, the choice is grid 10 / picture 4 / green iff r > 5,
grid 8 / picture 1 / yellow iff 3 < r <= 5, grid 6 / picture 2 / orange iff
1.5 < r <= 3, grid 4 / picture 0 / red iff r <= 1.5; the thresholds play no
part; r = 5.001, 5, 2, 1 give grids 10, 8, 6, 4. -/
theorem autoZoom_tiers (warningZone_m dangerZone_m r : ℚ) :
    (selectGrid true warningZone_m dangerZone_m r
        = { currentMaxGridXMeters := 10, backgroundPicId := 4, targetColor := 2016 } ↔ r > 5)
    ∧ (selectGrid true warningZone_m dangerZone_m r
        = { currentMaxGridXMeters := 8, backgroundPicId := 1, targetColor := 65504 }
          ↔ 3 < r ∧ r ≤ 5)
    ∧ (selectGrid true warningZone_m dangerZone_m r
        = { currentMaxGridXMeters := 6, backgroundPicId := 2, targetColor := 64512 }
          ↔ 3 / 2 < r ∧ r ≤ 3)
    ∧ (selectGrid true warningZone_m dangerZone_m r
        = { currentMaxGridXMeters := 4, backgroundPicId := 0, targetColor := 63488 }
          ↔ r ≤ 3 / 2)
    ∧ (∀ w d : ℚ, selectGrid true w d r = selectGrid true warningZone_m dangerZone_m r)
    ∧ (∀ (s : State) (msg : twai_message_t),
        Command.assign "page0.pic"
            (selectGrid true warningZone_m dangerZone_m (polarRadius_m msg)).backgroundPicId
          ∈ (handleDetection { s with autoZoom_enabled := true } msg).2
        ∧ Command.assign "rTarget.pco"
            (selectGrid true warningZone_m dangerZone_m (polarRadius_m msg)).targetColor
          ∈ (handleDetection { s with autoZoom_enabled := true } msg).2)
    ∧ (selectGrid true warningZone_m dangerZone_m (5001 / 1000)).currentMaxGridXMeters = 10
    ∧ (selectGrid true warningZone_m dangerZone_m 5).currentMaxGridXMeters = 8
    ∧ (selectGrid true warningZone_m dangerZone_m 2).currentMaxGridXMeters = 6
    ∧ (selectGrid true warningZone_m dangerZone_m 1).currentMaxGridXMeters = 4 := by
  refine ⟨?_, ?_, ?_, ?_, ?_, ?_, ?_, ?_, ?_, ?_⟩
  · by_cases h5 : r > 5
    · simp [selectGrid, h5, PIC_ID_SAFE, COLOR_GREEN]
    · by_cases h3 : r > 3
      · simp [selectGrid, h5, h3, PIC_ID_WARNING, COLOR_YELLOW]
      · by_cases h1 : r > 3 / 2
        · simp [selectGrid, h5, h3, h1, PIC_ID_DANGER, COLOR_ORANGE]
        · simp [selectGrid, h5, h3, h1, PIC_ID_ALARM, COLOR_RED]
  · by_cases h5 : r > 5
    · simp [selectGrid, h5, PIC_ID_SAFE, COLOR_GREEN]
    · by_cases h3 : r > 3
      · simp [selectGrid, h5, h3, PIC_ID_WARNING, COLOR_YELLOW]
        linarith
      · by_cases h1 : r > 3 / 2
        · simp [selectGrid, h5, h3, h1, PIC_ID_DANGER, COLOR_ORANGE]
        · simp [selectGrid, h5, h3, h1, PIC_ID_ALARM, COLOR_RED]
  · by_cases h5 : r > 5
    · simp [selectGrid, h5, PIC_ID_SAFE, COLOR_GREEN]
      intro _; linarith
    · by_cases h3 : r > 3
      · simp [selectGrid, h5, h3, PIC_ID_WARNING, COLOR_YELLOW]
      · by_cases h1 : r > 3 / 2
        · simp [selectGrid, h5, h3, h1, PIC_ID_DANGER, COLOR_ORANGE]
          linarith
        · simp [selectGrid, h5, h3, h1, PIC_ID_ALARM, COLOR_RED]
  · by_cases h5 : r > 5
    · simp [selectGrid, h5, PIC_ID_SAFE, COLOR_GREEN]
      linarith
    · by_cases h3 : r > 3
      · simp [selectGrid, h5, h3, PIC_ID_WARNING, COLOR_YELLOW]
        linarith
      · by_cases h1 : r > 3 / 2
        · simp [selectGrid, h5, h3, h1, PIC_ID_DANGER, COLOR_ORANGE]
        · simp [selectGrid, h5, h3, h1, PIC_ID_ALARM, COLOR_RED]
          linarith
  · intro w d; simp only [selectGrid, if_true]
  · intro s msg
    rw [handleDetection_snd, selectedGrid]
    have hsel : ∀ w d : ℚ, selectGrid true w d (polarRadius_m msg)
        = selectGrid true warningZone_m dangerZone_m (polarRadius_m msg) := by
      intro w d; simp only [selectGrid, if_true]
    simp only [hsel]
    constructor <;> simp
  · norm_num [selectGrid]
  · norm_num [selectGrid]
  · norm_num [selectGrid]
  · norm_num [selectGrid]

/-- C4. Zoom selector, auto-zoom off (v3.7.0): for every range r and every
pair of thresholds the grid width is 10; the choice is picture 4 / green iff
r > warningZone_m, picture 1 / yellow iff r <= warningZone_m and
r > dangerZone_m, picture 0 / red in the remaining case; picture 2 and orange
are never chosen; these are the picture and the colour `handleDetection`
sends. -/
theorem manualZoom_tiers (warningZone_m dangerZone_m r : ℚ) :
    (selectGrid false warningZone_m dangerZone_m r).currentMaxGridXMeters = 10
    ∧ (((selectGrid false warningZone_m dangerZone_m r).backgroundPicId = 4
          ∧ (selectGrid false warningZone_m dangerZone_m r).targetColor = 2016)
        ↔ r > warningZone_m)
    ∧ (((selectGrid false warningZone_m dangerZone_m r).backgroundPicId = 1
          ∧ (selectGrid false warningZone_m dangerZone_m r).targetColor = 65504)
        ↔ r ≤ warningZone_m ∧ r > dangerZone_m)
    ∧ (((selectGrid false warningZone_m dangerZone_m r).backgroundPicId = 0
          ∧ (selectGrid false warningZone_m dangerZone_m r).targetColor = 63488)
        ↔ ¬ r > warningZone_m ∧ ¬ (r ≤ warningZone_m ∧ r > dangerZone_m))
    ∧ (selectGrid false warningZone_m dangerZone_m r).backgroundPicId ≠ 2
    ∧ (selectGrid false warningZone_m dangerZone_m r).targetColor ≠ 64512
    ∧ (∀ (s : State) (msg : twai_message_t),
        Command.assign "page0.pic"
            (selectGrid false s.warningZone_m s.dangerZone_m (polarRadius_m msg)).backgroundPicId
          ∈ (handleDetection { s with autoZoom_enabled := false } msg).2
        ∧ Command.assign "rTarget.pco"
            (selectGrid false s.warningZone_m s.dangerZone_m (polarRadius_m msg)).targetColor
          ∈ (handleDetection { s with autoZoom_enabled := false } msg).2) := by
  refine ⟨?_, ?_, ?_, ?_, ?_, ?_, ?_⟩
  · simp only [selectGrid, Bool.false_eq_true, if_false]; split_ifs <;> rfl
  · by_cases hw : r > warningZone_m
    · simp [selectGrid, hw, PIC_ID_SAFE, COLOR_GREEN]
    · by_cases hd : r > dangerZone_m
      · simp [selectGrid, hw, hd, PIC_ID_WARNING, COLOR_YELLOW]
      · simp [selectGrid, hw, hd, PIC_ID_ALARM, COLOR_RED]
  · by_cases hw : r > warningZone_m
    · simp [selectGrid, hw, PIC_ID_SAFE, COLOR_GREEN]
    · by_cases hd : r > dangerZone_m
      · simp [selectGrid, hw, hd, PIC_ID_WARNING, COLOR_YELLOW]
        exact not_lt.mp hw
      · simp [selectGrid, hw, hd, PIC_ID_ALARM, COLOR_RED]
  · by_cases hw : r > warningZone_m
    · simp [selectGrid, hw, PIC_ID_SAFE, COLOR_GREEN]
    · by_cases hd : r > dangerZone_m
      · simp [selectGrid, hw, hd, PIC_ID_WARNING, COLOR_YELLOW]
      · simp [selectGrid, hw, hd, PIC_ID_ALARM, COLOR_RED]
  · simp only [selectGrid, Bool.false_eq_true, if_false]
    split_ifs <;> simp [PIC_ID_SAFE, PIC_ID_WARNING, PIC_ID_ALARM]
  · simp only [selectGrid, Bool.false_eq_true, if_false]
    split_ifs <;> simp [COLOR_GREEN, COLOR_YELLOW, COLOR_RED]
  · intro s msg
    rw [handleDetection_snd, selectedGrid]
    constructor <;> simp

/-! ## Projection -/

theorem constrain_eq_clamp (v lo hi : Int) (h : lo ≤ hi) :
    constrain v lo hi = Spec.clamp v lo hi := by
  unfold constrain Spec.clamp
  split_ifs with h1 h2
  · rw [max_eq_left]; exact le_trans (min_le_left _ _) (le_of_lt h1)
  · rw [min_eq_right (le_of_lt h2), max_eq_right h]
  · rw [min_eq_left (not_lt.mp h2), max_eq_right (not_lt.mp h1)]

theorem toInt_of_nonneg (x : ℚ) (h : 0 ≤ x) : toInt x = ⌊x⌋ := by
  simp [toInt, h]

theorem toInt_of_neg (x : ℚ) (h : x < 0) : toInt x = ⌈x⌉ := by
  simp [toInt, not_le.mpr h]

/-- Truncation and floor agree once the result is limited from below by a
bound `lo ≥ 0` (with `lo ≤ hi`): they differ only on negative values, where both are `≤ 0`. -/
theorem constrain_toInt (x : ℚ) (lo hi : Int) (hlo : 0 ≤ lo) (hhi : lo ≤ hi) :
    constrain (toInt x) lo hi = constrain ⌊x⌋ lo hi := by
  by_cases h : 0 ≤ x
  · rw [toInt_of_nonneg x h]
  · have hx : x < 0 := not_le.mp h
    rw [toInt_of_neg x hx]
    have h1 : ⌈x⌉ ≤ 0 := Int.ceil_le.mpr (by simpa using le_of_lt hx)
    have h2 : ⌊x⌋ < 0 := Int.floor_lt.mpr (by simpa using hx)
    unfold constrain
    by_cases hz : lo = 0
    · subst hz
      by_cases hc : ⌈x⌉ = 0
      · rw [hc]
        simp only [lt_self_iff_false, if_false, h2, if_true]
        split_ifs with h3
        · omega
        · rfl
      · have h1' : ⌈x⌉ < 0 := lt_of_le_of_ne h1 hc
        simp only [h1', h2, if_true]
    · have hpos : 0 < lo := lt_of_le_of_ne hlo (Ne.symm hz)
      have h1' : ⌈x⌉ < lo := lt_of_le_of_lt h1 hpos
      have h2' : ⌊x⌋ < lo := lt_trans h2 hpos
      simp only [h1', h2', if_true]


theorem targetX_px_eq_spec (gridWidth lateral : ℚ) :
    targetX_px gridWidth lateral = Spec.pixelX lateral gridWidth := by
  have h242 : SCREEN_WIDTH_PX - TARGET_OBJECT_SIZE_PX = 242 := by
    norm_num [SCREEN_WIDTH_PX, TARGET_OBJECT_SIZE_PX]
  have hs : fixedScale gridWidth = Spec.scale gridWidth := by
    simp [fixedScale, Spec.scale, SCREEN_WIDTH_PX]
  simp only [targetX_px, Spec.pixelX, Spec.round, h242, hs]
  rw [constrain_toInt _ 0 242 le_rfl (by norm_num), constrain_eq_clamp _ 0 242 (by norm_num)]

theorem targetY_px_eq_spec (gridWidth forward : ℚ) :
    targetY_px gridWidth forward = Spec.pixelY forward gridWidth := by
  have h450 : SCREEN_HEIGHT_PX - TARGET_OBJECT_SIZE_PX = 450 := by
    norm_num [SCREEN_HEIGHT_PX, TARGET_OBJECT_SIZE_PX]
  have hs : fixedScale gridWidth = Spec.scale gridWidth := by
    simp [fixedScale, Spec.scale, SCREEN_WIDTH_PX]
  have h480 : ((SCREEN_HEIGHT_PX : Int) : ℚ) = 480 := by norm_num [SCREEN_HEIGHT_PX]
  simp only [targetY_px, Spec.pixelY, Spec.round, h450, hs, h480]
  rw [constrain_toInt _ 0 450 le_rfl (by norm_num), constrain_eq_clamp _ 0 450 (by norm_num)]

theorem selectGrid_width (a : Bool) (w d r : ℚ) :
    (selectGrid a w d r).currentMaxGridXMeters = 10
      ∨ (selectGrid a w d r).currentMaxGridXMeters = 8
      ∨ (selectGrid a w d r).currentMaxGridXMeters = 6
      ∨ (selectGrid a w d r).currentMaxGridXMeters = 4 := by
  unfold selectGrid
  split_ifs <;> simp

theorem mem_handleDetection_targetX (s : State) (msg : twai_message_t) (v : Int) :
    Command.assign "rTarget.x" v ∈ (handleDetection s msg).2 ↔
      v = targetX_px (selectedGrid s msg).currentMaxGridXMeters (doc_y_m msg) := by
  rw [handleDetection_snd]
  cases s.targetVisible <;> simp [updateVehicleDisplay, updateTextDisplays]

theorem mem_handleDetection_targetY (s : State) (msg : twai_message_t) (v : Int) :
    Command.assign "rTarget.y" v ∈ (handleDetection s msg).2 ↔
      v = targetY_px (selectedGrid s msg).currentMaxGridXMeters (doc_x_m msg) := by
  rw [handleDetection_snd]
  cases s.targetVisible <;> simp [updateVehicleDisplay, updateTextDisplays]

/-- C5. Projection (v3.7.0, exact arithmetic): the grid width g selected for a
frame is one of 10, 8, 6, 4, and the only `rTarget.x` and `rTarget.y` values
`handleDetection` sends are clamp(round((lateral_m + g/2) * scale), 0, 242)
and clamp(round(480 - forward_m * scale), 0, 450) with scale = 272 / g for
both axes and round = floor(v + 1/2).  The code's truncating cast followed by
`constrain` equals this reference for all inputs; a negative pre-clamp value
gives 0 on both sides. -/
theorem projection_matches_spec (s : State) (msg : twai_message_t) :
    ((selectedGrid s msg).currentMaxGridXMeters = 10
      ∨ (selectedGrid s msg).currentMaxGridXMeters = 8
      ∨ (selectedGrid s msg).currentMaxGridXMeters = 6
      ∨ (selectedGrid s msg).currentMaxGridXMeters = 4)
    ∧ (∀ v : Int, Command.assign "rTarget.x" v ∈ (handleDetection s msg).2 ↔
        v = Spec.pixelX (doc_y_m msg) (selectedGrid s msg).currentMaxGridXMeters)
    ∧ (∀ v : Int, Command.assign "rTarget.y" v ∈ (handleDetection s msg).2 ↔
        v = Spec.pixelY (doc_x_m msg) (selectedGrid s msg).currentMaxGridXMeters)
    ∧ (∀ g lateral_m forward_m : ℚ,
        targetX_px g lateral_m = Spec.pixelX lateral_m g
          ∧ targetY_px g forward_m = Spec.pixelY forward_m g)
    ∧ (∀ (x : ℚ) (hi : Int), x < 0 → 0 ≤ hi →
        constrain (toInt (x + 1 / 2)) 0 hi = 0 ∧ Spec.clamp (Spec.round x) 0 hi = 0) := by
  refine ⟨selectGrid_width _ _ _ _, ?_, ?_, ?_, ?_⟩
  · intro v; rw [mem_handleDetection_targetX, targetX_px_eq_spec]
  · intro v; rw [mem_handleDetection_targetY, targetY_px_eq_spec]
  · intro g l f; exact ⟨targetX_px_eq_spec g l, targetY_px_eq_spec g f⟩
  · intro x hi hx hhi
    have hfl : ⌊x + 1 / 2⌋ ≤ 0 := by
      have : ⌊x + 1 / 2⌋ < 1 := Int.floor_lt.mpr (by push_cast; linarith)
      omega
    have hspec : Spec.clamp (Spec.round x) 0 hi = 0 := by
      unfold Spec.clamp Spec.round
      rw [max_eq_left]
      exact le_trans (min_le_left _ _) hfl
    refine ⟨?_, hspec⟩
    rw [constrain_toInt _ 0 hi le_rfl hhi, constrain_eq_clamp _ 0 hi hhi]
    exact hspec

/-! ## Marker bounds -/

theorem constrain_bounds (v lo hi : Int) (h : lo ≤ hi) :
    lo ≤ constrain v lo hi ∧ constrain v lo hi ≤ hi := by
  unfold constrain
  split_ifs with h1 h2
  · exact ⟨le_rfl, h⟩
  · exact ⟨h, le_rfl⟩
  · exact ⟨not_lt.mp h1, not_lt.mp h2⟩

theorem targetX_px_bounds (g y : ℚ) : 0 ≤ targetX_px g y ∧ targetX_px g y ≤ 242 := by
  have h := constrain_bounds
    (toInt ((y + g / 2) * fixedScale g + 1 / 2)) 0 (SCREEN_WIDTH_PX - TARGET_OBJECT_SIZE_PX)
    (by norm_num [SCREEN_WIDTH_PX, TARGET_OBJECT_SIZE_PX])
  have h242 : SCREEN_WIDTH_PX - TARGET_OBJECT_SIZE_PX = 242 := by
    norm_num [SCREEN_WIDTH_PX, TARGET_OBJECT_SIZE_PX]
  rw [h242] at h
  exact h

theorem targetY_px_bounds (g x : ℚ) : 0 ≤ targetY_px g x ∧ targetY_px g x ≤ 450 := by
  have h := constrain_bounds
    (toInt ((SCREEN_HEIGHT_PX : ℚ) - x * fixedScale g + 1 / 2)) 0
    (SCREEN_HEIGHT_PX - TARGET_OBJECT_SIZE_PX)
    (by norm_num [SCREEN_HEIGHT_PX, TARGET_OBJECT_SIZE_PX])
  have h450 : SCREEN_HEIGHT_PX - TARGET_OBJECT_SIZE_PX = 450 := by
    norm_num [SCREEN_HEIGHT_PX, TARGET_OBJECT_SIZE_PX]
  rw [h450] at h
  exact h

theorem targetX_px_bounds_v350 (g y : ℚ) :
    0 ≤ V350.targetX_px g y ∧ V350.targetX_px g y ≤ 242 := by
  have h242 : SCREEN_WIDTH_PX - TARGET_OBJECT_SIZE_PX = 242 := by
    norm_num [SCREEN_WIDTH_PX, TARGET_OBJECT_SIZE_PX]
  unfold V350.targetX_px
  rw [h242]
  exact constrain_bounds _ 0 242 (by norm_num)

theorem targetY_px_bounds_v350 (x : ℚ) :
    0 ≤ V350.targetY_px x ∧ V350.targetY_px x ≤ 450 := by
  have h450 : SCREEN_HEIGHT_PX - TARGET_OBJECT_SIZE_PX = 450 := by
    norm_num [SCREEN_HEIGHT_PX, TARGET_OBJECT_SIZE_PX]
  unfold V350.targetY_px
  rw [h450]
  exact constrain_bounds _ 0 450 (by norm_num)

theorem updateTargetDisplay_snd_v350 (s : V350.State) (x y color : Int) :
    (V350.updateTargetDisplay s x y color).2 =
      (if s.targetVisible then [] else [Command.vis "rTarget" 1]) ++
        [Command.assign "rTarget.pco" color, Command.assign "rTarget.x" x,
          Command.assign "rTarget.y" y] := by
  cases h : s.targetVisible <;> simp [V350.updateTargetDisplay, h]

theorem mem_handleDetection_targetX_v350 (s : V350.State) (msg : twai_message_t) (v : Int) :
    Command.assign "rTarget.x" v ∈ (V350.handleDetection s msg).2 ↔
      v = V350.targetX_px
        (V350.guardRange (V350.visualLogic s (polarRadius_m msg)).currentLateralRange_m)
        (doc_y_m msg) := by
  simp only [V350.handleDetection, updateTargetDisplay_snd_v350]
  split_ifs <;> simp [V350.updateVehicleDisplay, V350.updateTextDisplays]

theorem mem_handleDetection_targetY_v350 (s : V350.State) (msg : twai_message_t) (v : Int) :
    Command.assign "rTarget.y" v ∈ (V350.handleDetection s msg).2 ↔
      v = V350.targetY_px (doc_x_m msg) := by
  simp only [V350.handleDetection, updateTargetDisplay_snd_v350]
  split_ifs <;> simp [V350.updateVehicleDisplay, V350.updateTextDisplays]

/-- C6. The target marker never renders partially off screen: for every frame
and every settings value, `handleDetection` (both revisions) sends an
`rTarget.x` and an `rTarget.y`, and every `rTarget.x` value x it sends has
0 <= x <= 242, x + 30 <= 272 and every `rTarget.y` value y has 0 <= y <= 450,
y + 30 <= 480. -/
theorem target_marker_on_screen (s : State) (v : V350.State) (msg : twai_message_t) :
    (∃ x y : Int, Command.assign "rTarget.x" x ∈ (handleDetection s msg).2
        ∧ Command.assign "rTarget.y" y ∈ (handleDetection s msg).2)
    ∧ (∀ x : Int, Command.assign "rTarget.x" x ∈ (handleDetection s msg).2 →
        0 ≤ x ∧ x ≤ 242 ∧ x + TARGET_OBJECT_SIZE_PX ≤ SCREEN_WIDTH_PX)
    ∧ (∀ y : Int, Command.assign "rTarget.y" y ∈ (handleDetection s msg).2 →
        0 ≤ y ∧ y ≤ 450 ∧ y + TARGET_OBJECT_SIZE_PX ≤ SCREEN_HEIGHT_PX)
    ∧ (∃ x y : Int, Command.assign "rTarget.x" x ∈ (V350.handleDetection v msg).2
        ∧ Command.assign "rTarget.y" y ∈ (V350.handleDetection v msg).2)
    ∧ (∀ x : Int, Command.assign "rTarget.x" x ∈ (V350.handleDetection v msg).2 →
        0 ≤ x ∧ x ≤ 242 ∧ x + TARGET_OBJECT_SIZE_PX ≤ SCREEN_WIDTH_PX)
    ∧ (∀ y : Int, Command.assign "rTarget.y" y ∈ (V350.handleDetection v msg).2 →
        0 ≤ y ∧ y ≤ 450 ∧ y + TARGET_OBJECT_SIZE_PX ≤ SCREEN_HEIGHT_PX) := by
  have hW : SCREEN_WIDTH_PX = 272 := rfl
  have hH : SCREEN_HEIGHT_PX = 480 := rfl
  have hT : TARGET_OBJECT_SIZE_PX = 30 := rfl
  refine ⟨⟨_, _, (mem_handleDetection_targetX s msg _).mpr rfl,
      (mem_handleDetection_targetY s msg _).mpr rfl⟩, ?_, ?_,
    ⟨_, _, (mem_handleDetection_targetX_v350 v msg _).mpr rfl,
      (mem_handleDetection_targetY_v350 v msg _).mpr rfl⟩, ?_, ?_⟩
  · intro x hx
    rw [mem_handleDetection_targetX] at hx
    have h := targetX_px_bounds (selectedGrid s msg).currentMaxGridXMeters (doc_y_m msg)
    rw [← hx] at h
    rw [hW, hT]; omega
  · intro y hy
    rw [mem_handleDetection_targetY] at hy
    have h := targetY_px_bounds (selectedGrid s msg).currentMaxGridXMeters (doc_x_m msg)
    rw [← hy] at h
    rw [hH, hT]; omega
  · intro x hx
    rw [mem_handleDetection_targetX_v350] at hx
    have h := targetX_px_bounds_v350
      (V350.guardRange (V350.visualLogic v (polarRadius_m msg)).currentLateralRange_m)
      (doc_y_m msg)
    rw [← hx] at h
    rw [hW, hT]; omega
  · intro y hy
    rw [mem_handleDetection_targetY_v350] at hy
    have h := targetY_px_bounds_v350 (doc_x_m msg)
    rw [← hy] at h
    rw [hH, hT]; omega

/-! ## Vehicle indicator -/

theorem toInt_nonpos_of_neg (x : ℚ) (h : x < 0) : toInt x ≤ 0 ∧ ⌊x⌋ < 0 := by
  rw [toInt_of_neg x h]
  exact ⟨Int.ceil_le.mpr (by simpa using le_of_lt h), Int.floor_lt.mpr (by simpa using h)⟩

theorem vehicle_width_px_eq_spec (w g : ℚ) :
    vehicle_width_px w g = Spec.vehicleWidthPx w g := by
  have hs : ∀ q, fixedScale q = Spec.scale q := by
    intro q; simp [fixedScale, Spec.scale, SCREEN_WIDTH_PX]
  have hW : SCREEN_WIDTH_PX = 272 := rfl
  simp only [vehicle_width_px, Spec.vehicleWidthPx, Spec.clamp, Spec.round, hs, hW]
  generalize w * Spec.scale (if g < 1 / 10 then 10 else g) + 1 / 2 = x
  by_cases hx : 0 ≤ x
  · rw [toInt_of_nonneg x hx]
    by_cases h1 : ⌊x⌋ > 272
    · simp only [h1, if_true]
      rw [min_eq_right (le_of_lt h1)]
      norm_num
    · simp only [h1, if_false]
      rw [min_eq_left (not_lt.mp h1)]
      by_cases h2 : ⌊x⌋ < 2
      · simp only [h2, if_true]; rw [max_eq_left (le_of_lt h2)]
      · simp only [h2, if_false]; rw [max_eq_right (not_lt.mp h2)]
  · obtain ⟨hc, hf⟩ := toInt_nonpos_of_neg x (not_le.mp hx)
    have h1 : ¬ toInt x > 272 := by omega
    have h2 : toInt x < 2 := by omega
    simp only [h1, if_false, h2, if_true]
    rw [min_eq_left (by omega), max_eq_left (by omega)]

theorem vehicle_x_px_eq_spec (widthPx : Int) :
    vehicle_x_px widthPx = Spec.vehicleX widthPx := by
  have hW : ((SCREEN_WIDTH_PX : Int) : ℚ) = 272 := by norm_num [SCREEN_WIDTH_PX]
  simp only [vehicle_x_px, Spec.vehicleX, Spec.round, hW]
  generalize (272 - (widthPx : ℚ)) / 2 + 1 / 2 = x
  by_cases hx : 0 ≤ x
  · rw [toInt_of_nonneg x hx]
    have hf : 0 ≤ ⌊x⌋ := Int.floor_nonneg.mpr hx
    simp only [not_lt.mpr hf, if_false]
    rw [max_eq_right hf]
  · obtain ⟨hc, hf⟩ := toInt_nonpos_of_neg x (not_le.mp hx)
    rw [max_eq_left (le_of_lt hf)]
    split_ifs with h
    · rfl
    · omega

/-- C7. Vehicle indicator (v3.7.0, exact arithmetic): `updateVehicleDisplay g`
sends x = max(0, round((272 - widthPx) / 2)), w = widthPx, y = 470, h = 10
(and the colour 31), where widthPx = clamp(round(w * 272 / g'), 2, 272),
g' = 10 if g < 0.1 and g' = g otherwise, round = floor(v + 1/2); hence
2 <= widthPx <= 272 and 0 <= x for every vehicle width (zero and negative
included) and every g. -/
theorem vehicle_indicator (s : State) (g : ℚ) :
    updateVehicleDisplay s g =
      [ Command.assign "rVehicle.x"
          (Spec.vehicleX (Spec.vehicleWidthPx s.vehicleRealWidth_m g)),
        Command.assign "rVehicle.w" (Spec.vehicleWidthPx s.vehicleRealWidth_m g),
        Command.assign "rVehicle.y" 470,
        Command.assign "rVehicle.h" 10,
        Command.assign "rVehicle.bco" 31 ]
    ∧ 2 ≤ Spec.vehicleWidthPx s.vehicleRealWidth_m g
    ∧ Spec.vehicleWidthPx s.vehicleRealWidth_m g ≤ 272
    ∧ 0 ≤ Spec.vehicleX (Spec.vehicleWidthPx s.vehicleRealWidth_m g) := by
  refine ⟨?_, ?_, ?_, ?_⟩
  · simp only [updateVehicleDisplay, vehicle_width_px_eq_spec, vehicle_x_px_eq_spec]
    rfl
  · unfold Spec.vehicleWidthPx Spec.clamp; exact le_max_left _ _
  · unfold Spec.vehicleWidthPx Spec.clamp
    exact max_le (by norm_num) (min_le_right _ _)
  · unfold Spec.vehicleX; exact le_max_left _ _

/-! ## Alarm intent and cadence -/

theorem buzzerCondition_iff (s : State) (r y : ℚ) :
    buzzerCondition s r y = true ↔
      (s.audioAlarm_enabled = true ∧ r < s.warningZone_m
        ∧ |y| < s.vehicleRealWidth_m / 2 + s.sideMargin_m) := by
  simp [buzzerCondition, and_assoc]

theorem handleDetection_buzzerShouldBeActive (s : State) (msg : twai_message_t) :
    (handleDetection s msg).1.buzzerShouldBeActive
      = buzzerCondition s (polarRadius_m msg) (doc_y_m msg) := by
  rw [handleDetection_fst]
  simp only [buzzerLogic]
  split_ifs with h <;> simp [h]

theorem handleDetection_currentBeepInterval (s : State) (msg : twai_message_t) :
    (handleDetection s msg).1.currentBeepInterval
      = (buzzerLogic s (polarRadius_m msg) (doc_y_m msg)
          (selectedGrid s msg).backgroundPicId).currentBeepInterval := by
  rw [handleDetection_fst]

/-- C9. Beep cadence (v3.7.0): after `handleDetection`, if the buzzer is armed
then `currentBeepInterval` is 0 when range_m <= 0.75, otherwise 80 when the
selected picture is the Alarm one (0), otherwise 200 when it is the Danger one
(2), otherwise 400; if the buzzer is not armed the interval is the one before
the call. -/
theorem beep_cadence (s : State) (msg : twai_message_t) :
    (handleDetection s msg).1.currentBeepInterval =
      if (handleDetection s msg).1.buzzerShouldBeActive = true then
        (if polarRadius_m msg ≤ 3 / 4 then 0
         else if (selectedGrid s msg).backgroundPicId = 0 then 80
         else if (selectedGrid s msg).backgroundPicId = 2 then 200
         else 400)
      else s.currentBeepInterval := by
  rw [handleDetection_currentBeepInterval, handleDetection_buzzerShouldBeActive]
  simp only [buzzerLogic]
  by_cases h : buzzerCondition s (polarRadius_m msg) (doc_y_m msg) = true
  · simp only [h, if_true, SOLID_TONE_DISTANCE_M, PIC_ID_ALARM, PIC_ID_DANGER,
      BEEP_INTERVAL_RED_MS, BEEP_INTERVAL_ORANGE_MS, BEEP_INTERVAL_YELLOW_MS]
  · simp [h]

theorem handleBuzzer_of_audio_off (s : State) (millis : Nat)
    (h : s.audioAlarm_enabled = false) :
    (handleBuzzer s millis).buzzerIsOn = false := by
  unfold handleBuzzer
  cases hon : s.buzzerIsOn <;> simp [h, hon]

theorem handleDetection_audioAlarm_enabled (s : State) (msg : twai_message_t) :
    (handleDetection s msg).1.audioAlarm_enabled = s.audioAlarm_enabled := by
  rw [handleDetection_fst]
  simp only [buzzerLogic]
  split_ifs <;> rfl

/-- C10. If `audioAlarm_enabled` is false then, for every frame and every
previous buzzer state, `handleDetection` leaves `buzzerShouldBeActive` false
(and the setting off), and the `handleBuzzer` call that follows leaves
`buzzerIsOn` false at every clock value. -/
theorem audio_off_silences (s : State) (msg : twai_message_t) (millis : Nat)
    (h : s.audioAlarm_enabled = false) :
    (handleDetection s msg).1.buzzerShouldBeActive = false
    ∧ (handleDetection s msg).1.audioAlarm_enabled = false
    ∧ (handleBuzzer (handleDetection s msg).1 millis).buzzerIsOn = false := by
  have ha : (handleDetection s msg).1.audioAlarm_enabled = false := by
    rw [handleDetection_audioAlarm_enabled, h]
  refine ⟨?_, ha, handleBuzzer_of_audio_off _ _ ha⟩
  rw [handleDetection_buzzerShouldBeActive]
  simp [buzzerCondition, h]

/-- Witness for C10: the audio setting is off, the buzzer is sounding and
armed, and a target 0.5 m ahead is reported. -/
theorem audio_off_silences_witness :
    mutedWhileOn.audioAlarm_enabled = false
    ∧ mutedWhileOn.buzzerIsOn = true
    ∧ (handleDetection mutedWhileOn nearFrame).1.buzzerShouldBeActive = false
    ∧ (handleDetection mutedWhileOn nearFrame).1.audioAlarm_enabled = false
    ∧ (handleBuzzer (handleDetection mutedWhileOn nearFrame).1 1000).buzzerIsOn = false :=
  ⟨rfl, rfl, audio_off_silences mutedWhileOn nearFrame 1000 rfl⟩

/-! ## Anchor points and the end-to-end scenario -/

theorem targetX_px_anchor (g : ℚ) (hg : g ≠ 0) :
    targetX_px g 0 = 136 ∧ targetX_px g (-g / 2) = 0 := by
  have h1 : (0 + g / 2) * (272 / g) + 1 / 2 = (136 : ℚ) + 1 / 2 := by
    field_simp; ring
  have h2 : (-g / 2 + g / 2) * (272 / g) + 1 / 2 = (1 / 2 : ℚ) := by
    field_simp
  have f1 : ⌊(136 : ℚ) + 1 / 2⌋ = 136 := by
    rw [Int.floor_eq_iff]; norm_num
  have f2 : ⌊(1 / 2 : ℚ)⌋ = 0 := by
    rw [Int.floor_eq_iff]; norm_num
  constructor
  · rw [targetX_px_eq_spec]
    simp only [Spec.pixelX, Spec.round, Spec.scale, h1, f1, Spec.clamp]
    decide
  · rw [targetX_px_eq_spec]
    simp only [Spec.pixelX, Spec.round, Spec.scale, h2, f2, Spec.clamp]
    decide

/-- C13. Projection anchor points (v3.7.0, exact arithmetic): for each grid
width 10, 8, 6, 4 a lateral offset 0 gives pixelX = 136 and a lateral offset
of minus half the grid width gives pixelX = 0; so a frame with lateral 0 is
drawn at `rTarget.x` = 136 and one with lateral -g/2, g the selected grid
width, at `rTarget.x` = 0. -/
theorem projection_anchor_points (s : State) (msg : twai_message_t) :
    (targetX_px 10 0 = 136 ∧ targetX_px 8 0 = 136 ∧ targetX_px 6 0 = 136
      ∧ targetX_px 4 0 = 136)
    ∧ (targetX_px 10 (-5) = 0 ∧ targetX_px 8 (-4) = 0 ∧ targetX_px 6 (-3) = 0
      ∧ targetX_px 4 (-2) = 0)
    ∧ (doc_y_m msg = 0 → ∀ v : Int,
        Command.assign "rTarget.x" v ∈ (handleDetection s msg).2 ↔ v = 136)
    ∧ (doc_y_m msg = -(selectedGrid s msg).currentMaxGridXMeters / 2 → ∀ v : Int,
        Command.assign "rTarget.x" v ∈ (handleDetection s msg).2 ↔ v = 0) := by
  have hg : (selectedGrid s msg).currentMaxGridXMeters ≠ 0 := by
    rcases selectGrid_width s.autoZoom_enabled s.warningZone_m s.dangerZone_m
      (polarRadius_m msg) with h | h | h | h <;> (unfold selectedGrid; rw [h]; norm_num)
  have a10 := targetX_px_anchor 10 (by norm_num)
  have a8 := targetX_px_anchor 8 (by norm_num)
  have a6 := targetX_px_anchor 6 (by norm_num)
  have a4 := targetX_px_anchor 4 (by norm_num)
  norm_num at a10 a8 a6 a4
  refine ⟨⟨a10.1, a8.1, a6.1, a4.1⟩, ⟨a10.2, a8.2, a6.2, a4.2⟩, ?_, ?_⟩
  · intro h v
    rw [mem_handleDetection_targetX, h, (targetX_px_anchor _ hg).1]
  · intro h v
    rw [mem_handleDetection_targetX, h, (targetX_px_anchor _ hg).2]

/-- Witness for C13: the scenario frame with byte 3 set to 128 (lateral 0),
and with byte 3 set to 112 (lateral -4 = -8/2 on the 8 m grid its range 5.0
selects), in the state after `setup` with default settings. -/
theorem projection_anchor_points_witness :
    (Command.assign "rTarget.x" 136 ∈
        (handleDetection (setup none).state
          { scenarioFrame with data := ![20, 128, 12, 128, 0, 0, 0, 0] }).2)
    ∧ (Command.assign "rTarget.x" 0 ∈
        (handleDetection (setup none).state
          { scenarioFrame with data := ![20, 128, 12, 112, 0, 0, 0, 0] }).2) := by
  constructor
  · refine ((projection_anchor_points (setup none).state
      { scenarioFrame with data := ![20, 128, 12, 128, 0, 0, 0, 0] }).2.2.1 ?_ 136).mpr rfl
    simp [doc_y_m, Fin.coe_ofNat_eq_mod]
  · refine ((projection_anchor_points (setup none).state
      { scenarioFrame with data := ![20, 128, 12, 112, 0, 0, 0, 0] }).2.2.2 ?_ 0).mpr rfl
    have hr : polarRadius_m { scenarioFrame with data := ![20, 128, 12, 112, 0, 0, 0, 0] } = 5 := by
      norm_num [polarRadius_m, Fin.coe_ofNat_eq_mod]
    have hz : (setup none).state.autoZoom_enabled = true := rfl
    simp only [selectedGrid, hz, hr]
    norm_num [selectGrid, doc_y_m, Fin.coe_ofNat_eq_mod]

theorem scenarioFrame_decoded :
    polarRadius_m scenarioFrame = 5 ∧ polarAngle_deg scenarioFrame = 0
      ∧ doc_x_m scenarioFrame = 3 ∧ doc_y_m scenarioFrame = -5 / 2 := by
  refine ⟨?_, ?_, ?_, ?_⟩
  · norm_num [polarRadius_m, scenarioFrame, Fin.coe_ofNat_eq_mod]
  · simp [polarAngle_deg, scenarioFrame, Fin.coe_ofNat_eq_mod]
  · norm_num [doc_x_m, scenarioFrame, Fin.coe_ofNat_eq_mod]
  · norm_num [doc_y_m, scenarioFrame, Fin.coe_ofNat_eq_mod]

theorem scenarioFrame_selectedGrid (s : State) :
    selectedGrid { s with autoZoom_enabled := true } scenarioFrame
      = { currentMaxGridXMeters := 8, backgroundPicId := 1, targetColor := 65504 } := by
  simp only [selectedGrid, scenarioFrame_decoded.1]
  norm_num [selectGrid, PIC_ID_WARNING, COLOR_YELLOW]

theorem scenarioFrame_pixels : targetX_px 8 (-5 / 2) = 51 ∧ targetY_px 8 3 = 378 := by
  have f1 : ⌊((-5 / 2 : ℚ) + 8 / 2) * (272 / 8) + 1 / 2⌋ = 51 := by
    rw [Int.floor_eq_iff]; norm_num
  have f2 : ⌊(480 : ℚ) - 3 * (272 / 8) + 1 / 2⌋ = 378 := by
    rw [Int.floor_eq_iff]; norm_num
  constructor
  · rw [targetX_px_eq_spec]
    simp only [Spec.pixelX, Spec.round, Spec.scale, f1, Spec.clamp]
    decide
  · rw [targetY_px_eq_spec]
    simp only [Spec.pixelY, Spec.round, Spec.scale, f2, Spec.clamp]
    decide

/-- C14, as stated, fails: for the scenario frame in the state after `setup`
with default settings (auto-zoom on) the marker is not sent to pixelX = 41
nor to pixelY = 398, but to 51 and 378. -/
theorem scenario_pixels_counterexample :
    Command.assign "rTarget.x" 41 ∉ (handleDetection (setup none).state scenarioFrame).2
    ∧ Command.assign "rTarget.y" 398 ∉ (handleDetection (setup none).state scenarioFrame).2
    ∧ Command.assign "rTarget.x" 51 ∈ (handleDetection (setup none).state scenarioFrame).2
    ∧ Command.assign "rTarget.y" 378
        ∈ (handleDetection (setup none).state scenarioFrame).2 := by
  have hs : selectedGrid (setup none).state scenarioFrame
      = { currentMaxGridXMeters := 8, backgroundPicId := 1, targetColor := 65504 } :=
    scenarioFrame_selectedGrid (setup none).state
  simp only [mem_handleDetection_targetX, mem_handleDetection_targetY, hs,
    scenarioFrame_decoded.2.2.1, scenarioFrame_decoded.2.2.2,
    scenarioFrame_pixels.1, scenarioFrame_pixels.2]
  decide

/-- C14, amended. End-to-end scenario (v3.7.0): for the frame with bytes 20,
128, 12, 118 and byte 7 = 0, with auto-zoom on and whatever the rest of the
state is, `handleDetection` decodes range 5.0, angle 0, forward 3.0, lateral
-2.5, selects the 8 m tier (picture 1, yellow), and the only marker position
it sends is pixelX = 51, pixelY = 378 (scale 272 / 8 = 34). -/
theorem scenario_end_to_end (s : State) :
    Spec.validFrame scenarioFrame
    ∧ polarRadius_m scenarioFrame = 5
    ∧ doc_x_m scenarioFrame = 3
    ∧ doc_y_m scenarioFrame = -5 / 2
    ∧ selectedGrid { s with autoZoom_enabled := true } scenarioFrame
        = { currentMaxGridXMeters := 8, backgroundPicId := 1, targetColor := 65504 }
    ∧ Command.assign "page0.pic" 1
        ∈ (handleDetection { s with autoZoom_enabled := true } scenarioFrame).2
    ∧ (∀ v : Int, Command.assign "rTarget.x" v
          ∈ (handleDetection { s with autoZoom_enabled := true } scenarioFrame).2 ↔ v = 51)
    ∧ (∀ v : Int, Command.assign "rTarget.y" v
          ∈ (handleDetection { s with autoZoom_enabled := true } scenarioFrame).2 ↔ v = 378) := by
  have hs := scenarioFrame_selectedGrid s
  refine ⟨by decide, scenarioFrame_decoded.1, scenarioFrame_decoded.2.2.1,
    scenarioFrame_decoded.2.2.2, hs, ?_, ?_, ?_⟩
  · rw [handleDetection_snd, hs]; simp
  · intro v
    rw [mem_handleDetection_targetX, hs, scenarioFrame_decoded.2.2.2, scenarioFrame_pixels.1]
  · intro v
    rw [mem_handleDetection_targetY, hs, scenarioFrame_decoded.2.2.1, scenarioFrame_pixels.2]

/-! ## Clearing the display -/

/-- C15. `clearDetection` is idempotent (both revisions): for every state, a
second call in a row sends the same command sequence as the first, the state
after the second call equals the state after the first, and after each call
`targetVisible` and `buzzerShouldBeActive` are false. -/
theorem clearDetection_idempotent (s : State) (v : V350.State) :
    (clearDetection (clearDetection s).1).2 = (clearDetection s).2
    ∧ (clearDetection (clearDetection s).1).1 = (clearDetection s).1
    ∧ (clearDetection s).1.targetVisible = false
    ∧ (clearDetection s).1.buzzerShouldBeActive = false
    ∧ (clearDetection (clearDetection s).1).1.targetVisible = false
    ∧ (clearDetection (clearDetection s).1).1.buzzerShouldBeActive = false
    ∧ (V350.clearDetection (V350.clearDetection v).1).2 = (V350.clearDetection v).2
    ∧ (V350.clearDetection (V350.clearDetection v).1).1 = (V350.clearDetection v).1
    ∧ (V350.clearDetection v).1.targetVisible = false
    ∧ (V350.clearDetection v).1.buzzerShouldBeActive = false
    ∧ (V350.clearDetection (V350.clearDetection v).1).1.targetVisible = false
    ∧ (V350.clearDetection (V350.clearDetection v).1).1.buzzerShouldBeActive = false :=
  ⟨rfl, rfl, rfl, rfl, rfl, rfl, rfl, rfl, rfl, rfl, rfl, rfl⟩

/-! ## Buzzer phase over time -/

theorem subUnsignedLong_of_le (a b : Nat) (ha : a < 2 ^ 32) (hb : b ≤ a) :
    subUnsignedLong a b = a - b := by
  unfold subUnsignedLong
  have h32 : (2 : Nat) ^ 32 = 4294967296 := by norm_num
  rw [h32] at ha ⊢
  omega

/-- An armed buzzer that is off stays as it is while less than the interval
has elapsed since the last toggle. -/
theorem handleBuzzer_hold_off (s : State) (t : Nat)
    (ha : s.audioAlarm_enabled = true) (hs : s.buzzerShouldBeActive = true)
    (hi : s.currentBeepInterval ≠ 0) (hon : s.buzzerIsOn = false) (ht : t < 2 ^ 32)
    (hl : s.lastBuzzerToggleTime ≤ t)
    (he : t - s.lastBuzzerToggleTime < toUnsignedLong s.currentBeepInterval) :
    handleBuzzer s t = s := by
  have hm : t % 2 ^ 32 = t := Nat.mod_eq_of_lt ht
  have hsub := subUnsignedLong_of_le t s.lastBuzzerToggleTime ht hl
  simp only [handleBuzzer, ha, hs, hi, hon, hm, hsub]
  simp [not_le.mpr he]

/-- An armed buzzer that is off is switched on, and the time recorded, once
the interval has elapsed since the last toggle. -/
theorem handleBuzzer_rise (s : State) (t : Nat)
    (ha : s.audioAlarm_enabled = true) (hs : s.buzzerShouldBeActive = true)
    (hi : s.currentBeepInterval ≠ 0) (hon : s.buzzerIsOn = false) (ht : t < 2 ^ 32)
    (hl : s.lastBuzzerToggleTime ≤ t)
    (he : toUnsignedLong s.currentBeepInterval ≤ t - s.lastBuzzerToggleTime) :
    handleBuzzer s t
      = { s with buzzerPin := true, buzzerIsOn := true, lastBuzzerToggleTime := t } := by
  have hm : t % 2 ^ 32 = t := Nat.mod_eq_of_lt ht
  have hsub := subUnsignedLong_of_le t s.lastBuzzerToggleTime ht hl
  simp only [handleBuzzer, ha, hs, hi, hon, hm, hsub]
  simp [he]

/-- A sounding buzzer in pulsed mode stays on while less than 60 ms have
elapsed since the last toggle. -/
theorem handleBuzzer_hold_on (s : State) (t : Nat)
    (ha : s.audioAlarm_enabled = true) (hs : s.buzzerShouldBeActive = true)
    (hi : s.currentBeepInterval ≠ 0) (hon : s.buzzerIsOn = true) (ht : t < 2 ^ 32)
    (hl : s.lastBuzzerToggleTime ≤ t) (he : t - s.lastBuzzerToggleTime < 60) :
    handleBuzzer s t = s := by
  have hm : t % 2 ^ 32 = t := Nat.mod_eq_of_lt ht
  have hsub := subUnsignedLong_of_le t s.lastBuzzerToggleTime ht hl
  have h60 : toUnsignedLong BEEP_ON_DURATION_MS = 60 := by decide
  simp only [handleBuzzer, ha, hs, hi, hon, hm, hsub, h60]
  simp [not_le.mpr he]

/-- A sounding buzzer in pulsed mode is switched off, and the time recorded,
once 60 ms have elapsed since the last toggle. -/
theorem handleBuzzer_fall (s : State) (t : Nat)
    (ha : s.audioAlarm_enabled = true) (hs : s.buzzerShouldBeActive = true)
    (hi : s.currentBeepInterval ≠ 0) (hon : s.buzzerIsOn = true) (ht : t < 2 ^ 32)
    (hl : s.lastBuzzerToggleTime ≤ t) (he : 60 ≤ t - s.lastBuzzerToggleTime) :
    handleBuzzer s t
      = { s with buzzerPin := false, buzzerIsOn := false, lastBuzzerToggleTime := t } := by
  have hm : t % 2 ^ 32 = t := Nat.mod_eq_of_lt ht
  have hsub := subUnsignedLong_of_le t s.lastBuzzerToggleTime ht hl
  have h60 : toUnsignedLong BEEP_ON_DURATION_MS = 60 := by decide
  simp only [handleBuzzer, ha, hs, hi, hon, hm, hsub, h60]
  simp [he]

/-- If the run has reached `x` at time `a` and no call up to time `b` changes
`x`, the run is still at `x` at every time from `a` to `b`. -/
theorem buzzerAfter_stretch (s x : State) (a b : Nat) (hx : buzzerAfter s a = x)
    (hstay : ∀ t, a < t → t ≤ b → handleBuzzer x t = x) :
    ∀ t, a ≤ t → t ≤ b → buzzerAfter s t = x := by
  intro t
  induction t with
  | zero =>
    intro h0 _
    have : a = 0 := by omega
    rw [← hx, this]
  | succ n ih =>
    intro h1 h2
    by_cases hn : a = n + 1
    · rw [← hn, hx]
    · have hprev := ih (by omega) (by omega)
      show handleBuzzer (buzzerAfter s n) (n + 1) = x
      rw [hprev]
      exact hstay (n + 1) (by omega) h2


theorem buzzerAfter_succ (s : State) (t : Nat) :
    buzzerAfter s (t + 1) = handleBuzzer (buzzerAfter s t) (t + 1) := rfl

/-- The first 520 ms of the run of C12, as four stretches. -/
theorem buzzerAfter_pulse (s : State)
    (ha : s.audioAlarm_enabled = true) (hs : s.buzzerShouldBeActive = true)
    (hi : s.currentBeepInterval = 200) (hon : s.buzzerIsOn = false)
    (hl : s.lastBuzzerToggleTime = 0) :
    (∀ t, t < 200 → buzzerAfter s t = s)
    ∧ (∀ t, 200 ≤ t → t < 260 → buzzerAfter s t
        = { s with buzzerPin := true, buzzerIsOn := true, lastBuzzerToggleTime := 200 })
    ∧ (∀ t, 260 ≤ t → t < 460 → buzzerAfter s t
        = { s with buzzerPin := false, buzzerIsOn := false, lastBuzzerToggleTime := 260 })
    ∧ (∀ t, 460 ≤ t → t < 520 → buzzerAfter s t
        = { s with buzzerPin := true, buzzerIsOn := true, lastBuzzerToggleTime := 460 }) := by
  have h200 : toUnsignedLong 200 = 200 := by decide
  have hne : s.currentBeepInterval ≠ 0 := by rw [hi]; decide
  have big : ∀ t : Nat, t ≤ 520 → t < 2 ^ 32 := by
    intro t h; have : (2 : Nat) ^ 32 = 4294967296 := by norm_num
    omega
  -- off until 200
  have st0 : ∀ t, t ≤ 199 → handleBuzzer s t = s := by
    intro t h
    exact handleBuzzer_hold_off s t ha hs hne hon (big t (by omega)) (by rw [hl]; omega)
      (by rw [hl, hi, h200]; omega)
  have r1 : ∀ t, 0 ≤ t → t ≤ 199 → buzzerAfter s t = s :=
    buzzerAfter_stretch s s 0 199 (st0 0 (by omega)) (fun t _ h => st0 t h)
  -- on at 200
  have e200 : buzzerAfter s 200
      = { s with buzzerPin := true, buzzerIsOn := true, lastBuzzerToggleTime := 200 } := by
    rw [buzzerAfter_succ, r1 199 (by omega) (by omega)]
    exact handleBuzzer_rise s 200 ha hs hne hon (big 200 (by omega)) (by rw [hl]; omega)
      (by rw [hl, hi, h200])
  have r2 := buzzerAfter_stretch s _ 200 259 e200 (fun t h1 h2 =>
    handleBuzzer_hold_on
      { s with buzzerPin := true, buzzerIsOn := true, lastBuzzerToggleTime := 200 } t
      ha hs hne rfl (big t (by omega)) (by show 200 ≤ t; omega) (by show t - 200 < 60; omega))
  -- off at 260
  have e260 : buzzerAfter s 260
      = { s with buzzerPin := false, buzzerIsOn := false, lastBuzzerToggleTime := 260 } := by
    rw [buzzerAfter_succ, r2 259 (by omega) (by omega)]
    exact handleBuzzer_fall
      { s with buzzerPin := true, buzzerIsOn := true, lastBuzzerToggleTime := 200 } 260
      ha hs hne rfl (big 260 (by omega)) (by show 200 ≤ 260; omega)
      (by show 60 ≤ 260 - 200; omega)
  have r3 := buzzerAfter_stretch s _ 260 459 e260 (fun t h1 h2 =>
    handleBuzzer_hold_off
      { s with buzzerPin := false, buzzerIsOn := false, lastBuzzerToggleTime := 260 } t
      ha hs hne rfl (big t (by omega)) (by show 260 ≤ t; omega)
      (by show t - 260 < toUnsignedLong s.currentBeepInterval; rw [hi, h200]; omega))
  -- on at 460
  have e460 : buzzerAfter s 460
      = { s with buzzerPin := true, buzzerIsOn := true, lastBuzzerToggleTime := 460 } := by
    rw [buzzerAfter_succ, r3 459 (by omega) (by omega)]
    exact handleBuzzer_rise
      { s with buzzerPin := false, buzzerIsOn := false, lastBuzzerToggleTime := 260 } 460
      ha hs hne rfl (big 460 (by omega)) (by show 260 ≤ 460; omega)
      (by show toUnsignedLong s.currentBeepInterval ≤ 460 - 260; rw [hi, h200])
  have r4 := buzzerAfter_stretch s _ 460 519 e460 (fun t h1 h2 =>
    handleBuzzer_hold_on
      { s with buzzerPin := true, buzzerIsOn := true, lastBuzzerToggleTime := 460 } t
      ha hs hne rfl (big t (by omega)) (by show 460 ≤ t; omega) (by show t - 460 < 60; omega))
  exact ⟨fun t h => r1 t (by omega) (by omega), fun t h1 h2 => r2 t h1 (by omega),
    fun t h1 h2 => r3 t h1 (by omega), fun t h1 h2 => r4 t h1 (by omega)⟩

/-- C12, as stated, fails: from the start state of the claim the output is
not High during [0, 60): it is Low after the call at t = 0 (and stays Low
until t = 200). -/
theorem phase_timing_counterexample :
    pulseStart.audioAlarm_enabled = true ∧ pulseStart.buzzerShouldBeActive = true
    ∧ pulseStart.currentBeepInterval = 200 ∧ pulseStart.buzzerIsOn = false
    ∧ pulseStart.lastBuzzerToggleTime = 0
    ∧ (buzzerAfter pulseStart 0).buzzerIsOn = false
    ∧ (buzzerAfter pulseStart 0).buzzerPin = false
    ∧ ¬ (∀ t, t < 60 → (buzzerAfter pulseStart t).buzzerIsOn = true) := by
  refine ⟨rfl, rfl, rfl, rfl, rfl, by decide, by decide, ?_⟩
  intro h
  have h0 := h 0 (by norm_num)
  revert h0
  decide

/-- C12, amended. Alarm phase timing: with beep interval 200 ms and
on-duration 60 ms, starting Off at t = 0 (`buzzerIsOn` false, pin low,
`lastBuzzerToggleTime` 0) with audio enabled and the buzzer armed, and
`handleBuzzer` called at every millisecond, the output is Low during
[0, 200), High during [200, 260), Low during [260, 460) and High again during
[460, 520): the wait of 200 ms runs from the last toggle, so the first pulse
starts at 200 and the period is 260 ms. -/
theorem phase_timing (s : State)
    (ha : s.audioAlarm_enabled = true) (hs : s.buzzerShouldBeActive = true)
    (hi : s.currentBeepInterval = 200) (hon : s.buzzerIsOn = false)
    (hp : s.buzzerPin = false) (hl : s.lastBuzzerToggleTime = 0) :
    (∀ t, t < 200 →
        (buzzerAfter s t).buzzerIsOn = false ∧ (buzzerAfter s t).buzzerPin = false)
    ∧ (∀ t, 200 ≤ t → t < 260 →
        (buzzerAfter s t).buzzerIsOn = true ∧ (buzzerAfter s t).buzzerPin = true)
    ∧ (∀ t, 260 ≤ t → t < 460 →
        (buzzerAfter s t).buzzerIsOn = false ∧ (buzzerAfter s t).buzzerPin = false)
    ∧ (∀ t, 460 ≤ t → t < 520 →
        (buzzerAfter s t).buzzerIsOn = true ∧ (buzzerAfter s t).buzzerPin = true) := by
  obtain ⟨r1, r2, r3, r4⟩ := buzzerAfter_pulse s ha hs hi hon hl
  refine ⟨?_, ?_, ?_, ?_⟩
  · intro t h; rw [r1 t h]; exact ⟨hon, hp⟩
  · intro t h1 h2; rw [r2 t h1 h2]; exact ⟨rfl, rfl⟩
  · intro t h1 h2; rw [r3 t h1 h2]; exact ⟨rfl, rfl⟩
  · intro t h1 h2; rw [r4 t h1 h2]; exact ⟨rfl, rfl⟩

/-- Witness for C12 amended: the run from `pulseStart`, read at t = 0, 199,
200, 259, 260, 459, 460 and 519. -/
theorem phase_timing_witness :
    (buzzerAfter pulseStart 0).buzzerIsOn = false
    ∧ (buzzerAfter pulseStart 199).buzzerIsOn = false
    ∧ (buzzerAfter pulseStart 200).buzzerIsOn = true
    ∧ (buzzerAfter pulseStart 259).buzzerIsOn = true
    ∧ (buzzerAfter pulseStart 260).buzzerIsOn = false
    ∧ (buzzerAfter pulseStart 459).buzzerIsOn = false
    ∧ (buzzerAfter pulseStart 460).buzzerIsOn = true
    ∧ (buzzerAfter pulseStart 519).buzzerIsOn = true :=
  have h := phase_timing pulseStart rfl rfl rfl rfl rfl rfl
  ⟨(h.1 0 (by norm_num)).1, (h.1 199 (by norm_num)).1,
    (h.2.1 200 (by norm_num) (by norm_num)).1, (h.2.1 259 (by norm_num) (by norm_num)).1,
    (h.2.2.1 260 (by norm_num) (by norm_num)).1, (h.2.2.1 459 (by norm_num) (by norm_num)).1,
    (h.2.2.2 460 (by norm_num) (by norm_num)).1, (h.2.2.2 519 (by norm_num) (by norm_num)).1⟩

/-! ## What a call of `handleNextionInput` can do -/

theorem handleSave1_cases (s : State) (p : List Char) :
    (handleSave1 s p).sent = [] ∧
    (handleSave1 s p = { state := s, sent := [], saved := [] }
      ∨ ∃ a b : ℚ, (handleSave1 s p).state = { s with warningZone_m := a, dangerZone_m := b }) := by
  cases h1 : (strtok ',' (p.drop 6)).1 <;>
    cases h2 : (strtok ',' (strtok ',' (p.drop 6)).2).1 <;>
    simp [handleSave1, h1, h2]

theorem handleSave2_cases (s : State) (p : List Char) :
    (handleSave2 s p).sent = [] ∧
    (handleSave2 s p = { state := s, sent := [], saved := [] }
      ∨ ∃ a b c : ℚ, (handleSave2 s p).state
          = { s with sideMargin_m := a, vehicleRealWidth_m := b, maxWidth_m := c }) := by
  cases h1 : (strtok ',' (p.drop 6)).1 <;>
    cases h2 : (strtok ',' (strtok ',' (p.drop 6)).2).1 <;>
    cases h3 : (strtok ',' (strtok ',' (strtok ',' (p.drop 6)).2).2).1 <;>
    simp [handleSave2, h1, h2, h3]

theorem handleSave3_cases (s : State) (p : List Char) :
    (handleSave3 s p).sent = [] ∧
    (handleSave3 s p = { state := s, sent := [], saved := [] }
      ∨ (∃ z : Bool, (handleSave3 s p).state
          = { s with autoZoom_enabled := z, audioAlarm_enabled := true })
      ∨ (∃ z : Bool, (handleSave3 s p).state
          = { s with autoZoom_enabled := z, audioAlarm_enabled := false, buzzerPin := false,
                     buzzerIsOn := false, buzzerShouldBeActive := false })) := by
  cases h1 : (strtok ',' (p.drop 6)).1 with
  | none => simp [handleSave3, h1]
  | some vZoom =>
    cases h2 : (strtok ',' (strtok ',' (p.drop 6)).2).1 with
    | none => simp [handleSave3, h1, h2]
    | some vAudio =>
      refine ⟨by simp [handleSave3, h1, h2], Or.inr ?_⟩
      by_cases h : atoi vAudio = 1
      · left; exact ⟨decide (atoi vZoom = 1), by simp [handleSave3, h1, h2, h]⟩
      · right; exact ⟨decide (atoi vZoom = 1), by simp [handleSave3, h1, h2, h]⟩

theorem strstr_some_ne_nil (needle hay p : List Char) (hn : needle ≠ [])
    (h : strstr needle hay = some p) : hay ≠ [] := by
  intro he
  subst he
  simp [strstr, hn] at h

theorem rxBuffer_ne_nil (serial : List Char) (h : rxBuffer serial ≠ []) :
    serial ≠ [] ∧ (readBytesUntil (Char.ofNat 255) (RX_BUFFER_SIZE - 1) serial).length ≠ 0 := by
  constructor
  · intro he
    apply h
    subst he
    rfl
  · intro he
    apply h
    have : readBytesUntil (Char.ofNat 255) (RX_BUFFER_SIZE - 1) serial = [] :=
      List.length_eq_zero.mp he
    simp [rxBuffer, this]

/-- The body of `handleNextionInput` once bytes have been read: the chain of
`strstr` tests on the receive buffer. -/
theorem handleNextionInput_of_ne_nil (s : State) (serial : List Char)
    (h : rxBuffer serial ≠ []) :
    handleNextionInput s serial =
      match strstr "SAVE1:".toList (rxBuffer serial) with
      | some cmdPtr => handleSave1 s cmdPtr
      | none =>
        match strstr "SAVE2:".toList (rxBuffer serial) with
        | some cmdPtr => handleSave2 s cmdPtr
        | none =>
          match strstr "SAVE3:".toList (rxBuffer serial) with
          | some cmdPtr => handleSave3 s cmdPtr
          | none =>
            match strstr "RESETALL".toList (rxBuffer serial) with
            | some _ => { state := (resetToDefaults s).1, sent := [],
                          saved := [(resetToDefaults s).2] }
            | none => { state := s, sent := [], saved := [] } := by
  obtain ⟨h1, h2⟩ := rxBuffer_ne_nil serial h
  simp only [handleNextionInput, h1, h2, if_false]

theorem handleNextionInput_of_nil (s : State) (serial : List Char)
    (h : rxBuffer serial = []) :
    handleNextionInput s serial = { state := s, sent := [], saved := [] } := by
  unfold handleNextionInput
  by_cases h1 : serial = []
  · simp [h1]
  · simp only [h1, if_false]
    by_cases h2 : (readBytesUntil (Char.ofNat 255) (RX_BUFFER_SIZE - 1) serial).length = 0
    · simp [h2]
    · simp only [h2, if_false, h]
      rfl

theorem handleNextionInput_save1 (s : State) (serial p : List Char)
    (h : strstr "SAVE1:".toList (rxBuffer serial) = some p) :
    handleNextionInput s serial = handleSave1 s p := by
  rw [handleNextionInput_of_ne_nil s serial
    (strstr_some_ne_nil _ _ p (by decide) h), h]

theorem handleNextionInput_save2 (s : State) (serial p : List Char)
    (h1 : strstr "SAVE1:".toList (rxBuffer serial) = none)
    (h : strstr "SAVE2:".toList (rxBuffer serial) = some p) :
    handleNextionInput s serial = handleSave2 s p := by
  rw [handleNextionInput_of_ne_nil s serial
    (strstr_some_ne_nil _ _ p (by decide) h), h1, h]

theorem handleNextionInput_save3 (s : State) (serial p : List Char)
    (h1 : strstr "SAVE1:".toList (rxBuffer serial) = none)
    (h2 : strstr "SAVE2:".toList (rxBuffer serial) = none)
    (h : strstr "SAVE3:".toList (rxBuffer serial) = some p) :
    handleNextionInput s serial = handleSave3 s p := by
  rw [handleNextionInput_of_ne_nil s serial
    (strstr_some_ne_nil _ _ p (by decide) h), h1, h2, h]

/-- Every call of `handleNextionInput` sends nothing to the display and either
leaves the globals as they are, or sets the two zones, or the three vehicle
settings, or the two switches (silencing the buzzer when the audio alarm goes
off), or restores the defaults. -/
theorem handleNextionInput_cases (s : State) (serial : List Char) :
    (handleNextionInput s serial).sent = [] ∧
    ((handleNextionInput s serial).state = s
      ∨ (∃ a b : ℚ, (handleNextionInput s serial).state
          = { s with warningZone_m := a, dangerZone_m := b })
      ∨ (∃ a b c : ℚ, (handleNextionInput s serial).state
          = { s with sideMargin_m := a, vehicleRealWidth_m := b, maxWidth_m := c })
      ∨ (∃ z : Bool, (handleNextionInput s serial).state
          = { s with autoZoom_enabled := z, audioAlarm_enabled := true })
      ∨ (∃ z : Bool, (handleNextionInput s serial).state
          = { s with autoZoom_enabled := z, audioAlarm_enabled := false, buzzerPin := false,
                     buzzerIsOn := false, buzzerShouldBeActive := false })
      ∨ (handleNextionInput s serial).state = (resetToDefaults s).1) := by
  by_cases hb : rxBuffer serial = []
  · rw [handleNextionInput_of_nil s serial hb]
    exact ⟨rfl, Or.inl rfl⟩
  rw [handleNextionInput_of_ne_nil s serial hb]
  cases strstr "SAVE1:".toList (rxBuffer serial) with
  | some p =>
    obtain ⟨hs, h | h⟩ := handleSave1_cases s p
    · exact ⟨hs, Or.inl (congrArg HmiResult.state h)⟩
    · exact ⟨hs, Or.inr (Or.inl h)⟩
  | none =>
    cases strstr "SAVE2:".toList (rxBuffer serial) with
    | some p =>
      obtain ⟨hs, h | h⟩ := handleSave2_cases s p
      · exact ⟨hs, Or.inl (congrArg HmiResult.state h)⟩
      · exact ⟨hs, Or.inr (Or.inr (Or.inl h))⟩
    | none =>
      cases strstr "SAVE3:".toList (rxBuffer serial) with
      | some p =>
        obtain ⟨hs, h | h | h⟩ := handleSave3_cases s p
        · exact ⟨hs, Or.inl (congrArg HmiResult.state h)⟩
        · exact ⟨hs, Or.inr (Or.inr (Or.inr (Or.inl h)))⟩
        · exact ⟨hs, Or.inr (Or.inr (Or.inr (Or.inr (Or.inl h))))⟩
      | none =>
        cases strstr "RESETALL".toList (rxBuffer serial) with
        | some p => exact ⟨rfl, Or.inr (Or.inr (Or.inr (Or.inr (Or.inr rfl))))⟩
        | none => exact ⟨rfl, Or.inl rfl⟩


/-! ## The buzzer and the audio setting -/

theorem buzzerLogic_frame (s : State) (r y : ℚ) (pic : Int) :
    (buzzerLogic s r y pic).buzzerPin = s.buzzerPin
    ∧ (buzzerLogic s r y pic).buzzerIsOn = s.buzzerIsOn
    ∧ (buzzerLogic s r y pic).audioAlarm_enabled = s.audioAlarm_enabled := by
  unfold buzzerLogic; split <;> exact ⟨rfl, rfl, rfl⟩

theorem handleDetection_frame (s : State) (msg : twai_message_t) :
    (handleDetection s msg).1.buzzerPin = s.buzzerPin
    ∧ (handleDetection s msg).1.buzzerIsOn = s.buzzerIsOn
    ∧ (handleDetection s msg).1.audioAlarm_enabled = s.audioAlarm_enabled := by
  rw [handleDetection_fst]
  exact buzzerLogic_frame s _ _ _

theorem handleBuzzer_audioAlarm_enabled (s : State) (millis : Nat) :
    (handleBuzzer s millis).audioAlarm_enabled = s.audioAlarm_enabled := by
  simp only [handleBuzzer]
  split_ifs <;> rfl

theorem handleBuzzer_pin (s : State) (millis : Nat) (hp : s.buzzerPin = s.buzzerIsOn) :
    (handleBuzzer s millis).buzzerPin = (handleBuzzer s millis).buzzerIsOn := by
  simp only [handleBuzzer]
  split_ifs <;> first | exact hp | rfl

/-- Each operation keeps the pin equal to `buzzerIsOn` and keeps the buzzer
off while the audio setting is off. -/
theorem applyOperation_invariant (s : State) (op : Operation)
    (hp : s.buzzerPin = s.buzzerIsOn)
    (ha : s.audioAlarm_enabled = false → s.buzzerIsOn = false) :
    (applyOperation s op).buzzerPin = (applyOperation s op).buzzerIsOn
    ∧ ((applyOperation s op).audioAlarm_enabled = false →
        (applyOperation s op).buzzerIsOn = false) := by
  cases op with
  | hmi serial =>
    simp only [applyOperation]
    obtain ⟨_, h | ⟨a, b, h⟩ | ⟨a, b, c, h⟩ | ⟨z, h⟩ | ⟨z, h⟩ | h⟩ :=
      handleNextionInput_cases s serial
    · rw [h]; exact ⟨hp, ha⟩
    · rw [h]; exact ⟨hp, ha⟩
    · rw [h]; exact ⟨hp, ha⟩
    · rw [h]; exact ⟨hp, fun hf => by simp at hf⟩
    · rw [h]; exact ⟨rfl, fun _ => rfl⟩
    · rw [h]; exact ⟨hp, fun hf => by simp [resetToDefaults, DEFAULT_AUDIOALARM_EN] at hf⟩
  | detection msg =>
    simp only [applyOperation]
    obtain ⟨h1, h2, h3⟩ := handleDetection_frame s msg
    rw [h1, h2, h3]; exact ⟨hp, ha⟩
  | clear => exact ⟨hp, ha⟩
  | buzzer millis =>
    simp only [applyOperation]
    refine ⟨handleBuzzer_pin s millis hp, ?_⟩
    intro hf
    rw [handleBuzzer_audioAlarm_enabled] at hf
    exact handleBuzzer_of_audio_off s millis hf

theorem runOperations_invariant (ops : List Operation) :
    ∀ s : State, s.buzzerPin = s.buzzerIsOn →
      (s.audioAlarm_enabled = false → s.buzzerIsOn = false) →
      (runOperations s ops).buzzerPin = (runOperations s ops).buzzerIsOn
      ∧ ((runOperations s ops).audioAlarm_enabled = false →
          (runOperations s ops).buzzerIsOn = false) := by
  induction ops with
  | nil => intro s hp ha; exact ⟨hp, ha⟩
  | cons op rest ih =>
    intro s hp ha
    obtain ⟨hp1, ha1⟩ := applyOperation_invariant s op hp ha
    exact ih (applyOperation s op) hp1 ha1

theorem setup_buzzer_off (stored : Option SavedSettings) :
    (setup stored).state.buzzerIsOn = false ∧ (setup stored).state.buzzerPin = false := by
  cases stored <;> exact ⟨rfl, rfl⟩

/-- C11. The buzzer is never on while the audio setting is off (v3.7.0): in
every state reached from the state after `setup` by operations of the program
(`handleNextionInput` on any bytes, `handleDetection`, `clearDetection`,
`handleBuzzer`), `audioAlarm_enabled` = false implies `buzzerIsOn` = false and
a low pin.  A call of `handleNextionInput` that turns the audio setting off,
and any applied `SAVE3` command that leaves it off, leaves `buzzerIsOn` false,
the pin low and `buzzerShouldBeActive` false within the same call. -/
theorem buzzer_off_while_audio_off (stored : Option SavedSettings) (ops : List Operation) :
    ((runOperations (setup stored).state ops).audioAlarm_enabled = false →
        (runOperations (setup stored).state ops).buzzerIsOn = false
        ∧ (runOperations (setup stored).state ops).buzzerPin = false)
    ∧ (∀ (s : State) (serial : List Char), s.audioAlarm_enabled = true →
        (handleNextionInput s serial).state.audioAlarm_enabled = false →
        (handleNextionInput s serial).state.buzzerIsOn = false
        ∧ (handleNextionInput s serial).state.buzzerPin = false
        ∧ (handleNextionInput s serial).state.buzzerShouldBeActive = false)
    ∧ (∀ (s : State) (serial p : List Char),
        strstr "SAVE1:".toList (rxBuffer serial) = none →
        strstr "SAVE2:".toList (rxBuffer serial) = none →
        strstr "SAVE3:".toList (rxBuffer serial) = some p →
        (handleNextionInput s serial).saved ≠ [] →
        (handleNextionInput s serial).state.audioAlarm_enabled = false →
        (handleNextionInput s serial).state.buzzerIsOn = false
        ∧ (handleNextionInput s serial).state.buzzerPin = false
        ∧ (handleNextionInput s serial).state.buzzerShouldBeActive = false) := by
  refine ⟨?_, ?_, ?_⟩
  · intro hf
    obtain ⟨h1, h2⟩ := setup_buzzer_off stored
    obtain ⟨hp, ha⟩ := runOperations_invariant ops (setup stored).state
      (by rw [h1, h2]) (fun _ => h1)
    exact ⟨ha hf, by rw [hp]; exact ha hf⟩
  · intro s serial hon hoff
    obtain ⟨_, h | ⟨a, b, h⟩ | ⟨a, b, c, h⟩ | ⟨z, h⟩ | ⟨z, h⟩ | h⟩ :=
      handleNextionInput_cases s serial
    · rw [h] at hoff; rw [hon] at hoff; cases hoff
    · rw [h] at hoff; simp [hon] at hoff
    · rw [h] at hoff; simp [hon] at hoff
    · rw [h] at hoff; simp at hoff
    · rw [h]; exact ⟨rfl, rfl, rfl⟩
    · rw [h] at hoff; simp [resetToDefaults, DEFAULT_AUDIOALARM_EN] at hoff
  · intro s serial p h1 h2 h3 hsaved hoff
    rw [handleNextionInput_save3 s serial p h1 h2 h3] at hsaved hoff ⊢
    cases k1 : (strtok ',' (p.drop 6)).1 with
    | none => simp [handleSave3, k1] at hsaved
    | some vZoom =>
      cases k2 : (strtok ',' (strtok ',' (p.drop 6)).2).1 with
      | none => simp [handleSave3, k1, k2] at hsaved
      | some vAudio =>
        by_cases hA : atoi vAudio = 1
        · simp [handleSave3, k1, k2, hA] at hoff
        · simp [handleSave3, k1, k2, hA]

/-- Witness for C11: after `setup` with an empty EEPROM a target is reported
0.5 m ahead, the buzzer is ticked, then `SAVE3:1,0` arrives; the audio setting
is then off and so is the buzzer. -/
theorem buzzer_off_while_audio_off_witness :
    (runOperations (setup none).state muteWhileSounding).audioAlarm_enabled = false
    ∧ (runOperations (setup none).state muteWhileSounding).buzzerIsOn = false
    ∧ (runOperations (setup none).state muteWhileSounding).buzzerPin = false :=
  ⟨by decide, (buzzer_off_while_audio_off none muteWhileSounding).1 (by decide)⟩

/-! ## Passes of the loop without a valid detection -/

theorem loop_of_noDetection (h : State → State × List Command)
    (rx : Option twai_message_t) (millis : Nat) (s : State) (hn : Spec.noDetection rx) :
    loop h rx millis s =
      { state := handleBuzzer
          (if (h s).1.targetVisible then (clearDetection (h s).1).1 else (h s).1) millis,
        sent := (h s).2 ++ (if (h s).1.targetVisible then (clearDetection (h s).1).2 else []),
        detectionThisCycle := false } := by
  cases rx with
  | none =>
    simp only [loop]
    cases hh : (h s).1.targetVisible <;> simp [hh]
  | some msg =>
    have hvalid : ¬ Spec.validFrame msg := hn msg rfl
    have key := validDetection_iff msg
    have hno : ¬ ((msg.identifier ≥ 0x310 ∧ msg.identifier ≤ 0x38F)
        ∧ (!decide ((msg.data 7).val &&& 1 ≠ 0)) = true) := fun hc => hvalid (key.mp hc)
    by_cases hid : msg.identifier ≥ 0x310 ∧ msg.identifier ≤ 0x38F
    · have hbit : (!decide ((msg.data 7).val &&& 1 ≠ 0)) = false := by
        cases hb : (!decide ((msg.data 7).val &&& 1 ≠ 0))
        · rfl
        · exact absurd ⟨hid, hb⟩ hno
      simp only [loop, hid, hbit]
      cases hh : (h s).1.targetVisible <;> simp [hh]
    · simp only [loop, hid]
      cases hh : (h s).1.targetVisible <;> simp [hh]

theorem handleNextionInput_targetVisible (s : State) (serial : List Char) :
    (handleNextionInput s serial).state.targetVisible = s.targetVisible := by
  obtain ⟨_, h | ⟨a, b, h⟩ | ⟨a, b, c, h⟩ | ⟨z, h⟩ | ⟨z, h⟩ | h⟩ :=
    handleNextionInput_cases s serial <;> (rw [h]; try rfl)

theorem handleNextionInput_sent (s : State) (serial : List Char) :
    (handleNextionInput s serial).sent = [] :=
  (handleNextionInput_cases s serial).1

theorem handleBuzzer_targetVisible (s : State) (millis : Nat) :
    (handleBuzzer s millis).targetVisible = s.targetVisible := by
  simp only [handleBuzzer]
  split_ifs <;> rfl

/-- A pass without a valid detection: `handleNextionInput`, then
`clearDetection` if the target is visible, then `handleBuzzer`. -/
theorem cycle_of_noDetection (s : State) (i : CycleInput) (hn : Spec.noDetection i.rx) :
    cycle s i =
      { state := handleBuzzer
          (if s.targetVisible then (clearDetection (handleNextionInput s i.serial).state).1
            else (handleNextionInput s i.serial).state) i.millis,
        sent := if s.targetVisible then (clearDetection (handleNextionInput s i.serial).state).2
          else [],
        detectionThisCycle := false } := by
  unfold cycle
  rw [loop_of_noDetection _ _ _ _ hn]
  simp only [hmiStep, handleNextionInput_targetVisible, handleNextionInput_sent,
    List.nil_append]

theorem cycle_of_noDetection_targetVisible (s : State) (i : CycleInput)
    (hn : Spec.noDetection i.rx) : (cycle s i).state.targetVisible = false := by
  rw [cycle_of_noDetection s i hn]
  simp only [handleBuzzer_targetVisible]
  cases hv : s.targetVisible
  · simp [handleNextionInput_targetVisible, hv]
  · simp [clearDetection]

theorem runCycles_idle_sent (rest : List CycleInput) :
    ∀ s : State, s.targetVisible = false → (∀ j ∈ rest, Spec.noDetection j.rx) →
      (runCycles s rest).map LoopResult.sent = rest.map (fun _ => [])
      ∧ ∀ r ∈ runCycles s rest, r.state.targetVisible = false ∧ r.detectionThisCycle = false := by
  induction rest with
  | nil => intro s _ _; exact ⟨rfl, fun r hr => by simp [runCycles] at hr⟩
  | cons i rest ih =>
    intro s hv hall
    have hi : Spec.noDetection i.rx := hall i (List.mem_cons_self _ _)
    have hrest := ih (cycle s i).state (cycle_of_noDetection_targetVisible s i hi)
      (fun j hj => hall j (List.mem_cons_of_mem _ hj))
    have hc := cycle_of_noDetection s i hi
    constructor
    · simp only [runCycles, List.map_cons, hrest.1]
      rw [hc]; simp [hv]
    · intro r hr
      simp only [runCycles, List.mem_cons] at hr
      rcases hr with hr | hr
      · subst hr
        exact ⟨cycle_of_noDetection_targetVisible s i hi, by rw [hc]⟩
      · exact hrest.2 r hr

theorem count_vis_clearDetection (s : State) :
    (clearDetection s).2.count (Command.vis "rTarget" 0) = 1 := by
  simp [clearDetection, updateVehicleDisplay, List.count_cons]

/-- C16. Edge-triggered clear: over any run of consecutive passes of `loop`
without a valid detection (time-out or rejected frame, any bytes from the
display), the commands of `clearDetection` are sent in the first pass if the
target was visible when the run began and nothing is sent otherwise, and no
later pass of the run sends anything; so `vis rTarget,0` is sent exactly once
or not at all, and the target is not visible after any pass of the run. -/
theorem clear_is_edge_triggered (s : State) (i : CycleInput) (rest : List CycleInput)
    (hall : ∀ j ∈ i :: rest, Spec.noDetection j.rx) :
    (runCycles s (i :: rest)).map LoopResult.sent
      = (if s.targetVisible then (clearDetection (handleNextionInput s i.serial).state).2
          else []) :: rest.map (fun _ => [])
    ∧ ((runCycles s (i :: rest)).map LoopResult.sent).flatten.count (Command.vis "rTarget" 0)
      = (if s.targetVisible then 1 else 0)
    ∧ (∀ r ∈ runCycles s (i :: rest),
        r.state.targetVisible = false ∧ r.detectionThisCycle = false) := by
  have hi : Spec.noDetection i.rx := hall i (List.mem_cons_self _ _)
  have hrest := runCycles_idle_sent rest (cycle s i).state
    (cycle_of_noDetection_targetVisible s i hi)
    (fun j hj => hall j (List.mem_cons_of_mem _ hj))
  have hc := cycle_of_noDetection s i hi
  have hsent : (runCycles s (i :: rest)).map LoopResult.sent
      = (if s.targetVisible then (clearDetection (handleNextionInput s i.serial).state).2
          else []) :: rest.map (fun _ => []) := by
    simp only [runCycles, List.map_cons, hrest.1]
    rw [hc]
  refine ⟨hsent, ?_, ?_⟩
  · rw [hsent]
    have hnil : (List.map (fun _ => ([] : List Command)) rest).flatten = [] := by
      induction rest with
      | nil => rfl
      | cons j rest ih => simp
    rw [List.flatten_cons, hnil, List.append_nil]
    cases hv : s.targetVisible
    · simp
    · simp only [if_true]
      exact count_vis_clearDetection _
  · intro r hr
    simp only [runCycles, List.mem_cons] at hr
    rcases hr with hr | hr
    · subst hr
      exact ⟨cycle_of_noDetection_targetVisible s i hi, by rw [hc]⟩
    · exact hrest.2 r hr

theorem noDetection_none : Spec.noDetection none := by
  intro msg h; cases h

theorem noDetection_some (msg : twai_message_t) (h : ¬ Spec.validFrame msg) :
    Spec.noDetection (some msg) := by
  intro m hm
  cases hm
  exact h

theorem idleRun_noDetection : ∀ j ∈ idleRun, Spec.noDetection j.rx := by
  intro j hj
  simp only [idleRun, List.mem_cons, List.mem_singleton, List.not_mem_nil, or_false] at hj
  rcases hj with rfl | rfl | rfl
  · exact noDetection_none
  · exact noDetection_some _ (by decide)
  · exact noDetection_some _ (by decide)

/-- Witness for C16: from `pulseStart`, where the target is visible, the
three passes of `idleRun` send the clear sequence once, in the first pass. -/
theorem clear_is_edge_triggered_witness :
    (∀ j ∈ idleRun, Spec.noDetection j.rx)
    ∧ pulseStart.targetVisible = true
    ∧ (runCycles pulseStart idleRun).map LoopResult.sent
        = [(clearDetection pulseStart).2, [], []]
    ∧ ((runCycles pulseStart idleRun).map LoopResult.sent).flatten.count
        (Command.vis "rTarget" 0) = 1 :=
  ⟨idleRun_noDetection, rfl,
    (clear_is_edge_triggered pulseStart _ _ idleRun_noDetection).1,
    (clear_is_edge_triggered pulseStart _ _ idleRun_noDetection).2.1⟩

theorem handleNextionInput_nil (s : State) :
    handleNextionInput s [] = { state := s, sent := [], saved := [] } := rfl

theorem handleBuzzer_frame (s : State) (millis : Nat) :
    savedSettings (handleBuzzer s millis) = savedSettings s
    ∧ (handleBuzzer s millis).currentBeepInterval = s.currentBeepInterval
    ∧ (handleBuzzer s millis).buzzerShouldBeActive = s.buzzerShouldBeActive
    ∧ (handleBuzzer s millis).targetVisible = s.targetVisible := by
  simp only [handleBuzzer]
  split_ifs <;> exact ⟨rfl, rfl, rfl, rfl⟩

/-- C17, as stated, fails: in `pulseStart` the target is visible and the
buzzer armed; a pass of `loop` that receives a frame with the validity bit
set (and no bytes from the display) leaves `targetVisible` and
`buzzerShouldBeActive` false. -/
theorem invalid_frame_counterexample :
    ¬ Spec.validFrame invalidFrame
    ∧ pulseStart.targetVisible = true
    ∧ pulseStart.buzzerShouldBeActive = true
    ∧ (cycle pulseStart { serial := [], rx := some invalidFrame, millis := 0 }).state.targetVisible
        = false
    ∧ (cycle pulseStart
        { serial := [], rx := some invalidFrame, millis := 0 }).state.buzzerShouldBeActive
        = false := by
  refine ⟨by decide, rfl, rfl, by decide, by decide⟩

/-- C17, amended. An invalid detection is handled as the absence of one: a
pass of `loop` with no bytes from the display that receives a frame whose
validity bit is set or whose identifier is outside 0x310..0x38F does not call
`handleDetection` and leaves the settings and `currentBeepInterval` as they
were.  If the target was not visible it sends nothing and leaves
`targetVisible` and `buzzerShouldBeActive` as they were; if the target was
visible it runs `clearDetection`, which sends the clear sequence and sets both
to false. -/
theorem invalid_frame_cycle (s : State) (msg : twai_message_t) (millis : Nat)
    (h : ¬ Spec.validFrame msg) :
    (cycle s { serial := [], rx := some msg, millis := millis }).detectionThisCycle = false
    ∧ savedSettings (cycle s { serial := [], rx := some msg, millis := millis }).state
        = savedSettings s
    ∧ (cycle s { serial := [], rx := some msg, millis := millis }).state.currentBeepInterval
        = s.currentBeepInterval
    ∧ (s.targetVisible = false →
        (cycle s { serial := [], rx := some msg, millis := millis }).state.targetVisible
            = s.targetVisible
        ∧ (cycle s { serial := [], rx := some msg, millis := millis }).state.buzzerShouldBeActive
            = s.buzzerShouldBeActive
        ∧ (cycle s { serial := [], rx := some msg, millis := millis }).sent = [])
    ∧ (s.targetVisible = true →
        (cycle s { serial := [], rx := some msg, millis := millis }).state.targetVisible = false
        ∧ (cycle s { serial := [], rx := some msg, millis := millis }).state.buzzerShouldBeActive
            = false
        ∧ (cycle s { serial := [], rx := some msg, millis := millis }).sent
            = (clearDetection s).2) := by
  have hc := cycle_of_noDetection s { serial := [], rx := some msg, millis := millis }
    (noDetection_some msg h)
  simp only [handleNextionInput_nil] at hc
  cases hv : s.targetVisible
  · have hc2 : cycle s { serial := [], rx := some msg, millis := millis }
        = { state := handleBuzzer s millis, sent := [], detectionThisCycle := false } := by
      rw [hc, hv]; rfl
    obtain ⟨f1, f2, f3, f4⟩ := handleBuzzer_frame s millis
    rw [hc2]
    exact ⟨rfl, f1, f2, fun _ => ⟨by rw [f4, hv], f3, rfl⟩, fun hc => by cases hc⟩
  · have hc2 : cycle s { serial := [], rx := some msg, millis := millis }
        = { state := handleBuzzer (clearDetection s).1 millis, sent := (clearDetection s).2,
            detectionThisCycle := false } := by
      rw [hc, hv]; rfl
    obtain ⟨f1, f2, f3, f4⟩ := handleBuzzer_frame (clearDetection s).1 millis
    rw [hc2]
    refine ⟨rfl, ?_, ?_, ?_, ?_⟩
    · exact f1
    · exact f2
    · intro hc; cases hc
    · intro _; exact ⟨by rw [f4]; rfl, by rw [f3]; rfl, rfl⟩

/-- Witness for C17 amended: the frame with the validity bit set, received
in the state after `setup` (target not visible) and in `pulseStart` (target
visible). -/
theorem invalid_frame_cycle_witness :
    ¬ Spec.validFrame invalidFrame
    ∧ (cycle (setup none).state
        { serial := [], rx := some invalidFrame, millis := 7 }).sent = []
    ∧ (cycle pulseStart { serial := [], rx := some invalidFrame, millis := 7 }).sent
        = (clearDetection pulseStart).2 :=
  ⟨by decide,
    ((invalid_frame_cycle (setup none).state invalidFrame 7 (by decide)).2.2.2.1 rfl).2.2,
    ((invalid_frame_cycle pulseStart invalidFrame 7 (by decide)).2.2.2.2 rfl).2.2⟩

/-! ## Tokens of `strtok` and comma-separated fields -/

theorem splitOn_comma (t : List Char) :
    t.splitOn ',' =
      t.takeWhile (fun c => c ≠ ',') ::
        (match t.dropWhile (fun c => c ≠ ',') with
          | [] => []
          | _ :: r => r.splitOn ',') := by
  induction t with
  | nil => rfl
  | cons c t ih =>
    unfold List.splitOn at ih ⊢
    rw [List.splitOnP_cons]
    by_cases hc : c = ','
    · subst hc
      simp
    · have h1 : (c == ',') = false := by simpa using hc
      rw [h1, ih]
      simp [hc]

theorem fields_nil : Spec.fields [] = [] := by
  simp [Spec.fields]

theorem fields_comma (t : List Char) : Spec.fields (',' :: t) = Spec.fields t := by
  unfold Spec.fields List.splitOn
  rw [List.splitOnP_cons]
  simp

theorem fields_cons (c : Char) (t : List Char) (hc : c ≠ ',') :
    Spec.fields (c :: t) =
      (c :: t.takeWhile (fun c => c ≠ ',')) ::
        Spec.fields ((t.dropWhile (fun c => c ≠ ',')).drop 1) := by
  have h1 : (c == ',') = false := by simpa using hc
  unfold Spec.fields
  conv_lhs => unfold List.splitOn
  rw [List.splitOnP_cons, h1]
  have hs := splitOn_comma t
  unfold List.splitOn at hs
  rw [hs]
  cases hd : t.dropWhile (fun c => c ≠ ',') with
  | nil => simp [List.splitOn]
  | cons x r => simp [List.splitOn]

/-- The tokens `strtok` returns are the non-empty comma-separated fields, in
order: one call yields the first field, or `NULL` when there is none, and
leaves the text that holds the remaining fields. -/
theorem strtok_fields (p : List Char) :
    (strtok ',' p).1 = (Spec.fields p).head?
    ∧ Spec.fields (strtok ',' p).2 = (Spec.fields p).tail := by
  induction p with
  | nil => simp [strtok, fields_nil]
  | cons c t ih =>
    by_cases hc : c = ','
    · subst hc
      have hs : strtok ',' (',' :: t) = strtok ',' t := by
        simp [strtok]
      rw [hs, fields_comma]
      exact ih
    · rw [fields_cons c t hc]
      simp [strtok, hc]


theorem strtok_first (p : List Char) :
    (strtok ',' p).1 = (Spec.fields p).head? := (strtok_fields p).1

theorem strtok_second (p : List Char) :
    (strtok ',' (strtok ',' p).2).1 = (Spec.fields p).tail.head? := by
  rw [(strtok_fields _).1, (strtok_fields p).2]

theorem strtok_third (p : List Char) :
    (strtok ',' (strtok ',' (strtok ',' p).2).2).1 = (Spec.fields p).tail.tail.head? := by
  rw [(strtok_fields _).1, (strtok_fields _).2, (strtok_fields p).2]

/-! ## Rounding to the floating formats -/

theorem roundHalfEven_sub_le (x : ℚ) : |((roundHalfEven x : Int) : ℚ) - x| ≤ 1 / 2 := by
  have h1 := Int.floor_le x
  have h2 := Int.lt_floor_add_one x
  unfold roundHalfEven
  split_ifs with a b c
  · rw [abs_le]; constructor <;> linarith
  · rw [abs_le]; push_cast; constructor <;> linarith
  · rw [abs_le]; constructor <;> linarith
  · rw [abs_le]; push_cast; constructor <;> linarith

theorem roundHalfEven_eq (x : ℚ) (n : Int) (h : |x - n| < 1 / 2) : roundHalfEven x = n := by
  rw [abs_lt] at h
  have hf : ⌊x⌋ = n ∨ ⌊x⌋ = n - 1 := by
    by_cases hx : (n : ℚ) ≤ x
    · left; rw [Int.floor_eq_iff]; constructor <;> linarith
    · right; rw [Int.floor_eq_iff]; push_cast; constructor <;> linarith
  unfold roundHalfEven
  rcases hf with hf | hf
  · rw [hf]
    have : x - n < 1 / 2 := by linarith
    simp only [this, if_true]
  · rw [hf]
    push_cast
    have h1 : ¬ (x - (n - 1) < 1 / 2) := by linarith
    have h2 : (1 : ℚ) / 2 < x - (n - 1) := by linarith
    simp only [h1, h2, if_false, if_true]
    ring

theorem roundHalfEven_nonneg (x : ℚ) (h : 0 ≤ x) : 0 ≤ roundHalfEven x := by
  have h1 : 0 ≤ ⌊x⌋ := Int.floor_nonneg.mpr h
  unfold roundHalfEven
  split_ifs <;> omega

theorem roundHalfEven_intCast (n : Int) : roundHalfEven (n : ℚ) = n :=
  roundHalfEven_eq _ n (by simp)

theorem zpow_two_pos (e : Int) : (0 : ℚ) < (2 : ℚ) ^ e := zpow_pos (by norm_num) e

/-- Rounding a non-negative number gives a non-negative number or +infinity. -/
theorem roundToFormat_nonneg (p : Nat) (emin emax : Int) (x r : ℚ) (hx : 0 ≤ x)
    (h : roundToFormat p emin emax x = Floating.finite r) : 0 ≤ r := by
  unfold roundToFormat at h
  by_cases h0 : x = 0
  · simp only [h0, if_true] at h
    injection h with h
    rw [← h]
  · simp only [h0, if_false] at h
    split_ifs at h
    injection h with h
    rw [← h]
    apply mul_nonneg
    · exact_mod_cast roundHalfEven_nonneg _ (div_nonneg hx (zpow_two_pos _).le)
    · exact (zpow_two_pos _).le

/-- In the normal range rounding gives a finite value within half a unit in
the last place: the relative error is at most `2 ^ (-p)`. -/
theorem roundToFormat_normal (p : Nat) (emin emax : Int) (x : ℚ) (hx : 0 < x)
    (hlo : (2 : ℚ) ^ emin ≤ x) (hhi : x < (2 : ℚ) ^ emax) :
    ∃ r : ℚ, roundToFormat p emin emax x = Floating.finite r
      ∧ |r - x| ≤ x * (2 : ℚ) ^ (-(p : Int)) ∧ 0 ≤ r := by
  have hb : 1 < (2 : Nat) := by norm_num
  have hax : |x| = x := abs_of_pos hx
  have h1 : ((2 : Nat) : ℚ) ^ Int.log 2 x ≤ x := Int.zpow_log_le_self hb hx
  have h2 : emin ≤ Int.log 2 x := (Int.zpow_le_iff_le_log hb hx).mp (by exact_mod_cast hlo)
  have h3 : Int.log 2 x < emax := (Int.lt_zpow_iff_log_lt hb hx).mp (by exact_mod_cast hhi)
  have hmax : max (Int.log 2 x) emin = Int.log 2 x := max_eq_left h2
  set e := Int.log 2 x with he
  set q : ℚ := (2 : ℚ) ^ (e - ((p : Int) - 1)) with hq
  have hqpos : 0 < q := zpow_two_pos _
  have hr := roundHalfEven_sub_le (x / q)
  have herr : |(roundHalfEven (x / q) : ℚ) * q - x| ≤ q / 2 := by
    have : (roundHalfEven (x / q) : ℚ) * q - x = ((roundHalfEven (x / q) : ℚ) - x / q) * q := by
      field_simp
    rw [this, abs_mul, abs_of_pos hqpos]
    calc |(roundHalfEven (x / q) : ℚ) - x / q| * q ≤ 1 / 2 * q :=
          mul_le_mul_of_nonneg_right hr hqpos.le
      _ = q / 2 := by ring
  have hq2 : q / 2 = (2 : ℚ) ^ e * (2 : ℚ) ^ (-(p : Int)) := by
    rw [hq, ← zpow_add₀ (by norm_num : (2 : ℚ) ≠ 0)]
    have : e - ((p : Int) - 1) = (e + -(p : Int)) + 1 := by ring
    rw [this, zpow_add_one₀ (by norm_num : (2 : ℚ) ≠ 0)]
    ring
  have h1' : (2 : ℚ) ^ e ≤ x := by exact_mod_cast h1
  have hp1 : (2 : ℚ) ^ (-(p : Int)) ≤ 1 := by
    apply zpow_le_one_of_nonpos₀ (by norm_num) (by omega)
  have hppos : (0 : ℚ) < (2 : ℚ) ^ (-(p : Int)) := zpow_two_pos _
  have hbound : q / 2 ≤ x * (2 : ℚ) ^ (-(p : Int)) := by
    rw [hq2]
    exact mul_le_mul_of_nonneg_right h1' hppos.le
  have hrnn : 0 ≤ (roundHalfEven (x / q) : ℚ) * q :=
    mul_nonneg (by exact_mod_cast roundHalfEven_nonneg _ (div_nonneg hx.le hqpos.le)) hqpos.le
  have hfin : ¬ (2 : ℚ) ^ (emax + 1) ≤ |(roundHalfEven (x / q) : ℚ) * q| := by
    rw [abs_of_nonneg hrnn, not_le]
    have ha := (abs_le.mp (herr.trans hbound)).2
    have : (2 : ℚ) ^ (emax + 1) = 2 * (2 : ℚ) ^ emax := by
      rw [zpow_add_one₀ (by norm_num : (2 : ℚ) ≠ 0)]; ring
    rw [this]
    nlinarith
  refine ⟨(roundHalfEven (x / q) : ℚ) * q, ?_, herr.trans hbound, hrnn⟩
  unfold roundToFormat
  simp only [hx.ne', if_false, hax, hmax]
  rw [if_neg hfin]

/-- Evaluation of a rounding: `e` is the binade of `x` and `n` the integer
nearest to `x` in units of the last place. -/
theorem roundToFormat_eval (p : Nat) (emin emax : Int) (x : ℚ) (e n : Int)
    (h1 : (2 : ℚ) ^ e ≤ |x|) (h2 : |x| < (2 : ℚ) ^ (e + 1)) (hemin : emin ≤ e)
    (hn : |x / (2 : ℚ) ^ (e - ((p : Int) - 1)) - n| < 1 / 2)
    (hfin : |(n : ℚ) * (2 : ℚ) ^ (e - ((p : Int) - 1))| < (2 : ℚ) ^ (emax + 1)) :
    roundToFormat p emin emax x = Floating.finite ((n : ℚ) * (2 : ℚ) ^ (e - ((p : Int) - 1))) := by
  have hb : 1 < (2 : Nat) := by norm_num
  have hpos : 0 < |x| := lt_of_lt_of_le (zpow_two_pos e) h1
  have hx0 : x ≠ 0 := abs_pos.mp hpos
  have hl1 : e ≤ Int.log 2 |x| := (Int.zpow_le_iff_le_log hb hpos).mp (by exact_mod_cast h1)
  have hl2 : Int.log 2 |x| < e + 1 := (Int.lt_zpow_iff_log_lt hb hpos).mp (by exact_mod_cast h2)
  have hlog : Int.log 2 |x| = e := by omega
  unfold roundToFormat
  simp only [hx0, if_false, hlog, max_eq_left hemin, roundHalfEven_eq _ n hn]
  rw [if_neg (not_le.mpr hfin)]

theorem roundToFormat_zero (p : Nat) (emin emax : Int) :
    roundToFormat p emin emax 0 = Floating.finite 0 := by
  simp [roundToFormat]

theorem machineTenth_zero : Spec.machineTenth 0 = Floating.finite 0 := by
  simp [Spec.machineTenth, roundToDouble, roundToFloat, roundToFormat_zero,
    Floating.divDouble, Floating.toFloat]

theorem roundToDouble_50 : roundToDouble 50 = Floating.finite 50 := by
  have h := roundToFormat_eval 53 (-1022) 1023 50 5 (50 * 2 ^ 47)
    (by norm_num) (by norm_num) (by norm_num) (by norm_num) (by norm_num)
  rw [roundToDouble, h]
  norm_num

theorem roundToDouble_5 : roundToDouble 5 = Floating.finite 5 := by
  have h := roundToFormat_eval 53 (-1022) 1023 5 2 (5 * 2 ^ 50)
    (by norm_num) (by norm_num) (by norm_num) (by norm_num) (by norm_num)
  rw [roundToDouble, h]
  norm_num

theorem roundToFloat_5 : roundToFloat 5 = Floating.finite 5 := by
  have h := roundToFormat_eval 24 (-126) 127 5 2 (5 * 2 ^ 21)
    (by norm_num) (by norm_num) (by norm_num) (by norm_num) (by norm_num)
  rw [roundToFloat, h]
  norm_num

theorem machineTenth_50 : Spec.machineTenth 50 = Floating.finite 5 := by
  have h : ((50 : Nat) : ℚ) = 50 := by norm_num
  rw [Spec.machineTenth, h, roundToDouble_50]
  show (roundToDouble (50 / 10)).toFloat = _
  have h2 : (50 : ℚ) / 10 = 5 := by norm_num
  rw [h2, roundToDouble_5]
  exact roundToFloat_5

theorem roundToDouble_7 : roundToDouble 7 = Floating.finite 7 := by
  have h := roundToFormat_eval 53 (-1022) 1023 7 2 (7 * 2 ^ 50)
    (by norm_num) (by norm_num) (by norm_num) (by norm_num) (by norm_num)
  rw [roundToDouble, h]
  norm_num

theorem roundToDouble_7_10 :
    roundToDouble (7 / 10) = Floating.finite (3152519739159347 / 4503599627370496) := by
  have h := roundToFormat_eval 53 (-1022) 1023 (7 / 10) (-1) 6305039478318694
    (by norm_num [abs_of_pos]) (by norm_num [abs_of_pos]) (by norm_num)
    (by rw [abs_lt]; constructor <;> norm_num) (by norm_num [abs_of_pos])
  rw [roundToDouble, h]
  norm_num

theorem roundToFloat_7_10 :
    roundToFloat (3152519739159347 / 4503599627370496)
      = Floating.finite (11744051 / 16777216) := by
  have h := roundToFormat_eval 24 (-126) 127 (3152519739159347 / 4503599627370496) (-1)
    11744051
    (by norm_num [abs_of_pos]) (by norm_num [abs_of_pos]) (by norm_num)
    (by rw [abs_lt]; constructor <;> norm_num) (by norm_num [abs_of_pos])
  rw [roundToFloat, h]
  norm_num

theorem machineTenth_7 : Spec.machineTenth 7 = Floating.finite (11744051 / 16777216) := by
  have h : ((7 : Nat) : ℚ) = 7 := by norm_num
  rw [Spec.machineTenth, h, roundToDouble_7]
  show (roundToDouble (7 / 10)).toFloat = _
  rw [roundToDouble_7_10]
  exact roundToFloat_7_10

/-- For `a` up to `10 ^ 39` the firmware's `a / 10` is a finite `float` within
relative error `2 ^ (-23)` of the exact quotient. -/
theorem machineTenth_bound (a : Nat) (ha : a ≤ 10 ^ 39) :
    ∃ x : ℚ, Spec.machineTenth a = Floating.finite x
      ∧ |x - (a : ℚ) / 10| ≤ (a : ℚ) / 10 * (2 : ℚ) ^ (-(23 : Int)) ∧ 0 ≤ x := by
  by_cases h0 : a = 0
  · subst h0
    exact ⟨0, machineTenth_zero, by norm_num, le_refl 0⟩
  have ha1 : (1 : ℚ) ≤ (a : ℚ) := by exact_mod_cast Nat.one_le_iff_ne_zero.mpr h0
  have hau : (a : ℚ) ≤ 10 ^ 39 := by exact_mod_cast ha
  have hlo1 : (2 : ℚ) ^ (-1022 : Int) ≤ 1 := zpow_le_one_of_nonpos₀ (by norm_num) (by norm_num)
  have hlo2 : (2 : ℚ) ^ (-126 : Int) ≤ 1 / 16 := by
    have : (1 : ℚ) / 16 = (2 : ℚ) ^ (-4 : Int) := by norm_num
    rw [this]
    exact zpow_le_zpow_right₀ (by norm_num) (by norm_num)
  have hhi1 : (10 : ℚ) ^ 39 * 2 < (2 : ℚ) ^ (1023 : Int) := by norm_num
  have hhi2 : (10 : ℚ) ^ 38 * (3 / 2) < (2 : ℚ) ^ (127 : Int) := by norm_num
  have hd : (2 : ℚ) ^ (-((53 : Nat) : Int)) = 1 / 9007199254740992 := by norm_num
  have hf : (2 : ℚ) ^ (-((24 : Nat) : Int)) = 1 / 16777216 := by norm_num
  have hg : (2 : ℚ) ^ (-(23 : Int)) = 1 / 8388608 := by norm_num
  -- the double nearest to a
  obtain ⟨r1, e1, b1, n1⟩ := roundToFormat_normal 53 (-1022) 1023 (a : ℚ) (by linarith)
    (by linarith) (by linarith)
  rw [hd, abs_le] at b1
  obtain ⟨b1l, b1u⟩ := b1
  have r1lo : 1 / 2 ≤ r1 := by linarith
  have r1hi : r1 ≤ 10 ^ 39 * (5 / 4) := by linarith
  -- divided by 10.0
  have hq : 0 < r1 / 10 := by linarith
  obtain ⟨r2, e2, b2, n2⟩ := roundToFormat_normal 53 (-1022) 1023 (r1 / 10) hq
    (by linarith) (by linarith)
  rw [hd, abs_le] at b2
  obtain ⟨b2l, b2u⟩ := b2
  have r2lo : 1 / 16 ≤ r2 := by linarith
  have r2hi : r2 ≤ 10 ^ 38 * (3 / 2) := by linarith
  -- converted to float
  have hr2 : 0 < r2 := by linarith
  obtain ⟨r3, e3, b3, n3⟩ := roundToFormat_normal 24 (-126) 127 r2 hr2
    (le_trans hlo2 r2lo) (lt_of_le_of_lt r2hi hhi2)
  rw [hf, abs_le] at b3
  obtain ⟨b3l, b3u⟩ := b3
  refine ⟨r3, ?_, ?_, n3⟩
  · simp only [Spec.machineTenth, roundToDouble, roundToFloat, Floating.divDouble,
      Floating.toFloat, e1, e2, e3]
  · rw [hg, abs_le]
    constructor <;> linarith

theorem roundToDouble_eval (x : ℚ) (e n : Int)
    (h1 : (2 : ℚ) ^ e ≤ |x|) (h2 : |x| < (2 : ℚ) ^ (e + 1)) (hemin : -1022 ≤ e)
    (hn : |x / (2 : ℚ) ^ (e - 52) - n| < 1 / 2)
    (hfin : |(n : ℚ) * (2 : ℚ) ^ (e - 52)| < (2 : ℚ) ^ (1024 : Int)) :
    roundToDouble x = Floating.finite ((n : ℚ) * (2 : ℚ) ^ (e - 52)) :=
  roundToFormat_eval 53 (-1022) 1023 x e n h1 h2 hemin hn hfin

theorem roundToFloat_eval (x : ℚ) (e n : Int)
    (h1 : (2 : ℚ) ^ e ≤ |x|) (h2 : |x| < (2 : ℚ) ^ (e + 1)) (hemin : -126 ≤ e)
    (hn : |x / (2 : ℚ) ^ (e - 23) - n| < 1 / 2)
    (hfin : |(n : ℚ) * (2 : ℚ) ^ (e - 23)| < (2 : ℚ) ^ (128 : Int)) :
    roundToFloat x = Floating.finite ((n : ℚ) * (2 : ℚ) ^ (e - 23)) :=
  roundToFormat_eval 24 (-126) 127 x e n h1 h2 hemin hn hfin

theorem roundToDouble_20 : roundToDouble 20 = Floating.finite 20 := by
  rw [roundToDouble_eval 20 4 (20 * 2 ^ 48) (by norm_num) (by norm_num) (by norm_num)
    (by norm_num) (by norm_num)]
  norm_num

theorem roundToDouble_2 : roundToDouble 2 = Floating.finite 2 := by
  rw [roundToDouble_eval 2 1 (2 ^ 52) (by norm_num) (by norm_num) (by norm_num)
    (by norm_num) (by norm_num)]
  norm_num

theorem roundToFloat_2 : roundToFloat 2 = Floating.finite 2 := by
  rw [roundToFloat_eval 2 1 (2 ^ 23) (by norm_num) (by norm_num) (by norm_num)
    (by norm_num) (by norm_num)]
  norm_num

theorem machineTenth_20 : Spec.machineTenth 20 = Floating.finite 2 := by
  have h : ((20 : Nat) : ℚ) = 20 := by norm_num
  rw [Spec.machineTenth, h, roundToDouble_20]
  show (roundToDouble (20 / 10)).toFloat = _
  have h2 : (20 : ℚ) / 10 = 2 := by norm_num
  rw [h2, roundToDouble_2]
  exact roundToFloat_2

/-! ## Commands with enough fields, and with too few -/

theorem handleSave1_applied (s : State) (p f1 f2 : List Char) (more : List (List Char))
    (h : Spec.fields (p.drop 6) = f1 :: f2 :: more) :
    handleSave1 s p =
      { state := { s with warningZone_m := assignFloat s.warningZone_m (tenth f1),
                          dangerZone_m := assignFloat s.dangerZone_m (tenth f2) },
        sent := [],
        saved := [savedSettings
          { s with warningZone_m := assignFloat s.warningZone_m (tenth f1),
                   dangerZone_m := assignFloat s.dangerZone_m (tenth f2) }],
        nonFinite := !((tenth f1).isFinite && (tenth f2).isFinite) } := by
  have h1 := strtok_first (p.drop 6)
  have h2 := strtok_second (p.drop 6)
  rw [h] at h1 h2
  simp only [List.head?_cons, List.tail_cons] at h1 h2
  simp only [handleSave1, h1, h2]

theorem handleSave1_dropped (s : State) (p : List Char)
    (h : (Spec.fields (p.drop 6)).length < 2) :
    handleSave1 s p = { state := s, sent := [], saved := [] } := by
  have h1 := strtok_first (p.drop 6)
  have h2 := strtok_second (p.drop 6)
  cases hf : Spec.fields (p.drop 6) with
  | nil =>
    rw [hf] at h1
    simp only [List.head?_nil] at h1
    simp only [handleSave1, h1]
  | cons f1 rest =>
    cases rest with
    | nil =>
      rw [hf] at h2
      simp only [List.tail_cons, List.head?_nil] at h2
      simp only [handleSave1, h2]
      cases (strtok ',' (List.drop 6 p)).1 <;> rfl
    | cons f2 more =>
      rw [hf] at h
      simp only [List.length_cons] at h
      omega

theorem handleSave2_applied (s : State) (p f1 f2 f3 : List Char) (more : List (List Char))
    (h : Spec.fields (p.drop 6) = f1 :: f2 :: f3 :: more) :
    handleSave2 s p =
      { state := { s with sideMargin_m := assignFloat s.sideMargin_m (tenth f1),
                          vehicleRealWidth_m := assignFloat s.vehicleRealWidth_m (tenth f2),
                          maxWidth_m := assignFloat s.maxWidth_m (tenth f3) },
        sent := [],
        saved := [savedSettings
          { s with sideMargin_m := assignFloat s.sideMargin_m (tenth f1),
                   vehicleRealWidth_m := assignFloat s.vehicleRealWidth_m (tenth f2),
                   maxWidth_m := assignFloat s.maxWidth_m (tenth f3) }],
        nonFinite :=
          !((tenth f1).isFinite && (tenth f2).isFinite && (tenth f3).isFinite) } := by
  have h1 := strtok_first (p.drop 6)
  have h2 := strtok_second (p.drop 6)
  have h3 := strtok_third (p.drop 6)
  rw [h] at h1 h2 h3
  simp only [List.head?_cons, List.tail_cons] at h1 h2 h3
  simp only [handleSave2, h1, h2, h3]

theorem handleSave2_dropped (s : State) (p : List Char)
    (h : (Spec.fields (p.drop 6)).length < 3) :
    handleSave2 s p = { state := s, sent := [], saved := [] } := by
  have h1 := strtok_first (p.drop 6)
  have h2 := strtok_second (p.drop 6)
  have h3 := strtok_third (p.drop 6)
  cases hf : Spec.fields (p.drop 6) with
  | nil =>
    rw [hf] at h1
    simp only [List.head?_nil] at h1
    simp only [handleSave2, h1]
  | cons f1 rest =>
    cases rest with
    | nil =>
      rw [hf] at h2
      simp only [List.tail_cons, List.head?_nil] at h2
      simp only [handleSave2, h2]
      cases (strtok ',' (List.drop 6 p)).1 <;> rfl
    | cons f2 more =>
      cases more with
      | nil =>
        rw [hf] at h3
        simp only [List.tail_cons, List.head?_nil] at h3
        simp only [handleSave2, h3]
        cases (strtok ',' (List.drop 6 p)).1 <;>
          cases (strtok ',' (strtok ',' (List.drop 6 p)).2).1 <;> rfl
      | cons f3 more =>
        rw [hf] at h
        simp only [List.length_cons] at h
        omega

/-- The state an applied `SAVE3` command with fields `f1`, `f2` leaves. -/
theorem handleSave3_applied (s : State) (p f1 f2 : List Char) (more : List (List Char))
    (h : Spec.fields (p.drop 6) = f1 :: f2 :: more) :
    handleSave3 s p =
      { state :=
          { (if atoi f2 = 1 then { s with autoZoom_enabled := decide (atoi f1 = 1) }
              else { s with autoZoom_enabled := decide (atoi f1 = 1), buzzerPin := false,
                            buzzerIsOn := false, buzzerShouldBeActive := false })
            with audioAlarm_enabled := decide (atoi f2 = 1) },
        sent := [],
        saved := [savedSettings
          { s with autoZoom_enabled := decide (atoi f1 = 1),
                   audioAlarm_enabled := decide (atoi f2 = 1) }] } := by
  have h1 := strtok_first (p.drop 6)
  have h2 := strtok_second (p.drop 6)
  rw [h] at h1 h2
  simp only [List.head?_cons, List.tail_cons] at h1 h2
  simp only [handleSave3, h1, h2]
  by_cases hA : atoi f2 = 1 <;> simp [hA, savedSettings]

theorem handleSave3_dropped (s : State) (p : List Char)
    (h : (Spec.fields (p.drop 6)).length < 2) :
    handleSave3 s p = { state := s, sent := [], saved := [] } := by
  have h1 := strtok_first (p.drop 6)
  have h2 := strtok_second (p.drop 6)
  cases hf : Spec.fields (p.drop 6) with
  | nil =>
    rw [hf] at h1
    simp only [List.head?_nil] at h1
    simp only [handleSave3, h1]
  | cons f1 rest =>
    cases rest with
    | nil =>
      rw [hf] at h2
      simp only [List.tail_cons, List.head?_nil] at h2
      simp only [handleSave3, h2]
      cases (strtok ',' (List.drop 6 p)).1 <;> rfl
    | cons f2 more =>
      rw [hf] at h
      simp only [List.length_cons] at h
      omega

/-! ## Commands of the display -/

/-- C19. Missing field is rejected: when the receive buffer holds a `SAVE1`
command (the first `SAVE1:` in it is followed by `payload`) and the payload
has fewer than two non-empty comma-separated fields, `handleNextionInput`
changes nothing, sends nothing and performs no persistence write; likewise for
a `SAVE2` command with fewer than three fields and a `SAVE3` command with
fewer than two. -/
theorem missing_field_rejected (s : State) (serial payload : List Char) :
    (strstr "SAVE1:".toList (rxBuffer serial) = some ("SAVE1:".toList ++ payload) →
      (Spec.fields payload).length < 2 →
      handleNextionInput s serial = { state := s, sent := [], saved := [] })
    ∧ (strstr "SAVE1:".toList (rxBuffer serial) = none →
      strstr "SAVE2:".toList (rxBuffer serial) = some ("SAVE2:".toList ++ payload) →
      (Spec.fields payload).length < 3 →
      handleNextionInput s serial = { state := s, sent := [], saved := [] })
    ∧ (strstr "SAVE1:".toList (rxBuffer serial) = none →
      strstr "SAVE2:".toList (rxBuffer serial) = none →
      strstr "SAVE3:".toList (rxBuffer serial) = some ("SAVE3:".toList ++ payload) →
      (Spec.fields payload).length < 2 →
      handleNextionInput s serial = { state := s, sent := [], saved := [] }) := by
  refine ⟨?_, ?_, ?_⟩
  · intro h hf
    rw [handleNextionInput_save1 s serial _ h]
    exact handleSave1_dropped s _ hf
  · intro h1 h hf
    rw [handleNextionInput_save2 s serial _ h1 h]
    exact handleSave2_dropped s _ hf
  · intro h1 h2 h hf
    rw [handleNextionInput_save3 s serial _ h1 h2 h]
    exact handleSave3_dropped s _ hf

/-- Witness for C19: `SAVE1:50`, `SAVE2:5,20` and `SAVE3:1`, each followed by
the end-of-message bytes, in the state after `setup`. -/
theorem missing_field_rejected_witness :
    handleNextionInput (setup none).state ("SAVE1:50".toList ++ endOfMessage)
      = { state := (setup none).state, sent := [], saved := [] }
    ∧ handleNextionInput (setup none).state ("SAVE2:5,20".toList ++ endOfMessage)
      = { state := (setup none).state, sent := [], saved := [] }
    ∧ handleNextionInput (setup none).state ("SAVE3:1".toList ++ endOfMessage)
      = { state := (setup none).state, sent := [], saved := [] } :=
  ⟨(missing_field_rejected (setup none).state ("SAVE1:50".toList ++ endOfMessage)
      "50".toList).1 (by decide) (by decide),
    (missing_field_rejected (setup none).state ("SAVE2:5,20".toList ++ endOfMessage)
      "5,20".toList).2.1 (by decide) (by decide) (by decide),
    (missing_field_rejected (setup none).state ("SAVE3:1".toList ++ endOfMessage)
      "1".toList).2.2 (by decide) (by decide) (by decide) (by decide)⟩

theorem atof_of_no_conversion (f : List Char) (h : scanNumber f = none) :
    atof f = Floating.finite 0 := by
  rw [atof, h]

theorem atof_of_decimal (f : List Char) (l : DecimalLiteral)
    (h : scanNumber f = some (Scanned.decimal l)) :
    atof f = roundToDouble
      (if l.negative then
        -((l.digits : ℚ) / (10 : ℚ) ^ l.fractionLength * (10 : ℚ) ^ l.exponent)
       else (l.digits : ℚ) / (10 : ℚ) ^ l.fractionLength * (10 : ℚ) ^ l.exponent) := by
  rw [atof, h]

theorem atof_of_hexadecimal (f : List Char) (negative : Bool) (l : HexLiteral)
    (h : scanNumber f = some (Scanned.hexadecimal negative l)) :
    atof f = roundToDouble
      (if negative then
        -((l.digits : ℚ) / (16 : ℚ) ^ l.fractionLength * (2 : ℚ) ^ l.exponent)
       else (l.digits : ℚ) / (16 : ℚ) ^ l.fractionLength * (2 : ℚ) ^ l.exponent) := by
  rw [atof, h]

theorem tenth_of_no_conversion (f : List Char) (h : scanNumber f = none) :
    tenth f = Floating.finite 0 := by
  rw [tenth, atof_of_no_conversion f h]
  simp [Floating.divDouble, Floating.toFloat, roundToDouble, roundToFloat, roundToFormat_zero]

/-- A field that `atof` reads as the natural number `a` is stored as the
firmware's tenth of `a`. -/
theorem tenth_of_atof (f : List Char) (a : Nat) (h : atof f = roundToDouble (a : ℚ)) :
    tenth f = Spec.machineTenth a := by
  rw [tenth, h, Spec.machineTenth]

theorem tenth_50 : tenth "50".toList = Floating.finite 5 := by
  rw [tenth_of_atof _ 50, machineTenth_50]
  rw [atof_of_decimal _ { negative := false, digits := 50, fractionLength := 0, exponent := 0 }
    (by decide)]
  norm_num

theorem tenth_20 : tenth "20".toList = Floating.finite 2 := by
  rw [tenth_of_atof _ 20, machineTenth_20]
  rw [atof_of_decimal _ { negative := false, digits := 20, fractionLength := 0, exponent := 0 }
    (by decide)]
  norm_num

/-- The text `0x19` is a number for `atof`, hexadecimal 25: the setting is
2.5. -/
theorem tenth_hexadecimal : tenth "0x19".toList = Floating.finite (5 / 2) := by
  have h : atof "0x19".toList = Floating.finite 25 := by
    rw [atof_of_hexadecimal _ false { digits := 25, fractionLength := 0, exponent := 0 }
      (by decide)]
    have e : (if false = true then -(((25 : Nat) : ℚ) / 16 ^ 0 * 2 ^ (0 : Int))
        else ((25 : Nat) : ℚ) / 16 ^ 0 * 2 ^ (0 : Int)) = 25 := by norm_num
    rw [e, roundToDouble_eval 25 4 (25 * 2 ^ 48) (by norm_num) (by norm_num) (by norm_num)
      (by norm_num) (by norm_num)]
    norm_num
  have h2 : roundToDouble (25 / 10) = Floating.finite (5 / 2) := by
    rw [roundToDouble_eval (25 / 10) 1 (5 * 2 ^ 50) (by norm_num [abs_of_pos])
      (by norm_num [abs_of_pos]) (by norm_num) (by norm_num) (by norm_num [abs_of_pos])]
    norm_num
  have h3 : roundToFloat (5 / 2) = Floating.finite (5 / 2) := by
    rw [roundToFloat_eval (5 / 2) 1 (5 * 2 ^ 21) (by norm_num [abs_of_pos])
      (by norm_num [abs_of_pos]) (by norm_num) (by norm_num) (by norm_num [abs_of_pos])]
    norm_num
  rw [tenth, h]
  show (roundToDouble (25 / 10)).toFloat = _
  rw [h2]
  exact h3

/-- The text `nan` is a number for `atof`: the setting becomes NaN. -/
theorem tenth_nan : tenth "nan".toList = Floating.nan := by
  have h : atof "nan".toList = Floating.nan := by
    have hs : scanNumber "nan".toList = some Scanned.nan := by decide
    rw [atof, hs]
  rw [tenth, h]
  rfl

/-- The text `inf` is a number for `atof`: the setting becomes infinite. -/
theorem tenth_inf : tenth "inf".toList = Floating.infinity false := by
  have h : atof "inf".toList = Floating.infinity false := by
    have hs : scanNumber "inf".toList = some (Scanned.infinity false) := by decide
    rw [atof, hs]
  rw [tenth, h]
  rfl

theorem atoi_of_no_digit (f : List Char)
    (h : (takeSign (f.dropWhile isspace)).2.takeWhile isdigit = []) : atoi f = 0 := by
  simp only [atoi, h, digitsValue, List.foldl_nil]
  split_ifs <;> simp_all

theorem two_fields_of_length {F : List (List Char)} (h : ¬ F.length < 2) :
    ∃ f1 f2 more, F = f1 :: f2 :: more := by
  match F, h with
  | [], h => simp at h
  | [_], h => simp at h
  | f1 :: f2 :: more, _ => exact ⟨f1, f2, more, rfl⟩

theorem three_fields_of_length {F : List (List Char)} (h : ¬ F.length < 3) :
    ∃ f1 f2 f3 more, F = f1 :: f2 :: f3 :: more := by
  match F, h with
  | [], h => simp at h
  | [_], h => simp at h
  | [_, _], h => simp at h
  | f1 :: f2 :: f3 :: more, _ => exact ⟨f1, f2, f3, more, rfl⟩

theorem handleSave1_saved_iff (s : State) (p : List Char) :
    (handleSave1 s p).saved = [] ↔ (Spec.fields (p.drop 6)).length < 2 := by
  constructor
  · intro h
    by_contra hc
    obtain ⟨f1, f2, more, hf⟩ := two_fields_of_length hc
    rw [handleSave1_applied s p f1 f2 more hf] at h
    simp at h
  · intro h; rw [handleSave1_dropped s p h]

theorem handleSave2_saved_iff (s : State) (p : List Char) :
    (handleSave2 s p).saved = [] ↔ (Spec.fields (p.drop 6)).length < 3 := by
  constructor
  · intro h
    by_contra hc
    obtain ⟨f1, f2, f3, more, hf⟩ := three_fields_of_length hc
    rw [handleSave2_applied s p f1 f2 f3 more hf] at h
    simp at h
  · intro h; rw [handleSave2_dropped s p h]

theorem handleSave3_saved_iff (s : State) (p : List Char) :
    (handleSave3 s p).saved = [] ↔ (Spec.fields (p.drop 6)).length < 2 := by
  constructor
  · intro h
    by_contra hc
    obtain ⟨f1, f2, more, hf⟩ := two_fields_of_length hc
    rw [handleSave3_applied s p f1 f2 more hf] at h
    simp at h
  · intro h; rw [handleSave3_dropped s p h]

/-- C20, as stated, fails: in the state after `setup` (zones 5.0 and 2.0) the
command `SAVE1:abc,def` sets both zones to 0 and is written to the EEPROM, the
command `SAVE1:50,20,30` is applied and written too, and `SAVE1:0x19,20`, whose
first field is not a decimal number, sets the warning zone to 2.5. -/
theorem malformed_command_counterexample :
    (setup none).state.warningZone_m = 5
    ∧ (setup none).state.dangerZone_m = 2
    ∧ (handleNextionInput (setup none).state
        ("SAVE1:abc,def".toList ++ endOfMessage)).state.warningZone_m = 0
    ∧ (handleNextionInput (setup none).state
        ("SAVE1:abc,def".toList ++ endOfMessage)).state.dangerZone_m = 0
    ∧ (handleNextionInput (setup none).state
        ("SAVE1:abc,def".toList ++ endOfMessage)).saved ≠ []
    ∧ (handleNextionInput (setup none).state
        ("SAVE1:50,20,30".toList ++ endOfMessage)).saved ≠ []
    ∧ (handleNextionInput (setup none).state
        ("SAVE1:0x19,20".toList ++ endOfMessage)).state.warningZone_m = 5 / 2 := by
  have h1 : strstr "SAVE1:".toList (rxBuffer ("SAVE1:abc,def".toList ++ endOfMessage))
      = some "SAVE1:abc,def".toList := by decide
  have f1 : Spec.fields ("SAVE1:abc,def".toList.drop 6) = ["abc".toList, "def".toList] := by
    decide
  have h2 : strstr "SAVE1:".toList (rxBuffer ("SAVE1:50,20,30".toList ++ endOfMessage))
      = some "SAVE1:50,20,30".toList := by decide
  have f2 : Spec.fields ("SAVE1:50,20,30".toList.drop 6)
      = ["50".toList, "20".toList, "30".toList] := by decide
  have h3 : strstr "SAVE1:".toList (rxBuffer ("SAVE1:0x19,20".toList ++ endOfMessage))
      = some "SAVE1:0x19,20".toList := by decide
  have f3 : Spec.fields ("SAVE1:0x19,20".toList.drop 6) = ["0x19".toList, "20".toList] := by
    decide
  have a1 : tenth "abc".toList = Floating.finite 0 := tenth_of_no_conversion _ (by decide)
  have a2 : tenth "def".toList = Floating.finite 0 := tenth_of_no_conversion _ (by decide)
  rw [handleNextionInput_save1 _ _ _ h1, handleNextionInput_save1 _ _ _ h2,
    handleNextionInput_save1 _ _ _ h3,
    handleSave1_applied _ _ _ _ _ f1, handleSave1_applied _ _ _ _ _ f2,
    handleSave1_applied _ _ _ _ _ f3, a1, a2, tenth_hexadecimal]
  refine ⟨rfl, rfl, rfl, rfl, ?_, ?_, rfl⟩
  · simp
  · simp

/-- C20, amended. A received `SAVE1`/`SAVE2`/`SAVE3` command is dropped (no
mutation, no persistence write) exactly when it has fewer non-empty
comma-separated fields than expected (two, three, two).  A command with at
least that many fields is applied from its first fields, with one persistence
write, whatever follows them and whether or not they are decimal numbers: each
field of `SAVE1` and `SAVE2` is read by `atof`, divided by 10.0 and stored as
a `float` (`tenth`; a NaN or an infinity is stored too, and marked
`nonFinite`), each field of `SAVE3` is read by `atoi`; both give 0 for a
field in which they find no number. -/
theorem malformed_command_handling (s : State) (serial payload : List Char)
    (f1 f2 f3 : List Char) (more : List (List Char)) :
    (strstr "SAVE1:".toList (rxBuffer serial) = some ("SAVE1:".toList ++ payload) →
      ((handleNextionInput s serial).saved = [] ↔ (Spec.fields payload).length < 2)
      ∧ ((Spec.fields payload).length < 2 →
          handleNextionInput s serial = { state := s, sent := [], saved := [] })
      ∧ (Spec.fields payload = f1 :: f2 :: more →
          handleNextionInput s serial =
            { state := { s with warningZone_m := assignFloat s.warningZone_m (tenth f1),
                                dangerZone_m := assignFloat s.dangerZone_m (tenth f2) },
              sent := [],
              saved := [savedSettings
                { s with warningZone_m := assignFloat s.warningZone_m (tenth f1),
                         dangerZone_m := assignFloat s.dangerZone_m (tenth f2) }],
              nonFinite := !((tenth f1).isFinite && (tenth f2).isFinite) }))
    ∧ (strstr "SAVE1:".toList (rxBuffer serial) = none →
      strstr "SAVE2:".toList (rxBuffer serial) = some ("SAVE2:".toList ++ payload) →
      ((handleNextionInput s serial).saved = [] ↔ (Spec.fields payload).length < 3)
      ∧ ((Spec.fields payload).length < 3 →
          handleNextionInput s serial = { state := s, sent := [], saved := [] })
      ∧ (Spec.fields payload = f1 :: f2 :: f3 :: more →
          handleNextionInput s serial =
            { state := { s with sideMargin_m := assignFloat s.sideMargin_m (tenth f1),
                                vehicleRealWidth_m :=
                                  assignFloat s.vehicleRealWidth_m (tenth f2),
                                maxWidth_m := assignFloat s.maxWidth_m (tenth f3) },
              sent := [],
              saved := [savedSettings
                { s with sideMargin_m := assignFloat s.sideMargin_m (tenth f1),
                         vehicleRealWidth_m := assignFloat s.vehicleRealWidth_m (tenth f2),
                         maxWidth_m := assignFloat s.maxWidth_m (tenth f3) }],
              nonFinite :=
                !((tenth f1).isFinite && (tenth f2).isFinite && (tenth f3).isFinite) }))
    ∧ (strstr "SAVE1:".toList (rxBuffer serial) = none →
      strstr "SAVE2:".toList (rxBuffer serial) = none →
      strstr "SAVE3:".toList (rxBuffer serial) = some ("SAVE3:".toList ++ payload) →
      ((handleNextionInput s serial).saved = [] ↔ (Spec.fields payload).length < 2)
      ∧ ((Spec.fields payload).length < 2 →
          handleNextionInput s serial = { state := s, sent := [], saved := [] })
      ∧ (Spec.fields payload = f1 :: f2 :: more →
          (handleNextionInput s serial).saved =
            [savedSettings { s with autoZoom_enabled := decide (atoi f1 = 1),
                                    audioAlarm_enabled := decide (atoi f2 = 1) }]
          ∧ savedSettings (handleNextionInput s serial).state =
            savedSettings { s with autoZoom_enabled := decide (atoi f1 = 1),
                                   audioAlarm_enabled := decide (atoi f2 = 1) }))
    ∧ (∀ f : List Char, scanNumber f = none →
        atof f = Floating.finite 0 ∧ tenth f = Floating.finite 0)
    ∧ (∀ f : List Char,
        (takeSign (f.dropWhile isspace)).2.takeWhile isdigit = [] → atoi f = 0) := by
  refine ⟨?_, ?_, ?_,
    fun f h => ⟨atof_of_no_conversion f h, tenth_of_no_conversion f h⟩, atoi_of_no_digit⟩
  · intro h
    rw [handleNextionInput_save1 s serial _ h]
    exact ⟨handleSave1_saved_iff s ("SAVE1:".toList ++ payload),
      handleSave1_dropped s ("SAVE1:".toList ++ payload),
      fun hf => handleSave1_applied s ("SAVE1:".toList ++ payload) f1 f2 more hf⟩
  · intro h1 h
    rw [handleNextionInput_save2 s serial _ h1 h]
    exact ⟨handleSave2_saved_iff s ("SAVE2:".toList ++ payload),
      handleSave2_dropped s ("SAVE2:".toList ++ payload),
      fun hf => handleSave2_applied s ("SAVE2:".toList ++ payload) f1 f2 f3 more hf⟩
  · intro h1 h2 h
    rw [handleNextionInput_save3 s serial _ h1 h2 h]
    refine ⟨handleSave3_saved_iff s ("SAVE3:".toList ++ payload),
      handleSave3_dropped s ("SAVE3:".toList ++ payload), ?_⟩
    intro hf
    rw [handleSave3_applied s ("SAVE3:".toList ++ payload) f1 f2 more hf]
    refine ⟨rfl, ?_⟩
    by_cases hA : atoi f2 = 1 <;> simp [hA, savedSettings]

/-- Witness for C20 amended: `SAVE1:abc,def` and `SAVE1:50,20,30`, received in
the state after `setup`, are both applied; the first sets both zones to 0, the
second sets 5.0 and 2.0. -/
theorem malformed_command_handling_witness :
    handleNextionInput (setup none).state ("SAVE1:abc,def".toList ++ endOfMessage)
      = { state := { (setup none).state with warningZone_m := 0, dangerZone_m := 0 },
          sent := [],
          saved := [savedSettings { (setup none).state with
                      warningZone_m := 0, dangerZone_m := 0 }] }
    ∧ handleNextionInput (setup none).state ("SAVE1:50,20,30".toList ++ endOfMessage)
      = { state := { (setup none).state with warningZone_m := 5, dangerZone_m := 2 },
          sent := [],
          saved := [savedSettings { (setup none).state with
                      warningZone_m := 5, dangerZone_m := 2 }] }
    ∧ tenth "abc".toList = Floating.finite 0 := by
  have h1 := ((malformed_command_handling (setup none).state
      ("SAVE1:abc,def".toList ++ endOfMessage) "abc,def".toList
      "abc".toList "def".toList [] []).1 (by decide)).2.2 (by decide)
  have h2 := ((malformed_command_handling (setup none).state
      ("SAVE1:50,20,30".toList ++ endOfMessage) "50,20,30".toList
      "50".toList "20".toList [] ["30".toList]).1 (by decide)).2.2 (by decide)
  have h3 := ((malformed_command_handling (setup none).state [] [] [] [] [] []).2.2.2.1
      "abc".toList (by decide)).2
  have a2 : tenth "def".toList = Floating.finite 0 := tenth_of_no_conversion _ (by decide)
  rw [h3, a2] at h1
  rw [tenth_50, tenth_20] at h2
  exact ⟨h1, h2, h3⟩

/-! ## Decimal text -/

theorem digitChar_toNat (d : Nat) (h : d < 10) : (Nat.digitChar d).toNat = 48 + d := by
  interval_cases d <;> rfl

theorem foldl_digits (acc : List Char) :
    ∀ x : Nat, acc.foldl (fun v c => 10 * v + (c.toNat - 48)) x
      = x * 10 ^ acc.length + digitsValue acc := by
  induction acc with
  | nil => intro x; simp [digitsValue]
  | cons c t ih =>
    intro x
    simp only [digitsValue, List.foldl_cons, List.length_cons]
    rw [ih (10 * x + (c.toNat - 48)), ih (10 * 0 + (c.toNat - 48))]
    ring

theorem digitsValue_cons (c : Char) (t : List Char) :
    digitsValue (c :: t) = (c.toNat - 48) * 10 ^ t.length + digitsValue t := by
  have h := foldl_digits t (10 * 0 + (c.toNat - 48))
  simp only [digitsValue, List.foldl_cons]
  simpa [digitsValue] using h

/-- With enough fuel the digits printed in front of `acc` are those of `n`. -/
theorem digitsValue_toDigitsCore (fuel : Nat) :
    ∀ (n : Nat) (acc : List Char), n < fuel →
      digitsValue (Nat.toDigitsCore 10 fuel n acc) = n * 10 ^ acc.length + digitsValue acc := by
  induction fuel with
  | zero => intro n acc h; omega
  | succ fuel ih =>
    intro n acc h
    have hd : n % 10 < 10 := Nat.mod_lt _ (by norm_num)
    by_cases h0 : n / 10 = 0
    · have hn : n % 10 = n := by omega
      simp only [Nat.toDigitsCore, h0, if_true]
      rw [digitsValue_cons, digitChar_toNat _ hd, hn]
      simp
    · simp only [Nat.toDigitsCore, h0, if_false]
      rw [ih (n / 10) _ (by omega), digitsValue_cons, digitChar_toNat _ hd, List.length_cons]
      have hsplit : n = 10 * (n / 10) + n % 10 := by omega
      have hsub : 48 + n % 10 - 48 = n % 10 := by omega
      rw [hsub]
      conv_rhs => rw [hsplit]
      ring

theorem isdigit_toDigitsCore (fuel : Nat) :
    ∀ (n : Nat) (acc : List Char), (∀ c ∈ acc, isdigit c = true) →
      ∀ c ∈ Nat.toDigitsCore 10 fuel n acc, isdigit c = true := by
  induction fuel with
  | zero => intro n acc hacc c hc; exact hacc c (by simpa [Nat.toDigitsCore] using hc)
  | succ fuel ih =>
    intro n acc hacc
    have hd : n % 10 < 10 := Nat.mod_lt _ (by norm_num)
    have hdig : isdigit (Nat.digitChar (n % 10)) = true := by
      simp only [isdigit, digitChar_toNat _ hd, Bool.and_eq_true, decide_eq_true_eq]
      omega
    have hacc2 : ∀ c ∈ Nat.digitChar (n % 10) :: acc, isdigit c = true := by
      intro c hc
      rcases List.mem_cons.mp hc with hc | hc
      · rw [hc]; exact hdig
      · exact hacc c hc
    by_cases h0 : n / 10 = 0
    · simp only [Nat.toDigitsCore, h0, if_true]
      exact hacc2
    · simp only [Nat.toDigitsCore, h0, if_false]
      exact ih (n / 10) _ hacc2

theorem toDigitsCore_ne_nil (fuel : Nat) :
    ∀ (n : Nat) (acc : List Char), acc ≠ [] → Nat.toDigitsCore 10 fuel n acc ≠ [] := by
  induction fuel with
  | zero => intro n acc h; simpa [Nat.toDigitsCore] using h
  | succ fuel ih =>
    intro n acc _
    by_cases h0 : n / 10 = 0
    · simp [Nat.toDigitsCore, h0]
    · simp only [Nat.toDigitsCore, h0, if_false]
      exact ih (n / 10) _ (by simp)

/-- The decimal text of `a` is a non-empty run of digits whose value is `a`. -/
theorem decimal_spec (a : Nat) :
    Spec.decimal a ≠ [] ∧ (∀ c ∈ Spec.decimal a, isdigit c = true)
      ∧ digitsValue (Spec.decimal a) = a := by
  refine ⟨?_, ?_, ?_⟩
  · by_cases h0 : a / 10 = 0
    · simp [Spec.decimal, Nat.toDigits, Nat.toDigitsCore, h0]
    · simp only [Spec.decimal, Nat.toDigits, Nat.toDigitsCore, h0, if_false]
      exact toDigitsCore_ne_nil a (a / 10) _ (by simp)
  · exact isdigit_toDigitsCore (a + 1) a [] (by simp)
  · have h := digitsValue_toDigitsCore (a + 1) a [] (by omega)
    simpa [Spec.decimal, Nat.toDigits, digitsValue] using h

theorem isdigit_facts (c : Char) (h : isdigit c = true) :
    isspace c = false ∧ c ≠ '-' ∧ c ≠ '+' ∧ c ≠ ',' ∧ c ≠ 'S' ∧ c ≠ Char.ofNat 255
      ∧ c ≠ Char.ofNat 0 := by
  simp only [isdigit, Bool.and_eq_true, decide_eq_true_eq] at h
  refine ⟨?_, ?_, ?_, ?_, ?_, ?_, ?_⟩
  · simp only [isspace, Bool.or_eq_false_iff, decide_eq_false_iff_not, Bool.and_eq_false_iff]
    omega
  all_goals
    intro hc
    rw [hc] at h
    revert h
    decide

/-- `strtod` scans a non-empty run of digits as that number, with no sign,
fraction or exponent. -/
theorem scanDecimal_digits (ds : List Char) (hne : ds ≠ [])
    (hd : ∀ c ∈ ds, isdigit c = true) :
    scanDecimal ds
      = some { negative := false, digits := digitsValue ds, fractionLength := 0,
               exponent := 0 } := by
  obtain ⟨c, t, rfl⟩ := List.exists_cons_of_ne_nil hne
  have hc := isdigit_facts c (hd c (List.mem_cons_self _ _))
  have h1 : (c :: t).dropWhile isspace = c :: t := by
    simp [List.dropWhile, hc.1]
  have h2 : takeSign (c :: t) = (false, c :: t) := by
    simp [takeSign, hc.2.1, hc.2.2.1]
  have h3 : (c :: t).takeWhile isdigit = c :: t := List.takeWhile_eq_self_iff.mpr hd
  have h4 : (c :: t).dropWhile isdigit = [] := List.dropWhile_eq_nil_iff.mpr hd
  simp only [scanDecimal, h1, h2, h3, h4]
  simp [exponentPart]

theorem isdigit_not_letter (c : Char) (h : isdigit c = true) :
    c.toLower ≠ 'i' ∧ c.toLower ≠ 'n' ∧ c ≠ 'x' ∧ c ≠ 'X' := by
  simp only [isdigit, Bool.and_eq_true, decide_eq_true_eq] at h
  have hl : c.toLower = c := by
    have hn : ¬ (c.toNat ≥ 65 ∧ c.toNat ≤ 90) := by omega
    simp only [Char.toLower, hn, if_false]
  rw [hl]
  refine ⟨?_, ?_, ?_, ?_⟩
  all_goals
    intro hc
    rw [hc] at h
    revert h
    decide

/-- `strtod` scans a non-empty run of decimal digits as a decimal literal: it
is not `inf`, not `nan`, and not a hexadecimal literal. -/
theorem scanNumber_digits (ds : List Char) (hne : ds ≠ [])
    (hd : ∀ c ∈ ds, isdigit c = true) :
    scanNumber ds
      = some (Scanned.decimal { negative := false, digits := digitsValue ds,
                                fractionLength := 0, exponent := 0 }) := by
  have hscan := scanDecimal_digits ds hne hd
  obtain ⟨c, t, rfl⟩ := List.exists_cons_of_ne_nil hne
  have hc := isdigit_facts c (hd c (List.mem_cons_self _ _))
  have hl := isdigit_not_letter c (hd c (List.mem_cons_self _ _))
  have h1 : (c :: t).dropWhile isspace = c :: t := by
    simp [List.dropWhile, hc.1]
  have h2 : takeSign (c :: t) = (false, c :: t) := by
    simp [takeSign, hc.2.1, hc.2.2.1]
  have h3 : "inf".toList.isPrefixOf ((c :: t).map Char.toLower) = false := by
    simp [List.isPrefixOf]
    intro h
    exact absurd h.symm hl.1
  have h4 : "nan".toList.isPrefixOf ((c :: t).map Char.toLower) = false := by
    simp [List.isPrefixOf]
    intro h
    exact absurd h.symm hl.2.1
  have h5 : scanHex (c :: t) = none := by
    cases t with
    | nil => rfl
    | cons x u =>
      have hx := isdigit_not_letter x
        (hd x (List.mem_cons_of_mem _ (List.mem_cons_self _ _)))
      simp [scanHex, hx.2.2.1, hx.2.2.2]
  simp only [scanNumber, h1, h2, h3, h4, h5, hscan]
  simp

theorem atof_decimal (a : Nat) : atof (Spec.decimal a) = roundToDouble (a : ℚ) := by
  obtain ⟨h1, h2, h3⟩ := decimal_spec a
  rw [atof_of_decimal _ _ (scanNumber_digits _ h1 h2), h3]
  simp

/-- A field that is the decimal text of `a` is stored as the firmware's tenth
of `a`. -/
theorem tenth_decimal (a : Nat) : tenth (Spec.decimal a) = Spec.machineTenth a :=
  tenth_of_atof _ a (atof_decimal a)

theorem atoi_decimal_eq_one (a : Nat) : atoi (Spec.decimal a) = 1 ↔ a = 1 := by
  obtain ⟨h1, h2, h3⟩ := decimal_spec a
  obtain ⟨c, t, hct⟩ := List.exists_cons_of_ne_nil h1
  have hc := isdigit_facts c (h2 c (by rw [hct]; exact List.mem_cons_self _ _))
  have e1 : (Spec.decimal a).dropWhile isspace = Spec.decimal a := by
    rw [hct]; simp [List.dropWhile, hc.1]
  have e2 : takeSign (Spec.decimal a) = (false, Spec.decimal a) := by
    rw [hct]; simp [takeSign, hc.2.1, hc.2.2.1]
  have e3 : (Spec.decimal a).takeWhile isdigit = Spec.decimal a :=
    List.takeWhile_eq_self_iff.mpr h2
  simp only [atoi, e1, e2, e3, h3, Bool.false_eq_true, if_false]
  split_ifs <;> omega

/-! ## Well-formed commands in the receive buffer -/

theorem takeWhile_until (cmd rest : List Char) (x : Char) (h : ∀ c ∈ cmd, c ≠ x) :
    (cmd ++ x :: rest).takeWhile (fun c => c ≠ x) = cmd := by
  induction cmd with
  | nil => simp
  | cons c t ih =>
    have hc : c ≠ x := h c (List.mem_cons_self _ _)
    have ih2 := ih (fun d hd => h d (List.mem_cons_of_mem _ hd))
    simp only [List.cons_append, List.takeWhile_cons, hc, ne_eq, not_false_eq_true,
      decide_True, if_true, List.cons.injEq, true_and]
    exact ih2

/-- A command of at most 63 bytes without a zero byte, followed by the
terminator, is in the receive buffer as sent. -/
theorem rxBuffer_command (cmd rest : List Char) (hlen : cmd.length ≤ 63)
    (hplain : ∀ c ∈ cmd, c ≠ Char.ofNat 255 ∧ c ≠ Char.ofNat 0) :
    rxBuffer (cmd ++ Char.ofNat 255 :: rest) = cmd := by
  have h1 := takeWhile_until cmd rest (Char.ofNat 255) (fun c hc => (hplain c hc).1)
  have h2 : cmd.take (RX_BUFFER_SIZE - 1) = cmd := List.take_of_length_le hlen
  have h3 : cmd.takeWhile (fun c => c ≠ Char.ofNat 0) = cmd :=
    List.takeWhile_eq_self_iff.mpr (fun c hc => by simpa using (hplain c hc).2)
  simp only [rxBuffer, readBytesUntil, h1, h2, h3]

theorem strstr_none_of_forall_ne (n l : List Char) (x : Char) (h : ∀ c ∈ l, c ≠ x) :
    strstr (x :: n) l = none := by
  induction l with
  | nil => simp [strstr]
  | cons c t ih =>
    have hc : c ≠ x := h c (List.mem_cons_self _ _)
    have hp : (x :: n).isPrefixOf (c :: t) = false := by
      simp [List.isPrefixOf, Ne.symm hc]
    simp only [strstr, hp]
    exact ih (fun d hd => h d (List.mem_cons_of_mem _ hd))

theorem strstr_save1 (x : List Char) :
    strstr "SAVE1:".toList ("SAVE1:".toList ++ x) = some ("SAVE1:".toList ++ x) := by
  simp [strstr, List.isPrefixOf]

theorem strstr_save2 (x : List Char) :
    strstr "SAVE2:".toList ("SAVE2:".toList ++ x) = some ("SAVE2:".toList ++ x) := by
  simp [strstr, List.isPrefixOf]

theorem strstr_save3 (x : List Char) :
    strstr "SAVE3:".toList ("SAVE3:".toList ++ x) = some ("SAVE3:".toList ++ x) := by
  simp [strstr, List.isPrefixOf]

/-- Text made of decimal digits and commas. -/
theorem digits_or_comma_facts (c : Char) (h : isdigit c = true ∨ c = ',') :
    c ≠ 'S' ∧ c ≠ Char.ofNat 255 ∧ c ≠ Char.ofNat 0 := by
  rcases h with h | h
  · have := isdigit_facts c h
    exact ⟨this.2.2.2.2.1, this.2.2.2.2.2.1, this.2.2.2.2.2.2⟩
  · subst h; decide

theorem strstr_save1_in_save2 (x : List Char) (h : ∀ c ∈ x, c ≠ 'S') :
    strstr "SAVE1:".toList ("SAVE2:".toList ++ x) = none := by
  have hrest : strstr "SAVE1:".toList ("AVE2:".toList ++ x) = none := by
    apply strstr_none_of_forall_ne
    intro c hc
    rw [List.mem_append] at hc
    rcases hc with hc | hc
    · revert c; decide
    · exact h c hc
  show (if "SAVE1:".toList.isPrefixOf ("SAVE2:".toList ++ x) then _ else
    strstr "SAVE1:".toList ("AVE2:".toList ++ x)) = none
  rw [hrest]
  rfl

theorem strstr_save1_in_save3 (x : List Char) (h : ∀ c ∈ x, c ≠ 'S') :
    strstr "SAVE1:".toList ("SAVE3:".toList ++ x) = none := by
  have hrest : strstr "SAVE1:".toList ("AVE3:".toList ++ x) = none := by
    apply strstr_none_of_forall_ne
    intro c hc
    rw [List.mem_append] at hc
    rcases hc with hc | hc
    · revert c; decide
    · exact h c hc
  show (if "SAVE1:".toList.isPrefixOf ("SAVE3:".toList ++ x) then _ else
    strstr "SAVE1:".toList ("AVE3:".toList ++ x)) = none
  rw [hrest]
  rfl

theorem strstr_save2_in_save3 (x : List Char) (h : ∀ c ∈ x, c ≠ 'S') :
    strstr "SAVE2:".toList ("SAVE3:".toList ++ x) = none := by
  have hrest : strstr "SAVE2:".toList ("AVE3:".toList ++ x) = none := by
    apply strstr_none_of_forall_ne
    intro c hc
    rw [List.mem_append] at hc
    rcases hc with hc | hc
    · revert c; decide
    · exact h c hc
  show (if "SAVE2:".toList.isPrefixOf ("SAVE3:".toList ++ x) then _ else
    strstr "SAVE2:".toList ("AVE3:".toList ++ x)) = none
  rw [hrest]
  rfl

theorem fields_single (d : List Char) (hne : d ≠ []) (h : ∀ c ∈ d, c ≠ ',') :
    Spec.fields d = [d] := by
  unfold Spec.fields List.splitOn
  rw [List.splitOnP_eq_single _ _ (fun c hc => by simpa using h c hc)]
  simp [hne]

theorem fields_cons_field (d rest : List Char) (hne : d ≠ []) (h : ∀ c ∈ d, c ≠ ',') :
    Spec.fields (d ++ ',' :: rest) = d :: Spec.fields rest := by
  unfold Spec.fields List.splitOn
  rw [List.splitOnP_first _ _ (fun c hc => by simpa using h c hc) ',' (by simp)]
  simp [hne]

/-! ## Decoding of well-formed commands -/

theorem decimal_plain (a : Nat) :
    ∀ c ∈ Spec.decimal a, c ≠ ',' ∧ c ≠ 'S' ∧ c ≠ Char.ofNat 255 ∧ c ≠ Char.ofNat 0 := by
  intro c hc
  have h := isdigit_facts c ((decimal_spec a).2.1 c hc)
  exact ⟨h.2.2.2.1, h.2.2.2.2.1, h.2.2.2.2.2.1, h.2.2.2.2.2.2⟩

theorem fields_two (a b : Nat) :
    Spec.fields (Spec.decimal a ++ ',' :: Spec.decimal b) = [Spec.decimal a, Spec.decimal b] := by
  rw [fields_cons_field _ _ (decimal_spec a).1 (fun c hc => (decimal_plain a c hc).1),
    fields_single _ (decimal_spec b).1 (fun c hc => (decimal_plain b c hc).1)]

theorem fields_three (a b c : Nat) :
    Spec.fields (Spec.decimal a ++ ',' :: (Spec.decimal b ++ ',' :: Spec.decimal c))
      = [Spec.decimal a, Spec.decimal b, Spec.decimal c] := by
  rw [fields_cons_field _ _ (decimal_spec a).1 (fun c hc => (decimal_plain a c hc).1),
    fields_two]

theorem payload_two_plain (a b : Nat) :
    ∀ c ∈ Spec.decimal a ++ ',' :: Spec.decimal b,
      c ≠ 'S' ∧ c ≠ Char.ofNat 255 ∧ c ≠ Char.ofNat 0 := by
  intro c hc
  rw [List.mem_append, List.mem_cons] at hc
  rcases hc with hc | hc | hc
  · exact (decimal_plain a c hc).2
  · subst hc; decide
  · exact (decimal_plain b c hc).2

theorem payload_three_plain (a b c : Nat) :
    ∀ x ∈ Spec.decimal a ++ ',' :: (Spec.decimal b ++ ',' :: Spec.decimal c),
      x ≠ 'S' ∧ x ≠ Char.ofNat 255 ∧ x ≠ Char.ofNat 0 := by
  intro x hx
  rw [List.mem_append, List.mem_cons] at hx
  rcases hx with hx | hx | hx
  · exact (decimal_plain a x hx).2
  · subst hx; decide
  · exact payload_two_plain b c x hx

theorem command_plain (pre payload : List Char)
    (hpre : ∀ c ∈ pre, c ≠ Char.ofNat 255 ∧ c ≠ Char.ofNat 0)
    (hp : ∀ c ∈ payload, c ≠ 'S' ∧ c ≠ Char.ofNat 255 ∧ c ≠ Char.ofNat 0) :
    ∀ c ∈ pre ++ payload, c ≠ Char.ofNat 255 ∧ c ≠ Char.ofNat 0 := by
  intro c hc
  rw [List.mem_append] at hc
  rcases hc with hc | hc
  · exact hpre c hc
  · exact (hp c hc).2

theorem handleNextionInput_save1Command (s : State) (a b : Nat) (rest : List Char)
    (hlen : (Spec.save1Command a b).length ≤ 63) :
    handleNextionInput s (Spec.save1Command a b ++ Char.ofNat 255 :: rest) =
      { state := { s with
            warningZone_m := assignFloat s.warningZone_m (Spec.machineTenth a),
            dangerZone_m := assignFloat s.dangerZone_m (Spec.machineTenth b) },
        sent := [],
        saved := [savedSettings
          { s with
            warningZone_m := assignFloat s.warningZone_m (Spec.machineTenth a),
            dangerZone_m := assignFloat s.dangerZone_m (Spec.machineTenth b) }],
        nonFinite :=
          !((Spec.machineTenth a).isFinite && (Spec.machineTenth b).isFinite) } := by
  have hcmd : Spec.save1Command a b
      = "SAVE1:".toList ++ (Spec.decimal a ++ ',' :: Spec.decimal b) := by
    simp [Spec.save1Command, List.append_assoc]
  rw [hcmd] at hlen ⊢
  have hbuf := rxBuffer_command _ rest hlen
    (command_plain _ _ (by decide) (payload_two_plain a b))
  have hs : strstr "SAVE1:".toList
      (rxBuffer (("SAVE1:".toList ++ (Spec.decimal a ++ ',' :: Spec.decimal b))
        ++ Char.ofNat 255 :: rest))
      = some ("SAVE1:".toList ++ (Spec.decimal a ++ ',' :: Spec.decimal b)) := by
    rw [hbuf]; exact strstr_save1 _
  rw [handleNextionInput_save1 s _ _ hs,
    handleSave1_applied s ("SAVE1:".toList ++ (Spec.decimal a ++ ',' :: Spec.decimal b))
      (Spec.decimal a) (Spec.decimal b) [] (fields_two a b),
    tenth_decimal, tenth_decimal]

theorem handleNextionInput_save2Command (s : State) (a b c : Nat) (rest : List Char)
    (hlen : (Spec.save2Command a b c).length ≤ 63) :
    handleNextionInput s (Spec.save2Command a b c ++ Char.ofNat 255 :: rest) =
      { state := { s with
            sideMargin_m := assignFloat s.sideMargin_m (Spec.machineTenth a),
            vehicleRealWidth_m := assignFloat s.vehicleRealWidth_m (Spec.machineTenth b),
            maxWidth_m := assignFloat s.maxWidth_m (Spec.machineTenth c) },
        sent := [],
        saved := [savedSettings
          { s with
            sideMargin_m := assignFloat s.sideMargin_m (Spec.machineTenth a),
            vehicleRealWidth_m := assignFloat s.vehicleRealWidth_m (Spec.machineTenth b),
            maxWidth_m := assignFloat s.maxWidth_m (Spec.machineTenth c) }],
        nonFinite :=
          !((Spec.machineTenth a).isFinite && (Spec.machineTenth b).isFinite
            && (Spec.machineTenth c).isFinite) } := by
  have hcmd : Spec.save2Command a b c
      = "SAVE2:".toList ++ (Spec.decimal a ++ ',' :: (Spec.decimal b ++ ',' :: Spec.decimal c)) := by
    simp [Spec.save2Command, List.append_assoc]
  rw [hcmd] at hlen ⊢
  have hbuf := rxBuffer_command _ rest hlen
    (command_plain _ _ (by decide) (payload_three_plain a b c))
  have hs1 : strstr "SAVE1:".toList
      (rxBuffer (("SAVE2:".toList
        ++ (Spec.decimal a ++ ',' :: (Spec.decimal b ++ ',' :: Spec.decimal c)))
        ++ Char.ofNat 255 :: rest)) = none := by
    rw [hbuf]
    exact strstr_save1_in_save2 _ (fun x hx => (payload_three_plain a b c x hx).1)
  have hs : strstr "SAVE2:".toList
      (rxBuffer (("SAVE2:".toList
        ++ (Spec.decimal a ++ ',' :: (Spec.decimal b ++ ',' :: Spec.decimal c)))
        ++ Char.ofNat 255 :: rest))
      = some ("SAVE2:".toList
        ++ (Spec.decimal a ++ ',' :: (Spec.decimal b ++ ',' :: Spec.decimal c))) := by
    rw [hbuf]; exact strstr_save2 _
  rw [handleNextionInput_save2 s _ _ hs1 hs,
    handleSave2_applied s
      ("SAVE2:".toList ++ (Spec.decimal a ++ ',' :: (Spec.decimal b ++ ',' :: Spec.decimal c)))
      (Spec.decimal a) (Spec.decimal b) (Spec.decimal c) [] (fields_three a b c),
    tenth_decimal, tenth_decimal, tenth_decimal]

theorem handleNextionInput_save3Command (s : State) (a b : Nat) (rest : List Char)
    (hlen : (Spec.save3Command a b).length ≤ 63) :
    (handleNextionInput s (Spec.save3Command a b ++ Char.ofNat 255 :: rest)).saved =
        [savedSettings { s with autoZoom_enabled := decide (a = 1),
                                audioAlarm_enabled := decide (b = 1) }]
    ∧ savedSettings (handleNextionInput s
          (Spec.save3Command a b ++ Char.ofNat 255 :: rest)).state =
        savedSettings { s with autoZoom_enabled := decide (a = 1),
                               audioAlarm_enabled := decide (b = 1) }
    ∧ (handleNextionInput s (Spec.save3Command a b ++ Char.ofNat 255 :: rest)).sent = [] := by
  have hcmd : Spec.save3Command a b
      = "SAVE3:".toList ++ (Spec.decimal a ++ ',' :: Spec.decimal b) := by
    simp [Spec.save3Command, List.append_assoc]
  rw [hcmd] at hlen ⊢
  have hbuf := rxBuffer_command _ rest hlen
    (command_plain _ _ (by decide) (payload_two_plain a b))
  have hs1 : strstr "SAVE1:".toList
      (rxBuffer (("SAVE3:".toList ++ (Spec.decimal a ++ ',' :: Spec.decimal b))
        ++ Char.ofNat 255 :: rest)) = none := by
    rw [hbuf]
    exact strstr_save1_in_save3 _ (fun x hx => (payload_two_plain a b x hx).1)
  have hs2 : strstr "SAVE2:".toList
      (rxBuffer (("SAVE3:".toList ++ (Spec.decimal a ++ ',' :: Spec.decimal b))
        ++ Char.ofNat 255 :: rest)) = none := by
    rw [hbuf]
    exact strstr_save2_in_save3 _ (fun x hx => (payload_two_plain a b x hx).1)
  have hs : strstr "SAVE3:".toList
      (rxBuffer (("SAVE3:".toList ++ (Spec.decimal a ++ ',' :: Spec.decimal b))
        ++ Char.ofNat 255 :: rest))
      = some ("SAVE3:".toList ++ (Spec.decimal a ++ ',' :: Spec.decimal b)) := by
    rw [hbuf]; exact strstr_save3 _
  have e1 : decide (atoi (Spec.decimal a) = 1) = decide (a = 1) :=
    decide_eq_decide.mpr (atoi_decimal_eq_one a)
  have e2 : decide (atoi (Spec.decimal b) = 1) = decide (b = 1) :=
    decide_eq_decide.mpr (atoi_decimal_eq_one b)
  rw [handleNextionInput_save3 s _ _ hs1 hs2 hs,
    handleSave3_applied s ("SAVE3:".toList ++ (Spec.decimal a ++ ',' :: Spec.decimal b))
      (Spec.decimal a) (Spec.decimal b) [] (fields_two a b), e1, e2]
  refine ⟨rfl, ?_, rfl⟩
  by_cases hA : atoi (Spec.decimal b) = 1 <;> simp [hA, savedSettings]

theorem roundToDouble_10 : roundToDouble 10 = Floating.finite 10 := by
  rw [roundToDouble_eval 10 3 (10 * 2 ^ 49) (by norm_num) (by norm_num) (by norm_num)
    (by norm_num) (by norm_num)]
  norm_num

theorem machineTenth_5 : Spec.machineTenth 5 = Floating.finite (1 / 2) := by
  have h : ((5 : Nat) : ℚ) = 5 := by norm_num
  have h2 : roundToDouble (5 / 10) = Floating.finite (1 / 2) := by
    rw [roundToDouble_eval (5 / 10) (-1) (2 ^ 52) (by norm_num [abs_of_pos])
      (by norm_num [abs_of_pos]) (by norm_num) (by norm_num) (by norm_num [abs_of_pos])]
    norm_num
  have h3 : roundToFloat (1 / 2) = Floating.finite (1 / 2) := by
    rw [roundToFloat_eval (1 / 2) (-1) (2 ^ 23) (by norm_num [abs_of_pos])
      (by norm_num [abs_of_pos]) (by norm_num) (by norm_num) (by norm_num [abs_of_pos])]
    norm_num
  rw [Spec.machineTenth, h, roundToDouble_5]
  show (roundToDouble (5 / 10)).toFloat = _
  rw [h2]
  exact h3

theorem machineTenth_100 : Spec.machineTenth 100 = Floating.finite 10 := by
  have h : ((100 : Nat) : ℚ) = 100 := by norm_num
  have h1 : roundToDouble 100 = Floating.finite 100 := by
    rw [roundToDouble_eval 100 6 (100 * 2 ^ 46) (by norm_num) (by norm_num) (by norm_num)
      (by norm_num) (by norm_num)]
    norm_num
  have h3 : roundToFloat 10 = Floating.finite 10 := by
    rw [roundToFloat_eval 10 3 (10 * 2 ^ 20) (by norm_num) (by norm_num) (by norm_num)
      (by norm_num) (by norm_num)]
    norm_num
  rw [Spec.machineTenth, h, h1]
  show (roundToDouble (100 / 10)).toFloat = _
  have h2 : (100 : ℚ) / 10 = 10 := by norm_num
  rw [h2, roundToDouble_10]
  exact h3

/-- C18, as stated, fails.  The command `SAVE1:a,20` with a = 10^57 is 67
bytes long, `handleNextionInput` reads only its first 63 bytes (`SAVE1:` and
57 digits, no comma), and nothing is set and nothing written: in the state
after `setup` the warning zone stays 5.0.  And the command `SAVE1:7,20` sets
the warning zone to the `float` 11744051 / 2^24 (0.699999988...), which is not
7/10. -/
theorem command_decoding_counterexample :
    (Spec.save1Command (10 ^ 57) 20).length = 67
    ∧ handleNextionInput (setup none).state (Spec.save1Command (10 ^ 57) 20 ++ endOfMessage)
        = { state := (setup none).state, sent := [], saved := [] }
    ∧ (setup none).state.warningZone_m = 5
    ∧ ((10 ^ 57 : Nat) : ℚ) / 10 ≠ 5
    ∧ (handleNextionInput (setup none).state
        (Spec.save1Command 7 20 ++ endOfMessage)).state.warningZone_m = 11744051 / 16777216
    ∧ (11744051 : ℚ) / 16777216 ≠ 7 / 10 := by
  have hs : strstr "SAVE1:".toList
      (rxBuffer (Spec.save1Command (10 ^ 57) 20 ++ endOfMessage))
      = some ("SAVE1:".toList ++ (Spec.decimal (10 ^ 57)).take 57) := by decide
  have h7 := handleNextionInput_save1Command (setup none).state 7 20
    [Char.ofNat 255, Char.ofNat 255] (by decide)
  have he : endOfMessage = Char.ofNat 255 :: [Char.ofNat 255, Char.ofNat 255] := rfl
  refine ⟨by decide, ?_, rfl, by norm_num, ?_, by norm_num⟩
  · rw [handleNextionInput_save1 _ _ _ hs]
    exact handleSave1_dropped _ _ (by decide)
  · rw [he, h7, machineTenth_7]
    rfl

/-- C18, amended. Command decoding (v3.7.0 `handleNextionInput`): for all
non-negative integers a, b, c up to 10^39 whose command text is at most 63
bytes long (the bytes `readBytesUntil` stores), the command `SAVE1:a,b`
followed by the terminator sets `warningZone_m` and `dangerZone_m` to the
firmware's tenths of a and b: the `double` nearest to the number, divided by
10.0 and converted to `float`, a finite value within relative error 2^-23 of
a/10; `SAVE2:a,b,c` sets `sideMargin_m`, `vehicleRealWidth_m` and `maxWidth_m`
so; `SAVE3:a,b` sets `autoZoom_enabled` = (a = 1) and `audioAlarm_enabled` =
(b = 1).  Each leaves every other setting unchanged, sends nothing and
triggers exactly one persistence write, of the new settings.  The tenths of
50 and 20 are exactly 5.0 and 2.0. -/
theorem command_decoding (s : State) (a b c : Nat) (rest : List Char) :
    ((Spec.save1Command a b).length ≤ 63 → a ≤ 10 ^ 39 → b ≤ 10 ^ 39 →
      ∃ x y : ℚ,
        Spec.machineTenth a = Floating.finite x ∧ Spec.machineTenth b = Floating.finite y
        ∧ |x - (a : ℚ) / 10| ≤ (a : ℚ) / 10 * (2 : ℚ) ^ (-(23 : Int))
        ∧ |y - (b : ℚ) / 10| ≤ (b : ℚ) / 10 * (2 : ℚ) ^ (-(23 : Int))
        ∧ handleNextionInput s (Spec.save1Command a b ++ Char.ofNat 255 :: rest) =
            { state := { s with warningZone_m := x, dangerZone_m := y },
              sent := [],
              saved := [savedSettings { s with warningZone_m := x, dangerZone_m := y }] })
    ∧ ((Spec.save2Command a b c).length ≤ 63 → a ≤ 10 ^ 39 → b ≤ 10 ^ 39 → c ≤ 10 ^ 39 →
      ∃ x y z : ℚ,
        Spec.machineTenth a = Floating.finite x ∧ Spec.machineTenth b = Floating.finite y
        ∧ Spec.machineTenth c = Floating.finite z
        ∧ |x - (a : ℚ) / 10| ≤ (a : ℚ) / 10 * (2 : ℚ) ^ (-(23 : Int))
        ∧ |y - (b : ℚ) / 10| ≤ (b : ℚ) / 10 * (2 : ℚ) ^ (-(23 : Int))
        ∧ |z - (c : ℚ) / 10| ≤ (c : ℚ) / 10 * (2 : ℚ) ^ (-(23 : Int))
        ∧ handleNextionInput s (Spec.save2Command a b c ++ Char.ofNat 255 :: rest) =
            { state := { s with sideMargin_m := x, vehicleRealWidth_m := y,
                                maxWidth_m := z },
              sent := [],
              saved := [savedSettings
                { s with sideMargin_m := x, vehicleRealWidth_m := y, maxWidth_m := z }] })
    ∧ ((Spec.save3Command a b).length ≤ 63 →
      (handleNextionInput s (Spec.save3Command a b ++ Char.ofNat 255 :: rest)).saved =
          [savedSettings { s with autoZoom_enabled := decide (a = 1),
                                  audioAlarm_enabled := decide (b = 1) }]
      ∧ savedSettings (handleNextionInput s
            (Spec.save3Command a b ++ Char.ofNat 255 :: rest)).state =
          savedSettings { s with autoZoom_enabled := decide (a = 1),
                                 audioAlarm_enabled := decide (b = 1) }
      ∧ (handleNextionInput s (Spec.save3Command a b ++ Char.ofNat 255 :: rest)).sent = [])
    ∧ Spec.machineTenth 50 = Floating.finite 5
    ∧ Spec.machineTenth 20 = Floating.finite 2 := by
  refine ⟨?_, ?_, handleNextionInput_save3Command s a b rest, machineTenth_50,
    machineTenth_20⟩
  · intro hlen ha hb
    obtain ⟨x, hx, bx, _⟩ := machineTenth_bound a ha
    obtain ⟨y, hy, bY, _⟩ := machineTenth_bound b hb
    refine ⟨x, y, hx, hy, bx, bY, ?_⟩
    rw [handleNextionInput_save1Command s a b rest hlen, hx, hy]
    rfl
  · intro hlen ha hb hc
    obtain ⟨x, hx, bx, _⟩ := machineTenth_bound a ha
    obtain ⟨y, hy, bY, _⟩ := machineTenth_bound b hb
    obtain ⟨z, hz, bz, _⟩ := machineTenth_bound c hc
    refine ⟨x, y, z, hx, hy, hz, bx, bY, bz, ?_⟩
    rw [handleNextionInput_save2Command s a b c rest hlen, hx, hy, hz]
    rfl

/-- Witness for C18 amended: `SAVE1:50,20` received in the state after
`setup` gives `warningZone_m` = 5.0 and `dangerZone_m` = 2.0 and one write;
`SAVE2:5,20,100` gives 0.5, 2.0 and 10.0; `SAVE3:1,0` writes auto-zoom on and
audio off. -/
theorem command_decoding_witness :
    Spec.save1Command 50 20 = "SAVE1:50,20".toList
    ∧ (handleNextionInput (setup none).state
        (Spec.save1Command 50 20 ++ endOfMessage)).state.warningZone_m = 5
    ∧ (handleNextionInput (setup none).state
        (Spec.save1Command 50 20 ++ endOfMessage)).state.dangerZone_m = 2
    ∧ (handleNextionInput (setup none).state
        (Spec.save1Command 50 20 ++ endOfMessage)).saved.length = 1
    ∧ (handleNextionInput (setup none).state
        (Spec.save2Command 5 20 100 ++ endOfMessage)).state.sideMargin_m = 1 / 2
    ∧ (handleNextionInput (setup none).state
        (Spec.save2Command 5 20 100 ++ endOfMessage)).state.maxWidth_m = 10
    ∧ (handleNextionInput (setup none).state
        (Spec.save3Command 1 0 ++ endOfMessage)).saved
        = [{ savedSettings (setup none).state with
              autoZoom_enabled := true, audioAlarm_enabled := false }] := by
  obtain ⟨x, y, hx, hy, _, _, h1⟩ := (command_decoding (setup none).state 50 20 0
    [Char.ofNat 255, Char.ofNat 255]).1 (by decide) (by norm_num) (by norm_num)
  obtain ⟨u, v, w, hu, hv, hw, _, _, _, h2⟩ := (command_decoding (setup none).state 5 20 100
    [Char.ofNat 255, Char.ofNat 255]).2.1 (by decide) (by norm_num) (by norm_num)
    (by norm_num)
  have h3 := ((command_decoding (setup none).state 1 0 0
    [Char.ofNat 255, Char.ofNat 255]).2.2.1 (by decide)).1
  have ex : x = 5 := Floating.finite.inj (hx.symm.trans machineTenth_50)
  have ey : y = 2 := Floating.finite.inj (hy.symm.trans machineTenth_20)
  have eu : u = 1 / 2 := Floating.finite.inj (hu.symm.trans machineTenth_5)
  have ew : w = 10 := Floating.finite.inj (hw.symm.trans machineTenth_100)
  have he : endOfMessage = Char.ofNat 255 :: [Char.ofNat 255, Char.ofNat 255] := rfl
  rw [he, h1, h2, h3]
  exact ⟨by decide, ex, ey, rfl, eu, ew, rfl⟩

/-! ## An invalid frame and a time-out -/

theorem loop_of_noDetection_v350 (h : V350.State → V350.State × List Command)
    (rx : Option twai_message_t) (millis : Nat) (s : V350.State) (hn : Spec.noDetection rx) :
    V350.loop h rx millis s =
      { state := V350.handleBuzzer
          (if (h s).1.targetVisible then (V350.clearDetection (h s).1).1 else (h s).1) millis,
        sent := (h s).2 ++ (if (h s).1.targetVisible then (V350.clearDetection (h s).1).2 else []),
        detectionThisCycle := false } := by
  cases rx with
  | none =>
    simp only [V350.loop]
    cases hh : (h s).1.targetVisible <;> simp [hh]
  | some msg =>
    have hvalid : ¬ Spec.validFrame msg := hn msg rfl
    have key := validDetection_iff msg
    have hno : ¬ ((msg.identifier ≥ 0x310 ∧ msg.identifier ≤ 0x38F)
        ∧ (!decide ((msg.data 7).val &&& 1 ≠ 0)) = true) := fun hc => hvalid (key.mp hc)
    by_cases hid : msg.identifier ≥ 0x310 ∧ msg.identifier ≤ 0x38F
    · have hbit : (!decide ((msg.data 7).val &&& 1 ≠ 0)) = false := by
        cases hb : (!decide ((msg.data 7).val &&& 1 ≠ 0))
        · rfl
        · exact absurd ⟨hid, hb⟩ hno
      simp only [V350.loop, hid, hbit]
      cases hh : (h s).1.targetVisible <;> simp [hh]
    · simp only [V350.loop, hid]
      cases hh : (h s).1.targetVisible <;> simp [hh]

/-- C27. An invalid frame is treated as absence: when the frame received is
rejected by the validity rule (identifier outside 0x310..0x38F, or bit 0 of
byte 7 set), a pass of `loop` gives the same state, the same commands to the
display and the same `detectionThisCycle` as the pass in which `twai_receive`
times out, for every state, every clock value and every effect of
`handleNextionInput`; in both revisions. -/
theorem invalid_frame_is_absence (msg : twai_message_t)
    (hr : msg.identifier < 0x310 ∨ msg.identifier > 0x38F ∨ (msg.data 7).val % 2 = 1) :
    (∀ (h : State → State × List Command) (millis : Nat) (s : State),
        loop h (some msg) millis s = loop h none millis s)
    ∧ (∀ (h : V350.State → V350.State × List Command) (millis : Nat) (s : V350.State),
        V350.loop h (some msg) millis s = V350.loop h none millis s) := by
  have hv : ¬ Spec.validFrame msg := by
    unfold Spec.validFrame
    omega
  constructor
  · intro h millis s
    rw [loop_of_noDetection h (some msg) millis s (noDetection_some msg hv),
      loop_of_noDetection h none millis s noDetection_none]
  · intro h millis s
    rw [loop_of_noDetection_v350 h (some msg) millis s (noDetection_some msg hv),
      loop_of_noDetection_v350 h none millis s noDetection_none]

/-- Witness for C27: the frame with the validity bit set, and the effect of
`handleNextionInput` on the command `SAVE3:1,0`. -/
theorem invalid_frame_is_absence_witness :
    (invalidFrame.identifier < 0x310 ∨ invalidFrame.identifier > 0x38F
        ∨ (invalidFrame.data 7).val % 2 = 1)
    ∧ loop (hmiStep ("SAVE3:1,0".toList ++ endOfMessage)) (some invalidFrame) 100 pulseStart
        = loop (hmiStep ("SAVE3:1,0".toList ++ endOfMessage)) none 100 pulseStart :=
  ⟨by decide,
    (invalid_frame_is_absence invalidFrame (by decide)).1
      (hmiStep ("SAVE3:1,0".toList ++ endOfMessage)) 100 pulseStart⟩

/-! ## The background picture in manual mode -/

/-- C24, as stated, fails: with auto-zoom disabled and the default thresholds
(5 m and 2 m), the first command `handleDetection` sends for a target at
0.5 m is `page0.pic=0`, and for a target at 5 m it is `page0.pic=1`. -/
theorem manual_background_counterexample :
    manualMode.autoZoom_enabled = false
    ∧ (handleDetection manualMode nearFrame).2.head? = some (Command.assign "page0.pic" 0)
    ∧ (handleDetection manualMode scenarioFrame).2.head?
        = some (Command.assign "page0.pic" 1) := by
  refine ⟨rfl, ?_, ?_⟩
  · rw [handleDetection_snd]
    norm_num [selectedGrid, selectGrid, manualMode, pulseStart, polarRadius_m, nearFrame,
      PIC_ID_ALARM, PIC_ID_WARNING, PIC_ID_SAFE, Fin.coe_ofNat_eq_mod]
  · rw [handleDetection_snd]
    norm_num [selectedGrid, selectGrid, manualMode, pulseStart, polarRadius_m, scenarioFrame,
      PIC_ID_ALARM, PIC_ID_WARNING, PIC_ID_SAFE, Fin.coe_ofNat_eq_mod]

/-- C24, amended. In manual mode the grid width is constant and the
background follows the tier: with auto-zoom disabled, `handleDetection`
projects every detection on the 10 m grid, whatever its range and the
thresholds, and the only `page0.pic` command it sends carries 4 when the range
is above `warningZone_m`, 1 when it is above `dangerZone_m` but not above
`warningZone_m`, and 0 otherwise. -/
theorem manual_background (s : State) (msg : twai_message_t)
    (hz : s.autoZoom_enabled = false) :
    (selectedGrid s msg).currentMaxGridXMeters = 10
    ∧ Command.assign "rTarget.x" (targetX_px 10 (doc_y_m msg)) ∈ (handleDetection s msg).2
    ∧ Command.assign "rTarget.y" (targetY_px 10 (doc_x_m msg)) ∈ (handleDetection s msg).2
    ∧ (handleDetection s msg).2.head?
        = some (Command.assign "page0.pic"
            (if polarRadius_m msg > s.warningZone_m then 4
             else if polarRadius_m msg > s.dangerZone_m then 1 else 0))
    ∧ (∀ v : Int, Command.assign "page0.pic" v ∈ (handleDetection s msg).2 ↔
        v = if polarRadius_m msg > s.warningZone_m then 4
            else if polarRadius_m msg > s.dangerZone_m then 1 else 0) := by
  have hw : (selectedGrid s msg).currentMaxGridXMeters = 10 := by
    simp only [selectedGrid, selectGrid, hz, Bool.false_eq_true, if_false]
    split_ifs <;> rfl
  have hp : (selectedGrid s msg).backgroundPicId
      = if polarRadius_m msg > s.warningZone_m then 4
        else if polarRadius_m msg > s.dangerZone_m then 1 else 0 := by
    simp only [selectedGrid, selectGrid, hz, Bool.false_eq_true, if_false]
    split_ifs <;> rfl
  refine ⟨hw, ?_, ?_, ?_, ?_⟩
  · rw [handleDetection_snd, hw]; simp
  · rw [handleDetection_snd, hw]; simp
  · rw [handleDetection_snd, hp]; simp
  · intro v
    rw [handleDetection_snd, hp]
    cases s.targetVisible <;> simp [updateVehicleDisplay, updateTextDisplays]

/-- Witness for C24 amended: the manual-mode state and the frame of a target
at 5 m. -/
theorem manual_background_witness :
    manualMode.autoZoom_enabled = false
    ∧ (selectedGrid manualMode scenarioFrame).currentMaxGridXMeters = 10 :=
  ⟨rfl, (manual_background manualMode scenarioFrame rfl).1⟩

/-! ## The interval and the range -/

theorem buzzerLogic_armed_interval (s : State) (r y : ℚ)
    (h : buzzerCondition s r y = true) :
    (buzzerLogic s r y
        (selectGrid s.autoZoom_enabled s.warningZone_m s.dangerZone_m r).backgroundPicId
      ).currentBeepInterval
      = if r ≤ 3 / 4 then 0
        else if s.autoZoom_enabled = true then
          (if r > 3 then 400 else if r > 3 / 2 then 200 else 80)
        else (if r > s.dangerZone_m then 400 else 80) := by
  obtain ⟨_, hw, _⟩ := (buzzerCondition_iff s r y).mp h
  have hnw : ¬ r > s.warningZone_m := not_lt.mpr hw.le
  simp only [buzzerLogic, h, if_true, selectGrid, SOLID_TONE_DISTANCE_M]
  by_cases h0 : r ≤ 3 / 4
  · simp [h0]
  · cases s.autoZoom_enabled
    · by_cases hd : r > s.dangerZone_m
      · simp [h0, hnw, hd, PIC_ID_ALARM, PIC_ID_DANGER, PIC_ID_WARNING,
          BEEP_INTERVAL_YELLOW_MS]
      · simp [h0, hnw, hd, PIC_ID_ALARM, BEEP_INTERVAL_RED_MS]
    · by_cases h5 : r > 5
      · have h3 : r > 3 := by linarith
        simp [h0, h5, h3, PIC_ID_ALARM, PIC_ID_DANGER, PIC_ID_SAFE, BEEP_INTERVAL_YELLOW_MS]
      · by_cases h3 : r > 3
        · simp [h0, h5, h3, PIC_ID_ALARM, PIC_ID_DANGER, PIC_ID_WARNING,
            BEEP_INTERVAL_YELLOW_MS]
        · by_cases h2 : r > 3 / 2
          · simp [h0, h5, h3, h2, PIC_ID_ALARM, PIC_ID_DANGER, BEEP_INTERVAL_ORANGE_MS]
          · simp [h0, h5, h3, h2, PIC_ID_ALARM, BEEP_INTERVAL_RED_MS]

theorem buzzerLogic_interval_mono (s : State) (r1 r2 y1 y2 : ℚ) (hr : r1 ≤ r2)
    (h1 : buzzerCondition s r1 y1 = true) (h2 : buzzerCondition s r2 y2 = true) :
    (buzzerLogic s r1 y1
        (selectGrid s.autoZoom_enabled s.warningZone_m s.dangerZone_m r1).backgroundPicId
      ).currentBeepInterval
      ≤ (buzzerLogic s r2 y2
        (selectGrid s.autoZoom_enabled s.warningZone_m s.dangerZone_m r2).backgroundPicId
      ).currentBeepInterval := by
  rw [buzzerLogic_armed_interval s r1 y1 h1, buzzerLogic_armed_interval s r2 y2 h2]
  cases s.autoZoom_enabled
  · simp only [Bool.false_eq_true, if_false]
    split_ifs <;> first | (exfalso; linarith) | norm_num
  · simp only [if_true]
    split_ifs <;> first | (exfalso; linarith) | norm_num

/-- C29. Closer targets never beep slower (v3.7.0): for one state (settings
and auto-zoom mode fixed) and two frames with ranges r1 <= r2 for which
`handleDetection` arms the buzzer, the interval it writes for r1 is at most
the one it writes for r2 (0 is the continuous tone); no condition on the
thresholds is needed. -/
theorem closer_never_slower (s : State) (m1 m2 : twai_message_t)
    (hr : polarRadius_m m1 ≤ polarRadius_m m2)
    (h1 : (handleDetection s m1).1.buzzerShouldBeActive = true)
    (h2 : (handleDetection s m2).1.buzzerShouldBeActive = true) :
    (handleDetection s m1).1.currentBeepInterval
      ≤ (handleDetection s m2).1.currentBeepInterval := by
  rw [handleDetection_buzzerShouldBeActive] at h1 h2
  rw [handleDetection_currentBeepInterval, handleDetection_currentBeepInterval]
  exact buzzerLogic_interval_mono s _ _ _ _ hr h1 h2

/-- Witness for C29: targets at 0.5 m and at 2 m, straight ahead, with the
default settings; both arm the buzzer. -/
theorem closer_never_slower_witness :
    polarRadius_m nearFrame ≤ polarRadius_m midFrame
    ∧ (handleDetection pulseStart nearFrame).1.buzzerShouldBeActive = true
    ∧ (handleDetection pulseStart midFrame).1.buzzerShouldBeActive = true
    ∧ (handleDetection pulseStart nearFrame).1.currentBeepInterval
        ≤ (handleDetection pulseStart midFrame).1.currentBeepInterval := by
  have h0 : polarRadius_m nearFrame ≤ polarRadius_m midFrame := by
    norm_num [polarRadius_m, nearFrame, midFrame, Fin.coe_ofNat_eq_mod]
  have h1 : (handleDetection pulseStart nearFrame).1.buzzerShouldBeActive = true := by
    rw [handleDetection_buzzerShouldBeActive, buzzerCondition_iff]
    norm_num [polarRadius_m, doc_y_m, nearFrame, pulseStart, Fin.coe_ofNat_eq_mod]
  have h2 : (handleDetection pulseStart midFrame).1.buzzerShouldBeActive = true := by
    rw [handleDetection_buzzerShouldBeActive, buzzerCondition_iff]
    norm_num [polarRadius_m, doc_y_m, midFrame, pulseStart, Fin.coe_ofNat_eq_mod]
  exact ⟨h0, h1, h2, closer_never_slower pulseStart nearFrame midFrame h0 h1 h2⟩

theorem subUnsignedLong_rollover (last d : Nat) (hd : d < 2 ^ 32) :
    subUnsignedLong ((last + d) % 2 ^ 32) last = d := by
  unfold subUnsignedLong
  have h32 : (2 : Nat) ^ 32 = 4294967296 := by norm_num
  rw [h32] at hd ⊢
  omega

/-- C30. Pulse timing survives clock rollover (both revisions): with
`now = (lastBuzzerToggleTime + d) mod 2^32` and `d < 2^32`, the elapsed time
`handleBuzzer` computes is `d`, also when the clock has wrapped; so an armed
buzzer in pulsed mode (interval 80, 200 or 400) that is on is switched off
exactly when `d >= 60`, and one that is off is switched on exactly when
`d >= interval`. -/
theorem pulse_timing_survives_rollover (last d : Nat) (hd : d < 2 ^ 32) :
    subUnsignedLong ((last + d) % 2 ^ 32) last = d
    ∧ (∀ s : State, s.lastBuzzerToggleTime = last → s.audioAlarm_enabled = true →
        s.buzzerShouldBeActive = true →
        (s.currentBeepInterval = 80 ∨ s.currentBeepInterval = 200
          ∨ s.currentBeepInterval = 400) →
        handleBuzzer s ((last + d) % 2 ^ 32)
          = if s.buzzerIsOn = true then
              (if 60 ≤ d then
                { s with buzzerPin := false, buzzerIsOn := false,
                         lastBuzzerToggleTime := (last + d) % 2 ^ 32 }
               else s)
            else
              (if s.currentBeepInterval ≤ (d : Int) then
                { s with buzzerPin := true, buzzerIsOn := true,
                         lastBuzzerToggleTime := (last + d) % 2 ^ 32 }
               else s))
    ∧ (∀ s : V350.State, s.lastBuzzerToggleTime = last →
        s.buzzerShouldBeActive = true →
        (s.currentBeepInterval = 80 ∨ s.currentBeepInterval = 200
          ∨ s.currentBeepInterval = 400) →
        V350.handleBuzzer s ((last + d) % 2 ^ 32)
          = if s.buzzerIsOn = true then
              (if 60 ≤ d then
                { s with buzzerPin := false, buzzerIsOn := false,
                         lastBuzzerToggleTime := (last + d) % 2 ^ 32 }
               else s)
            else
              (if s.currentBeepInterval ≤ (d : Int) then
                { s with buzzerPin := true, buzzerIsOn := true,
                         lastBuzzerToggleTime := (last + d) % 2 ^ 32 }
               else s)) := by
  have hsub := subUnsignedLong_rollover last d hd
  have h60 : toUnsignedLong BEEP_ON_DURATION_MS = 60 := by decide
  have h80 : toUnsignedLong 80 = 80 := by decide
  have h200 : toUnsignedLong 200 = 200 := by decide
  have h400 : toUnsignedLong 400 = 400 := by decide
  refine ⟨hsub, ?_, ?_⟩
  · intro s hl ha hs hI
    simp only [handleBuzzer, ha, hs, hl, Nat.mod_mod, hsub, h60]
    rcases hI with h | h | h <;> cases s.buzzerIsOn <;>
      simp [h, h80, h200, h400]
  · intro s hl hs hI
    simp only [V350.handleBuzzer, hs, hl, Nat.mod_mod, hsub, h60]
    rcases hI with h | h | h <;> cases s.buzzerIsOn <;>
      simp [h, h80, h200, h400]

/-- Witness for C30: the last toggle 10 ms before the clock wraps and 70 ms
elapsed, so that the clock reads 60. -/
theorem pulse_timing_survives_rollover_witness :
    (70 : Nat) < 2 ^ 32 ∧ (4294967286 + 70) % 2 ^ 32 = 60
    ∧ subUnsignedLong ((4294967286 + 70) % 2 ^ 32) 4294967286 = 70 :=
  ⟨by norm_num, by norm_num,
    (pulse_timing_survives_rollover 4294967286 70 (by norm_num)).1⟩

/-! ## The armed buzzer in reachable states -/

theorem applyOperation_armed (s : State) (op : Operation)
    (h : s.buzzerShouldBeActive = true →
      s.targetVisible = true ∧ s.audioAlarm_enabled = true) :
    (applyOperation s op).buzzerShouldBeActive = true →
      (applyOperation s op).targetVisible = true
      ∧ (applyOperation s op).audioAlarm_enabled = true := by
  cases op with
  | hmi serial =>
    simp only [applyOperation]
    obtain ⟨_, e | ⟨a, b, e⟩ | ⟨a, b, c, e⟩ | ⟨z, e⟩ | ⟨z, e⟩ | e⟩ :=
      handleNextionInput_cases s serial
    · rw [e]; exact h
    · rw [e]; exact h
    · rw [e]; exact h
    · rw [e]; exact fun hs => ⟨(h hs).1, rfl⟩
    · rw [e]; intro hs; simp at hs
    · rw [e]; exact fun hs => ⟨(h hs).1, rfl⟩
  | detection msg =>
    simp only [applyOperation]
    intro hs
    rw [handleDetection_buzzerShouldBeActive] at hs
    exact ⟨handleDetection_targetVisible s msg,
      by rw [handleDetection_audioAlarm_enabled]; exact ((buzzerCondition_iff s _ _).mp hs).1⟩
  | clear =>
    simp only [applyOperation]
    intro hs; simp [clearDetection] at hs
  | buzzer millis =>
    simp only [applyOperation]
    obtain ⟨_, _, f3, f4⟩ := handleBuzzer_frame s millis
    rw [f3, f4, handleBuzzer_audioAlarm_enabled]
    exact h

theorem runOperations_armed (ops : List Operation) :
    ∀ s : State,
      (s.buzzerShouldBeActive = true →
        s.targetVisible = true ∧ s.audioAlarm_enabled = true) →
      ((runOperations s ops).buzzerShouldBeActive = true →
        (runOperations s ops).targetVisible = true
        ∧ (runOperations s ops).audioAlarm_enabled = true) := by
  induction ops with
  | nil => intro s h; exact h
  | cons op rest ih =>
    intro s h
    exact ih (applyOperation s op) (applyOperation_armed s op h)

theorem setup_not_armed (stored : Option SavedSettings) :
    (setup stored).state.buzzerShouldBeActive = false := by
  cases stored <;> rfl

/-- C28. Invariant of the reachable states (v3.7.0): in every state reached
from the state after `setup` by operations of the program (calls of
`handleNextionInput` on any bytes, `handleDetection`, `clearDetection`,
`handleBuzzer`), `buzzerShouldBeActive = true` implies `targetVisible = true`
and `audioAlarm_enabled = true`.  So whenever the audio setting is off the
buzzer is not armed, and `handleBuzzer` would reach the same state through
its `!buzzerShouldBeActive` branch; and an armed buzzer has the target marker
on screen. -/
theorem armed_implies_visible_and_audio (stored : Option SavedSettings)
    (ops : List Operation) :
    ((runOperations (setup stored).state ops).buzzerShouldBeActive = true →
      (runOperations (setup stored).state ops).targetVisible = true
      ∧ (runOperations (setup stored).state ops).audioAlarm_enabled = true)
    ∧ ((runOperations (setup stored).state ops).audioAlarm_enabled = false →
        (runOperations (setup stored).state ops).buzzerShouldBeActive = false
        ∧ ∀ millis : Nat,
          handleBuzzer (runOperations (setup stored).state ops) millis
            = { handleBuzzer
                  { runOperations (setup stored).state ops with audioAlarm_enabled := true }
                  millis
                with audioAlarm_enabled := false }) := by
  have hinv := runOperations_armed ops (setup stored).state
    (fun hs => by rw [setup_not_armed] at hs; cases hs)
  refine ⟨hinv, ?_⟩
  intro ha
  have hs : (runOperations (setup stored).state ops).buzzerShouldBeActive = false := by
    cases hb : (runOperations (setup stored).state ops).buzzerShouldBeActive
    · rfl
    · rw [(hinv hb).2] at ha; cases ha
  refine ⟨hs, ?_⟩
  intro millis
  generalize runOperations (setup stored).state ops = x at ha hs
  cases x
  simp only at ha hs
  subst ha hs
  simp only [handleBuzzer]
  split_ifs <;> simp_all

/-! ## The phase layer -/

theorem toUnsignedLong_of_range (v : Int) (h0 : 0 ≤ v) (h1 : v < 2 ^ 32) :
    toUnsignedLong v = v.toNat := by
  unfold toUnsignedLong
  rw [Int.emod_eq_of_lt h0 h1]

theorem subUnsignedLong_eq_elapsed (a b : Nat) :
    ((subUnsignedLong a b : Nat) : Int) = Spec.elapsed (a % 2 ^ 32) b := by
  unfold subUnsignedLong Spec.elapsed
  have h32 : (2 : Nat) ^ 32 = 4294967296 := by norm_num
  have h32i : (2 : Int) ^ 32 = 4294967296 := by norm_num
  rw [h32, h32i]
  omega

theorem elapsed_ge_iff (a b : Nat) (v : Int) (h0 : 0 ≤ v) (h1 : v < 2 ^ 32) :
    subUnsignedLong a b ≥ toUnsignedLong v ↔ Spec.elapsed (a % 2 ^ 32) b ≥ v := by
  rw [toUnsignedLong_of_range v h0 h1, ← subUnsignedLong_eq_elapsed]
  omega

theorem handleBuzzer_phaseStep (s : State) (now : Nat)
    (h0 : 0 ≤ s.currentBeepInterval) (h1 : s.currentBeepInterval < 2 ^ 32) :
    phase (handleBuzzer s now) = Spec.phaseStep (phase s) (now % 2 ^ 32) := by
  have e60 := elapsed_ge_iff (now % 2 ^ 32) s.lastBuzzerToggleTime BEEP_ON_DURATION_MS
    (by decide) (by decide)
  have eI := elapsed_ge_iff (now % 2 ^ 32) s.lastBuzzerToggleTime s.currentBeepInterval h0 h1
  rw [Nat.mod_mod] at e60 eI
  simp only [BEEP_ON_DURATION_MS] at e60
  cases ha : s.audioAlarm_enabled
  · cases hon : s.buzzerIsOn <;> simp [handleBuzzer, Spec.phaseStep, phase, ha, hon]
  · cases hs : s.buzzerShouldBeActive
    · cases hon : s.buzzerIsOn <;> simp [handleBuzzer, Spec.phaseStep, phase, ha, hs, hon]
    · by_cases hi : s.currentBeepInterval = 0
      · cases hon : s.buzzerIsOn <;>
          simp [handleBuzzer, Spec.phaseStep, phase, ha, hs, hon, hi]
      · cases hon : s.buzzerIsOn
        · by_cases he : subUnsignedLong (now % 2 ^ 32) s.lastBuzzerToggleTime
              ≥ toUnsignedLong s.currentBeepInterval
          · have he2 := eI.mp he
            simp only [handleBuzzer, Spec.phaseStep, phase, ha, hs, hon, hi, he, he2]
            simp
          · have he2 := mt eI.mpr he
            simp only [handleBuzzer, Spec.phaseStep, phase, ha, hs, hon, hi, he, he2]
            simp [ha, hs, hon]
        · by_cases he : subUnsignedLong (now % 2 ^ 32) s.lastBuzzerToggleTime
              ≥ toUnsignedLong 60
          · have he2 := e60.mp he
            simp only [handleBuzzer, Spec.phaseStep, phase, ha, hs, hon, hi, he, he2,
              BEEP_ON_DURATION_MS]
            simp
          · have he2 := mt e60.mpr he
            simp only [handleBuzzer, Spec.phaseStep, phase, ha, hs, hon, hi, he, he2,
              BEEP_ON_DURATION_MS]
            simp [ha, hs, hon]

theorem handleBuzzer_phaseStep_v350 (s : V350.State) (now : Nat)
    (h0 : 0 ≤ s.currentBeepInterval) (h1 : s.currentBeepInterval < 2 ^ 32) :
    V350.phase (V350.handleBuzzer s now) = Spec.phaseStep (V350.phase s) (now % 2 ^ 32) := by
  have e60 := elapsed_ge_iff (now % 2 ^ 32) s.lastBuzzerToggleTime BEEP_ON_DURATION_MS
    (by decide) (by decide)
  have eI := elapsed_ge_iff (now % 2 ^ 32) s.lastBuzzerToggleTime s.currentBeepInterval h0 h1
  rw [Nat.mod_mod] at e60 eI
  simp only [BEEP_ON_DURATION_MS] at e60
  cases hs : s.buzzerShouldBeActive
  · cases hon : s.buzzerIsOn <;>
      simp [V350.handleBuzzer, Spec.phaseStep, V350.phase, hs, hon]
  · by_cases hi : s.currentBeepInterval = 0
    · cases hon : s.buzzerIsOn <;>
        simp [V350.handleBuzzer, Spec.phaseStep, V350.phase, hs, hon, hi]
    · cases hon : s.buzzerIsOn
      · by_cases he : subUnsignedLong (now % 2 ^ 32) s.lastBuzzerToggleTime
            ≥ toUnsignedLong s.currentBeepInterval
        · have he2 := eI.mp he
          simp only [V350.handleBuzzer, Spec.phaseStep, V350.phase, hs, hon, hi, he, he2]
          simp
        · have he2 := mt eI.mpr he
          simp only [V350.handleBuzzer, Spec.phaseStep, V350.phase, hs, hon, hi, he, he2]
          simp [hs, hon]
      · by_cases he : subUnsignedLong (now % 2 ^ 32) s.lastBuzzerToggleTime
            ≥ toUnsignedLong 60
        · have he2 := e60.mp he
          simp only [V350.handleBuzzer, Spec.phaseStep, V350.phase, hs, hon, hi, he, he2,
            BEEP_ON_DURATION_MS]
          simp
        · have he2 := mt e60.mpr he
          simp only [V350.handleBuzzer, Spec.phaseStep, V350.phase, hs, hon, hi, he, he2,
            BEEP_ON_DURATION_MS]
          simp [hs, hon]

theorem handleBuzzer_frame_v350 (s : V350.State) (millis : Nat) :
    (V350.handleBuzzer s millis).currentBeepInterval = s.currentBeepInterval
    ∧ (V350.handleBuzzer s millis).buzzerShouldBeActive = s.buzzerShouldBeActive := by
  simp only [V350.handleBuzzer]
  split_ifs <;> exact ⟨rfl, rfl⟩

theorem handleBuzzer_pin_v350 (s : V350.State) (millis : Nat)
    (hp : s.buzzerPin = s.buzzerIsOn) :
    (V350.handleBuzzer s millis).buzzerPin = (V350.handleBuzzer s millis).buzzerIsOn := by
  simp only [V350.handleBuzzer]
  split_ifs <;> first | exact hp | rfl

theorem succ_mod_period (k P : Nat) (hP : 0 < P) :
    (k + 1) % P = if k % P + 1 = P then 0 else k % P + 1 := by
  have h := Nat.mod_lt k hP
  rw [← Nat.mod_add_mod]
  split_ifs with hc
  · rw [hc, Nat.mod_self]
  · exact Nat.mod_eq_of_lt (by omega)

theorem elapsed_of_le (a b : Nat) (hb : b ≤ a) (hd : a - b < 2 ^ 32) :
    Spec.elapsed (a % 2 ^ 32) (b % 2 ^ 32) = ((a - b : Nat) : Int) := by
  unfold Spec.elapsed
  have h32 : (2 : Nat) ^ 32 = 4294967296 := by norm_num
  have h32i : (2 : Int) ^ 32 = 4294967296 := by norm_num
  rw [h32] at hd
  rw [h32i]
  omega

/-- The phase layer, stepped every millisecond from a rising edge at `t0`
with a constant interval `I > 0`: at offset `k` the output is on exactly when
`k mod (60 + I) < 60`, and the last toggle is the clock reading at the start
of the current on or off stretch. -/
theorem phaseRun_pulse (p : Spec.Phase) (t0 I : Nat)
    (ha : p.audioEnabled = true) (hs : p.shouldBeActive = true)
    (hi : p.interval = (I : Int)) (hI : 0 < I) (hI2 : I < 2 ^ 32)
    (hon : p.isOn = true) (hl : p.lastToggle = t0 % 2 ^ 32) (k : Nat) :
    Spec.phaseRun p t0 k
      = { p with
          isOn := decide (k % (60 + I) < 60),
          lastToggle :=
            (t0 + k - k % (60 + I) + (if k % (60 + I) < 60 then 0 else 60)) % 2 ^ 32 } := by
  induction k with
  | zero =>
    cases p
    simp only at ha hs hi hon hl
    subst hon hl
    simp [Spec.phaseRun]
  | succ k ih =>
    have hP : 0 < 60 + I := by omega
    have hr := Nat.mod_lt k hP
    have hle := Nat.mod_le k (60 + I)
    have hsucc := succ_mod_period k (60 + I) hP
    have hI0 : (I : Int) ≠ 0 := by omega
    have h32 : (2 : Nat) ^ 32 = 4294967296 := by norm_num
    simp only [Spec.phaseRun]
    rw [ih, hsucc]
    clear hsucc ih
    rw [h32] at hI2 ⊢
    generalize k % (60 + I) = r at hr hle
    by_cases h60 : r < 60
    · have he : Spec.elapsed ((t0 + (k + 1)) % 4294967296) ((t0 + k - r) % 4294967296)
          = (r : Int) + 1 := by
        have := elapsed_of_le (t0 + (k + 1)) (t0 + k - r) (by omega) (by norm_num; omega)
        rw [h32] at this
        rw [this]
        omega
      have hne : ¬ (r + 1 = 60 + I) := by omega
      by_cases h59 : r = 59
      · subst h59
        simp [Spec.phaseStep, ha, hs, hi, hI0, hne, he]
        omega
      · have hlt : r + 1 < 60 := by omega
        have hnge : ¬ (60 : Int) ≤ ((r : Int) + 1) := by omega
        simp [Spec.phaseStep, ha, hs, hi, hI0, hne, he, h60, hlt, hnge]
        omega
    · have he : Spec.elapsed ((t0 + (k + 1)) % 4294967296) ((t0 + k - r + 60) % 4294967296)
          = (r : Int) + 1 - 60 := by
        have := elapsed_of_le (t0 + (k + 1)) (t0 + k - r + 60) (by omega) (by norm_num; omega)
        rw [h32] at this
        rw [this]
        omega
      by_cases hend : r + 1 = 60 + I
      · have hge : (I : Int) ≤ (r : Int) + 1 - 60 := by omega
        simp [Spec.phaseStep, ha, hs, hi, hI0, hend, he, h60, hge]
      · have hnge : ¬ (I : Int) ≤ (r : Int) + 1 - 60 := by omega
        have h61 : ¬ r + 1 < 60 := by omega
        simp [Spec.phaseStep, ha, hs, hi, hI0, hend, he, h60, hnge, h61]
        omega

theorem buzzerRun_frame (s : State) (t0 k : Nat) :
    (buzzerRun s t0 k).currentBeepInterval = s.currentBeepInterval := by
  induction k with
  | zero => rfl
  | succ k ih => simp only [buzzerRun]; rw [(handleBuzzer_frame _ _).2.1, ih]

theorem buzzerRun_frame_v350 (s : V350.State) (t0 k : Nat) :
    (V350.buzzerRun s t0 k).currentBeepInterval = s.currentBeepInterval := by
  induction k with
  | zero => rfl
  | succ k ih => simp only [V350.buzzerRun]; rw [(handleBuzzer_frame_v350 _ _).1, ih]

theorem buzzerRun_pin (s : State) (t0 k : Nat) (hp : s.buzzerPin = s.buzzerIsOn) :
    (buzzerRun s t0 k).buzzerPin = (buzzerRun s t0 k).buzzerIsOn := by
  induction k with
  | zero => exact hp
  | succ k ih => exact handleBuzzer_pin _ _ ih

theorem buzzerRun_pin_v350 (s : V350.State) (t0 k : Nat) (hp : s.buzzerPin = s.buzzerIsOn) :
    (V350.buzzerRun s t0 k).buzzerPin = (V350.buzzerRun s t0 k).buzzerIsOn := by
  induction k with
  | zero => exact hp
  | succ k ih => exact handleBuzzer_pin_v350 _ _ ih

/-- A run of `handleBuzzer` is a run of the phase layer. -/
theorem buzzerRun_phaseRun (s : State) (t0 : Nat)
    (h0 : 0 ≤ s.currentBeepInterval) (h1 : s.currentBeepInterval < 2 ^ 32) (k : Nat) :
    phase (buzzerRun s t0 k) = Spec.phaseRun (phase s) t0 k := by
  induction k with
  | zero => rfl
  | succ k ih =>
    have hb := handleBuzzer_phaseStep (buzzerRun s t0 k) (t0 + (k + 1))
      (by rw [buzzerRun_frame]; exact h0) (by rw [buzzerRun_frame]; exact h1)
    simp only [buzzerRun, Spec.phaseRun]
    rw [hb, ih]

theorem buzzerRun_phaseRun_v350 (s : V350.State) (t0 : Nat)
    (h0 : 0 ≤ s.currentBeepInterval) (h1 : s.currentBeepInterval < 2 ^ 32) (k : Nat) :
    V350.phase (V350.buzzerRun s t0 k) = Spec.phaseRun (V350.phase s) t0 k := by
  induction k with
  | zero => rfl
  | succ k ih =>
    have hb := handleBuzzer_phaseStep_v350 (V350.buzzerRun s t0 k) (t0 + (k + 1))
      (by rw [buzzerRun_frame_v350]; exact h0) (by rw [buzzerRun_frame_v350]; exact h1)
    simp only [V350.buzzerRun, Spec.phaseRun]
    rw [hb, ih]

/-- What a call of `handleBuzzer` that switches the buzzer on in pulsed mode
leaves: the pin high and the time of the call recorded. -/
theorem handleBuzzer_rising (s : State) (t : Nat) (hi : s.currentBeepInterval ≠ 0)
    (hoff : s.buzzerIsOn = false) (hon : (handleBuzzer s t).buzzerIsOn = true) :
    (handleBuzzer s t).buzzerPin = true
    ∧ (handleBuzzer s t).lastBuzzerToggleTime = t % 2 ^ 32
    ∧ s.audioAlarm_enabled = true ∧ s.buzzerShouldBeActive = true := by
  simp only [handleBuzzer] at hon ⊢
  split_ifs at hon ⊢ <;> simp_all

theorem handleBuzzer_rising_v350 (s : V350.State) (t : Nat) (hi : s.currentBeepInterval ≠ 0)
    (hoff : s.buzzerIsOn = false) (hon : (V350.handleBuzzer s t).buzzerIsOn = true) :
    (V350.handleBuzzer s t).buzzerPin = true
    ∧ (V350.handleBuzzer s t).lastBuzzerToggleTime = t % 2 ^ 32
    ∧ s.buzzerShouldBeActive = true := by
  simp only [V350.handleBuzzer] at hon ⊢
  split_ifs at hon ⊢ <;> simp_all

/-! ## The step of the phase layer -/

theorem buzzerLogic_interval_cases (s : State) (r y : ℚ) (pic : Int) :
    (buzzerLogic s r y pic).currentBeepInterval = s.currentBeepInterval
    ∨ (buzzerLogic s r y pic).currentBeepInterval = 0
    ∨ (buzzerLogic s r y pic).currentBeepInterval = 80
    ∨ (buzzerLogic s r y pic).currentBeepInterval = 200
    ∨ (buzzerLogic s r y pic).currentBeepInterval = 400 := by
  simp only [buzzerLogic]
  split_ifs <;>
    simp [BEEP_INTERVAL_RED_MS, BEEP_INTERVAL_ORANGE_MS, BEEP_INTERVAL_YELLOW_MS]

theorem applyOperation_interval (s : State) (op : Operation)
    (h : s.currentBeepInterval = 0 ∨ s.currentBeepInterval = 80
      ∨ s.currentBeepInterval = 200 ∨ s.currentBeepInterval = 400) :
    (applyOperation s op).currentBeepInterval = 0
    ∨ (applyOperation s op).currentBeepInterval = 80
    ∨ (applyOperation s op).currentBeepInterval = 200
    ∨ (applyOperation s op).currentBeepInterval = 400 := by
  cases op with
  | hmi serial =>
    simp only [applyOperation]
    obtain ⟨_, e | ⟨a, b, e⟩ | ⟨a, b, c, e⟩ | ⟨z, e⟩ | ⟨z, e⟩ | e⟩ :=
      handleNextionInput_cases s serial <;> rw [e] <;> exact h
  | detection msg =>
    simp only [applyOperation]
    rw [handleDetection_currentBeepInterval]
    rcases buzzerLogic_interval_cases s (polarRadius_m msg) (doc_y_m msg)
      (selectedGrid s msg).backgroundPicId with e | e
    · rw [e]; exact h
    · exact e
  | clear => exact h
  | buzzer millis =>
    simp only [applyOperation]
    rw [(handleBuzzer_frame s millis).2.1]
    exact h

theorem runOperations_interval (ops : List Operation) :
    ∀ s : State,
      (s.currentBeepInterval = 0 ∨ s.currentBeepInterval = 80
        ∨ s.currentBeepInterval = 200 ∨ s.currentBeepInterval = 400) →
      ((runOperations s ops).currentBeepInterval = 0
        ∨ (runOperations s ops).currentBeepInterval = 80
        ∨ (runOperations s ops).currentBeepInterval = 200
        ∨ (runOperations s ops).currentBeepInterval = 400) := by
  induction ops with
  | nil => intro s h; exact h
  | cons op rest ih =>
    intro s h
    exact ih (applyOperation s op) (applyOperation_interval s op h)

theorem setup_interval (stored : Option SavedSettings) :
    (setup stored).state.currentBeepInterval = 400 := by
  cases stored <;> rfl

theorem handleBuzzer_no_edge (s : State) (now : Nat)
    (h : (handleBuzzer s now).buzzerIsOn = s.buzzerIsOn) : handleBuzzer s now = s := by
  simp only [handleBuzzer] at h ⊢
  split_ifs at h ⊢ <;> simp_all

theorem handleBuzzer_edge (s : State) (now : Nat)
    (h : (handleBuzzer s now).buzzerIsOn ≠ s.buzzerIsOn) :
    (handleBuzzer s now).buzzerPin = (handleBuzzer s now).buzzerIsOn := by
  simp only [handleBuzzer] at h ⊢
  split_ifs at h ⊢ <;> simp_all

/-- C25. Step function of the phase layer (v3.7.0): on the phase layer's
view of the globals (audio setting, `buzzerShouldBeActive`, `buzzerIsOn`,
`lastBuzzerToggleTime`, `currentBeepInterval`), a call of `handleBuzzer` at
clock value `now` is the step `Spec.phaseStep`, for every interval in the
range of a non-negative `int`; the intervals of the reachable states (0, 80,
200, 400) are in that range.  The call never changes `buzzerShouldBeActive`,
`currentBeepInterval`, the settings or `targetVisible`; when it does not
change `buzzerIsOn` it changes nothing, and when it does, it writes the new
value to the pin, so that a pin that agrees with `buzzerIsOn` before the call
agrees with it after. -/
theorem phase_step_function (now : Nat) :
    (∀ s : State, 0 ≤ s.currentBeepInterval → s.currentBeepInterval < 2 ^ 32 →
        phase (handleBuzzer s now) = Spec.phaseStep (phase s) (now % 2 ^ 32))
    ∧ (∀ (stored : Option SavedSettings) (ops : List Operation),
        0 ≤ (runOperations (setup stored).state ops).currentBeepInterval
        ∧ (runOperations (setup stored).state ops).currentBeepInterval < 2 ^ 32
        ∧ phase (handleBuzzer (runOperations (setup stored).state ops) now)
            = Spec.phaseStep (phase (runOperations (setup stored).state ops)) (now % 2 ^ 32))
    ∧ (∀ s : State,
        (handleBuzzer s now).buzzerShouldBeActive = s.buzzerShouldBeActive
        ∧ (handleBuzzer s now).currentBeepInterval = s.currentBeepInterval
        ∧ savedSettings (handleBuzzer s now) = savedSettings s
        ∧ (handleBuzzer s now).targetVisible = s.targetVisible
        ∧ ((handleBuzzer s now).buzzerIsOn = s.buzzerIsOn → handleBuzzer s now = s)
        ∧ ((handleBuzzer s now).buzzerIsOn ≠ s.buzzerIsOn →
            (handleBuzzer s now).buzzerPin = (handleBuzzer s now).buzzerIsOn)
        ∧ (s.buzzerPin = s.buzzerIsOn →
            (handleBuzzer s now).buzzerPin = (handleBuzzer s now).buzzerIsOn)) := by
  refine ⟨fun s h0 h1 => handleBuzzer_phaseStep s now h0 h1, ?_, ?_⟩
  · intro stored ops
    have hr := runOperations_interval ops (setup stored).state
      (Or.inr (Or.inr (Or.inr (setup_interval stored))))
    have h0 : 0 ≤ (runOperations (setup stored).state ops).currentBeepInterval := by
      rcases hr with e | e | e | e <;> rw [e] <;> norm_num
    have h1 : (runOperations (setup stored).state ops).currentBeepInterval < 2 ^ 32 := by
      rcases hr with e | e | e | e <;> rw [e] <;> norm_num
    exact ⟨h0, h1, handleBuzzer_phaseStep _ now h0 h1⟩
  · intro s
    obtain ⟨f1, f2, f3, f4⟩ := handleBuzzer_frame s now
    exact ⟨f3, f2, f1, f4, handleBuzzer_no_edge s now, handleBuzzer_edge s now,
      handleBuzzer_pin s now⟩

/-! ## The pulse train -/

theorem buzzerRun_pulse (s0 : State) (t0 I : Nat) (hI : 0 < I) (hI2 : I < 2 ^ 32)
    (hi : s0.currentBeepInterval = (I : Int)) (hoff : s0.buzzerIsOn = false)
    (hon : (handleBuzzer s0 t0).buzzerIsOn = true) (k : Nat) :
    ((buzzerRun (handleBuzzer s0 t0) t0 k).buzzerPin = true ↔ k % (60 + I) < 60)
    ∧ (buzzerRun (handleBuzzer s0 t0) t0 k).lastBuzzerToggleTime
        = (t0 + k - k % (60 + I) + (if k % (60 + I) < 60 then 0 else 60)) % 2 ^ 32 := by
  have hI0 : s0.currentBeepInterval ≠ 0 := by rw [hi]; omega
  obtain ⟨hpin, hlast, ha, hs⟩ := handleBuzzer_rising s0 t0 hI0 hoff hon
  obtain ⟨_, f2, f3, _⟩ := handleBuzzer_frame s0 t0
  have fa := handleBuzzer_audioAlarm_enabled s0 t0
  have hI2i : ((I : Nat) : Int) < 2 ^ 32 := by exact_mod_cast hI2
  have hsim := buzzerRun_phaseRun (handleBuzzer s0 t0) t0
    (by rw [f2, hi]; omega) (by rw [f2, hi]; exact hI2i) k
  have hclosed := phaseRun_pulse (phase (handleBuzzer s0 t0)) t0 I
    (fa.trans ha) (f3.trans hs) (f2.trans hi) hI hI2 hon hlast k
  have hall := hsim.trans hclosed
  have hison : (buzzerRun (handleBuzzer s0 t0) t0 k).buzzerIsOn
      = decide (k % (60 + I) < 60) := congrArg Spec.Phase.isOn hall
  have hl : (buzzerRun (handleBuzzer s0 t0) t0 k).lastBuzzerToggleTime
      = (t0 + k - k % (60 + I) + (if k % (60 + I) < 60 then 0 else 60)) % 2 ^ 32 :=
    congrArg Spec.Phase.lastToggle hall
  have hp := buzzerRun_pin (handleBuzzer s0 t0) t0 k (hpin.trans hon.symm)
  refine ⟨?_, hl⟩
  rw [hp, hison]
  simp

theorem buzzerRun_pulse_v350 (s0 : V350.State) (t0 I : Nat) (hI : 0 < I) (hI2 : I < 2 ^ 32)
    (hi : s0.currentBeepInterval = (I : Int)) (hoff : s0.buzzerIsOn = false)
    (hon : (V350.handleBuzzer s0 t0).buzzerIsOn = true) (k : Nat) :
    ((V350.buzzerRun (V350.handleBuzzer s0 t0) t0 k).buzzerPin = true ↔ k % (60 + I) < 60)
    ∧ (V350.buzzerRun (V350.handleBuzzer s0 t0) t0 k).lastBuzzerToggleTime
        = (t0 + k - k % (60 + I) + (if k % (60 + I) < 60 then 0 else 60)) % 2 ^ 32 := by
  have hI0 : s0.currentBeepInterval ≠ 0 := by rw [hi]; omega
  obtain ⟨hpin, hlast, hs⟩ := handleBuzzer_rising_v350 s0 t0 hI0 hoff hon
  obtain ⟨f2, f3⟩ := handleBuzzer_frame_v350 s0 t0
  have hI2i : ((I : Nat) : Int) < 2 ^ 32 := by exact_mod_cast hI2
  have hsim := buzzerRun_phaseRun_v350 (V350.handleBuzzer s0 t0) t0
    (by rw [f2, hi]; omega) (by rw [f2, hi]; exact hI2i) k
  have hclosed := phaseRun_pulse (V350.phase (V350.handleBuzzer s0 t0)) t0 I
    rfl (f3.trans hs) (f2.trans hi) hI hI2 hon hlast k
  have hall := hsim.trans hclosed
  have hison : (V350.buzzerRun (V350.handleBuzzer s0 t0) t0 k).buzzerIsOn
      = decide (k % (60 + I) < 60) := congrArg Spec.Phase.isOn hall
  have hl : (V350.buzzerRun (V350.handleBuzzer s0 t0) t0 k).lastBuzzerToggleTime
      = (t0 + k - k % (60 + I) + (if k % (60 + I) < 60 then 0 else 60)) % 2 ^ 32 :=
    congrArg Spec.Phase.lastToggle hall
  have hp := buzzerRun_pin_v350 (V350.handleBuzzer s0 t0) t0 k (hpin.trans hon.symm)
  refine ⟨?_, hl⟩
  rw [hp, hison]
  simp

theorem pulse_shape (I k : Nat) (hI : 0 < I) (t0 last : Nat) (pin : Bool)
    (hp : pin = true ↔ k % (60 + I) < 60)
    (hl : last = (t0 + k - k % (60 + I) + (if k % (60 + I) < 60 then 0 else 60)) % 2 ^ 32) :
    (k < 60 → pin = true)
    ∧ (60 ≤ k → k < 60 + I → pin = false)
    ∧ (k = 60 + I → pin = true ∧ last = (t0 + 60 + I) % 2 ^ 32) := by
  refine ⟨?_, ?_, ?_⟩
  · intro h
    rw [hp, Nat.mod_eq_of_lt (by omega)]
    exact h
  · intro h1 h2
    cases hb : pin
    · rfl
    · rw [Nat.mod_eq_of_lt h2] at hp
      have := hp.mp hb
      omega
  · intro h
    subst h
    rw [Nat.mod_self] at hp hl
    refine ⟨hp.mpr (by norm_num), ?_⟩
    rw [hl]
    simp only [Nat.sub_zero, Nat.add_zero, Nat.add_assoc, Nat.lt_add_one, if_true,
      show (0 : Nat) < 60 by norm_num]

/-- C26. The pulse cycle is on + wait (both revisions): let the interval be a
constant `I > 0` and let the call of `handleBuzzer` at time `t0` switch the
buzzer on (which it does only with the audio enabled, in v3.7.0, and the
buzzer armed); with `handleBuzzer` called at every millisecond after that,
each time with the reading of the 32-bit clock, the pin at time `t0 + k` is
high exactly when `k mod (60 + I) < 60`; in particular it is high for
`k < 60`, low for `60 <= k < 60 + I`, and high again at `k = 60 + I`, where
the clock reading of that call is recorded as the time of the toggle. -/
theorem pulse_cycle (t0 I : Nat) (hI : 0 < I) (hI2 : I < 2 ^ 32) :
    (∀ s0 : State, s0.currentBeepInterval = (I : Int) → s0.buzzerIsOn = false →
      (handleBuzzer s0 t0).buzzerIsOn = true →
      (handleBuzzer s0 t0).audioAlarm_enabled = true
      ∧ (handleBuzzer s0 t0).buzzerShouldBeActive = true
      ∧ ∀ k : Nat,
        ((buzzerRun (handleBuzzer s0 t0) t0 k).buzzerPin = true ↔ k % (60 + I) < 60)
        ∧ (k < 60 → (buzzerRun (handleBuzzer s0 t0) t0 k).buzzerPin = true)
        ∧ (60 ≤ k → k < 60 + I →
            (buzzerRun (handleBuzzer s0 t0) t0 k).buzzerPin = false)
        ∧ (k = 60 + I →
            (buzzerRun (handleBuzzer s0 t0) t0 k).buzzerPin = true
            ∧ (buzzerRun (handleBuzzer s0 t0) t0 k).lastBuzzerToggleTime
                = (t0 + 60 + I) % 2 ^ 32))
    ∧ (∀ s0 : V350.State, s0.currentBeepInterval = (I : Int) → s0.buzzerIsOn = false →
      (V350.handleBuzzer s0 t0).buzzerIsOn = true →
      (V350.handleBuzzer s0 t0).buzzerShouldBeActive = true
      ∧ ∀ k : Nat,
        ((V350.buzzerRun (V350.handleBuzzer s0 t0) t0 k).buzzerPin = true
            ↔ k % (60 + I) < 60)
        ∧ (k < 60 → (V350.buzzerRun (V350.handleBuzzer s0 t0) t0 k).buzzerPin = true)
        ∧ (60 ≤ k → k < 60 + I →
            (V350.buzzerRun (V350.handleBuzzer s0 t0) t0 k).buzzerPin = false)
        ∧ (k = 60 + I →
            (V350.buzzerRun (V350.handleBuzzer s0 t0) t0 k).buzzerPin = true
            ∧ (V350.buzzerRun (V350.handleBuzzer s0 t0) t0 k).lastBuzzerToggleTime
                = (t0 + 60 + I) % 2 ^ 32)) := by
  constructor
  · intro s0 hi hoff hon
    have hI0 : s0.currentBeepInterval ≠ 0 := by rw [hi]; omega
    obtain ⟨_, _, ha, hs⟩ := handleBuzzer_rising s0 t0 hI0 hoff hon
    refine ⟨(handleBuzzer_audioAlarm_enabled s0 t0).trans ha,
      ((handleBuzzer_frame s0 t0).2.2.1).trans hs, ?_⟩
    intro k
    obtain ⟨hp, hl⟩ := buzzerRun_pulse s0 t0 I hI hI2 hi hoff hon k
    exact ⟨hp, pulse_shape I k hI t0 _ _ hp hl⟩
  · intro s0 hi hoff hon
    have hI0 : s0.currentBeepInterval ≠ 0 := by rw [hi]; omega
    obtain ⟨_, _, hs⟩ := handleBuzzer_rising_v350 s0 t0 hI0 hoff hon
    refine ⟨((handleBuzzer_frame_v350 s0 t0).2).trans hs, ?_⟩
    intro k
    obtain ⟨hp, hl⟩ := buzzerRun_pulse_v350 s0 t0 I hI hI2 hi hoff hon k
    exact ⟨hp, pulse_shape I k hI t0 _ _ hp hl⟩

/-- Witness for C26: the buzzer armed with the 200 ms interval rises at
200 ms; 59 ms later the pin is still high, 60 ms later it is low. -/
theorem pulse_cycle_witness :
    (0 : Nat) < 200 ∧ (200 : Nat) < 2 ^ 32
    ∧ (handleBuzzer pulseStart 200).buzzerIsOn = true
    ∧ (buzzerRun (handleBuzzer pulseStart 200) 200 59).buzzerPin = true
    ∧ (buzzerRun (handleBuzzer pulseStart 200) 200 60).buzzerPin = false :=
  ⟨by norm_num, by norm_num, by decide,
    ((((pulse_cycle 200 200 (by norm_num) (by norm_num)).1 pulseStart rfl rfl
      (by decide)).2.2 59).2.1 (by norm_num)),
    ((((pulse_cycle 200 200 (by norm_num) (by norm_num)).1 pulseStart rfl rfl
      (by decide)).2.2 60).2.2.1 (by norm_num) (by norm_num))⟩

/-! ## The sign of the settings -/

theorem takeSign_of_not_mem (s : List Char) (h : '-' ∉ s) : (takeSign s).1 = false := by
  cases s with
  | nil => rfl
  | cons c t =>
    have hc : c ≠ '-' := fun e => h (by rw [e]; exact List.mem_cons_self _ _)
    simp only [takeSign, hc, if_false]
    split_ifs <;> rfl

theorem scanDecimal_negative (s : List Char) (l : DecimalLiteral)
    (h : scanDecimal s = some l) : l.negative = (takeSign (s.dropWhile isspace)).1 := by
  simp only [scanDecimal] at h
  split_ifs at h
  injection h with h
  rw [← h]

theorem scanNumber_negative (f : List Char) (h : '-' ∉ f) :
    (∀ l, scanNumber f = some (Scanned.decimal l) → l.negative = false)
    ∧ (∀ n l, scanNumber f = some (Scanned.hexadecimal n l) → n = false) := by
  have hp : (takeSign (f.dropWhile isspace)).1 = false :=
    takeSign_of_not_mem _ (fun hc => h (List.dropWhile_subset _ hc))
  refine ⟨?_, ?_⟩
  · intro l hs
    simp only [scanNumber] at hs
    split_ifs at hs
    · simp at hs
    · simp at hs
    split at hs
    · simp at hs
    · cases hd : scanDecimal f with
      | none => rw [hd] at hs; simp at hs
      | some l2 =>
        rw [hd] at hs
        simp only [Option.map_some', Option.some.injEq, Scanned.decimal.injEq] at hs
        rw [← hs, scanDecimal_negative f l2 hd]
        exact hp
  · intro n l hs
    simp only [scanNumber] at hs
    split_ifs at hs
    · simp at hs
    · simp at hs
    split at hs
    · simp only [Option.some.injEq, Scanned.hexadecimal.injEq] at hs
      rw [← hs.1]
      exact hp
    · cases hd : scanDecimal f with
      | none => rw [hd] at hs; simp at hs
      | some l2 => rw [hd] at hs; simp at hs

theorem atof_nonneg (f : List Char) (h : '-' ∉ f) (v : ℚ)
    (hv : atof f = Floating.finite v) : 0 ≤ v := by
  obtain ⟨hdec, hhex⟩ := scanNumber_negative f h
  unfold atof at hv
  cases hs : scanNumber f with
  | none =>
    rw [hs] at hv
    injection hv with hv
    rw [← hv]
  | some sc =>
    cases sc with
    | decimal l =>
      rw [hs] at hv
      simp only [hdec l hs, Bool.false_eq_true, if_false] at hv
      exact roundToFormat_nonneg _ _ _ _ _ (by positivity) hv
    | hexadecimal n l =>
      rw [hs] at hv
      simp only [hhex n l hs, Bool.false_eq_true, if_false] at hv
      exact roundToFormat_nonneg _ _ _ _ _ (by positivity) hv
    | infinity n => rw [hs] at hv; simp at hv
    | nan => rw [hs] at hv; simp at hv

theorem tenth_nonneg (f : List Char) (h : '-' ∉ f) (v : ℚ)
    (hv : tenth f = Floating.finite v) : 0 ≤ v := by
  unfold tenth at hv
  cases ha : atof f with
  | finite a =>
    have h0 : 0 ≤ a := atof_nonneg f h a ha
    rw [ha] at hv
    simp only [Floating.divDouble] at hv
    cases hb : roundToDouble (a / 10) with
    | finite b =>
      have h1 : 0 ≤ b := roundToFormat_nonneg _ _ _ _ _ (div_nonneg h0 (by norm_num)) hb
      rw [hb] at hv
      exact roundToFormat_nonneg _ _ _ _ _ h1 hv
    | infinity n => rw [hb] at hv; simp [Floating.toFloat] at hv
    | nan => rw [hb] at hv; simp [Floating.toFloat] at hv
  | infinity n => rw [ha] at hv; simp [Floating.divDouble, Floating.toFloat] at hv
  | nan => rw [ha] at hv; simp [Floating.divDouble, Floating.toFloat] at hv

theorem isFinite_eq_true (x : Floating) (h : x.isFinite = true) :
    ∃ v : ℚ, x = Floating.finite v := by
  cases x with
  | finite v => exact ⟨v, rfl⟩
  | infinity n => simp [Floating.isFinite] at h
  | nan => simp [Floating.isFinite] at h

theorem strtok_not_mem (d x : Char) (s : List Char) (h : x ∉ s) :
    (∀ tok, (strtok d s).1 = some tok → x ∉ tok) ∧ x ∉ (strtok d s).2 := by
  unfold strtok
  have h1 : x ∉ s.dropWhile (fun c => decide (c = d)) :=
    fun hc => h (List.dropWhile_subset _ hc)
  by_cases he : s.dropWhile (fun c => decide (c = d)) = []
  · simp [he]
  · simp only [he, if_false]
    refine ⟨?_, ?_⟩
    · intro tok ht
      injection ht with ht
      rw [← ht]
      exact fun hc => h1 (List.takeWhile_subset _ hc)
    · exact fun hc => h1 (List.dropWhile_subset _ (List.drop_subset _ _ hc))

theorem strstr_not_mem (needle : List Char) (x : Char) :
    ∀ (hay p : List Char), x ∉ hay → strstr needle hay = some p → x ∉ p := by
  intro hay
  induction hay with
  | nil =>
    intro p _ hs
    simp only [strstr] at hs
    split_ifs at hs
    injection hs with hs
    rw [← hs]
    exact List.not_mem_nil x
  | cons c t ih =>
    intro p hx hs
    simp only [strstr] at hs
    split_ifs at hs
    · injection hs with hs
      rw [← hs]; exact hx
    · exact ih p (fun hc => hx (List.mem_cons_of_mem _ hc)) hs

theorem rxBuffer_not_mem (x : Char) (serial : List Char) (h : x ∉ serial) :
    x ∉ rxBuffer serial := by
  unfold rxBuffer readBytesUntil
  exact fun hc => h (List.takeWhile_subset _ (List.take_subset _ _ (List.takeWhile_subset _ hc)))

theorem handleSave1_nonneg (s : State) (p : List Char) (hp : '-' ∉ p)
    (hfin : (handleSave1 s p).nonFinite = false)
    (h : Spec.distancesNonneg s) : Spec.distancesNonneg (handleSave1 s p).state := by
  obtain ⟨h1, h2, h3, h4, h5⟩ := h
  have hd : '-' ∉ p.drop 6 := fun hc => hp (List.drop_subset _ _ hc)
  obtain ⟨t1, r1⟩ := strtok_not_mem ',' '-' _ hd
  obtain ⟨t2, _⟩ := strtok_not_mem ',' '-' _ r1
  cases e1 : (strtok ',' (p.drop 6)).1 with
  | none => simp only [handleSave1, e1]; exact ⟨h1, h2, h3, h4, h5⟩
  | some v1 =>
    cases e2 : (strtok ',' (strtok ',' (p.drop 6)).2).1 with
    | none => simp only [handleSave1, e1, e2]; exact ⟨h1, h2, h3, h4, h5⟩
    | some v2 =>
      simp only [handleSave1, e1, e2] at hfin
      have hb : ((tenth v1).isFinite && (tenth v2).isFinite) = true := by simpa using hfin
      rw [Bool.and_eq_true] at hb
      obtain ⟨x, hx⟩ := isFinite_eq_true _ hb.1
      obtain ⟨y, hy⟩ := isFinite_eq_true _ hb.2
      simp only [handleSave1, e1, e2, hx, hy]
      exact ⟨tenth_nonneg v1 (t1 v1 e1) x hx, tenth_nonneg v2 (t2 v2 e2) y hy, h3, h4, h5⟩

theorem handleSave2_nonneg (s : State) (p : List Char) (hp : '-' ∉ p)
    (hfin : (handleSave2 s p).nonFinite = false)
    (h : Spec.distancesNonneg s) : Spec.distancesNonneg (handleSave2 s p).state := by
  obtain ⟨h1, h2, h3, h4, h5⟩ := h
  have hd : '-' ∉ p.drop 6 := fun hc => hp (List.drop_subset _ _ hc)
  obtain ⟨t1, r1⟩ := strtok_not_mem ',' '-' _ hd
  obtain ⟨t2, r2⟩ := strtok_not_mem ',' '-' _ r1
  obtain ⟨t3, _⟩ := strtok_not_mem ',' '-' _ r2
  cases e1 : (strtok ',' (p.drop 6)).1 with
  | none => simp only [handleSave2, e1]; exact ⟨h1, h2, h3, h4, h5⟩
  | some v1 =>
    cases e2 : (strtok ',' (strtok ',' (p.drop 6)).2).1 with
    | none => simp only [handleSave2, e1, e2]; exact ⟨h1, h2, h3, h4, h5⟩
    | some v2 =>
      cases e3 : (strtok ',' (strtok ',' (strtok ',' (p.drop 6)).2).2).1 with
      | none => simp only [handleSave2, e1, e2, e3]; exact ⟨h1, h2, h3, h4, h5⟩
      | some v3 =>
        simp only [handleSave2, e1, e2, e3] at hfin
        have hb : ((tenth v1).isFinite && (tenth v2).isFinite && (tenth v3).isFinite) = true := by
          simpa using hfin
        rw [Bool.and_eq_true, Bool.and_eq_true] at hb
        obtain ⟨x, hx⟩ := isFinite_eq_true _ hb.1.1
        obtain ⟨y, hy⟩ := isFinite_eq_true _ hb.1.2
        obtain ⟨z, hz⟩ := isFinite_eq_true _ hb.2
        simp only [handleSave2, e1, e2, e3, hx, hy, hz]
        exact ⟨h1, h2, tenth_nonneg v2 (t2 v2 e2) y hy, tenth_nonneg v1 (t1 v1 e1) x hx,
          tenth_nonneg v3 (t3 v3 e3) z hz⟩

theorem resetToDefaults_nonneg (s : State) : Spec.distancesNonneg (resetToDefaults s).1 := by
  simp only [Spec.distancesNonneg, resetToDefaults, DEFAULT_WARNING_ZONE_M,
    DEFAULT_DANGER_ZONE_M, DEFAULT_VEHICLE_WIDTH_M, DEFAULT_SIDE_MARGIN_M, DEFAULT_MAX_WIDTH_M]
  norm_num

theorem handleNextionInput_nonneg (s : State) (serial : List Char) (hm : '-' ∉ serial)
    (hfin : (handleNextionInput s serial).nonFinite = false)
    (h : Spec.distancesNonneg s) :
    Spec.distancesNonneg (handleNextionInput s serial).state := by
  by_cases hb : rxBuffer serial = []
  · rw [handleNextionInput_of_nil s serial hb]; exact h
  have hr := rxBuffer_not_mem '-' serial hm
  rw [handleNextionInput_of_ne_nil s serial hb] at hfin ⊢
  revert hfin
  cases e1 : strstr "SAVE1:".toList (rxBuffer serial) with
  | some p => exact fun hfin => handleSave1_nonneg s p (strstr_not_mem _ _ _ p hr e1) hfin h
  | none =>
    cases e2 : strstr "SAVE2:".toList (rxBuffer serial) with
    | some p => exact fun hfin => handleSave2_nonneg s p (strstr_not_mem _ _ _ p hr e2) hfin h
    | none =>
      intro _
      cases e3 : strstr "SAVE3:".toList (rxBuffer serial) with
      | some p =>
        obtain ⟨_, c | ⟨z, c⟩ | ⟨z, c⟩⟩ := handleSave3_cases s p
        · show Spec.distancesNonneg (handleSave3 s p).state
          rw [c]; exact h
        · show Spec.distancesNonneg (handleSave3 s p).state
          rw [c]; exact h
        · show Spec.distancesNonneg (handleSave3 s p).state
          rw [c]; exact h
      | none =>
        cases e4 : strstr "RESETALL".toList (rxBuffer serial) with
        | some p => exact resetToDefaults_nonneg s
        | none => exact h

theorem setup_none_nonneg : Spec.distancesNonneg (setup none).state := by
  simp only [Spec.distancesNonneg, setup, clearDetection, resetToDefaults,
    DEFAULT_WARNING_ZONE_M, DEFAULT_DANGER_ZONE_M, DEFAULT_VEHICLE_WIDTH_M,
    DEFAULT_SIDE_MARGIN_M, DEFAULT_MAX_WIDTH_M]
  norm_num

theorem runOperations_hmi_nonneg (inputs : List (List Char))
    (hm : ∀ serial ∈ inputs, '-' ∉ serial)
    (hf : ∀ serial ∈ inputs, ∀ s : State, (handleNextionInput s serial).nonFinite = false) :
    ∀ s : State, Spec.distancesNonneg s →
      Spec.distancesNonneg (runOperations s (inputs.map Operation.hmi)) := by
  induction inputs with
  | nil => intro s h; exact h
  | cons serial rest ih =>
    intro s h
    exact ih (fun x hx => hm x (List.mem_cons_of_mem _ hx))
      (fun x hx => hf x (List.mem_cons_of_mem _ hx)) _
      (handleNextionInput_nonneg s serial (hm serial (List.mem_cons_self _ _))
        (hf serial (List.mem_cons_self _ _) s) h)

theorem tenth_minus_50 : tenth "-50".toList = Floating.finite (-5) := by
  have hd : scanNumber "-50".toList = some (Scanned.decimal
      { negative := true, digits := 50, fractionLength := 0, exponent := 0 }) := by decide
  have h1 : roundToDouble (-50) = Floating.finite (-50) := by
    rw [roundToDouble_eval (-50) 5 (-(50 * 2 ^ 47)) (by norm_num [abs_of_pos])
      (by norm_num [abs_of_pos]) (by norm_num) (by norm_num [abs_of_pos])
      (by norm_num [abs_of_pos])]
    norm_num
  have h2 : roundToDouble (-50 / 10) = Floating.finite (-5) := by
    rw [roundToDouble_eval (-50 / 10) 2 (-(5 * 2 ^ 50)) (by norm_num [abs_of_pos])
      (by norm_num [abs_of_pos]) (by norm_num) (by norm_num [abs_of_pos])
      (by norm_num [abs_of_pos])]
    norm_num
  have h3 : roundToFloat (-5) = Floating.finite (-5) := by
    rw [roundToFloat_eval (-5) 2 (-(5 * 2 ^ 21)) (by norm_num [abs_of_pos])
      (by norm_num [abs_of_pos]) (by norm_num) (by norm_num [abs_of_pos])
      (by norm_num [abs_of_pos])]
    norm_num
  have ha : atof "-50".toList = Floating.finite (-50) := by
    rw [atof, hd]
    simp only [if_true]
    rw [← h1]
    congr 1
    norm_num
  rw [tenth, ha]
  show (roundToDouble (-50 / 10)).toFloat = _
  rw [h2]
  exact h3

/-- C21, as stated, fails: from the factory defaults the command
`SAVE1:-50,20` sets `warningZone_m` to -5.0.  And the command
`SAVE2:nan,20,100`, which has no minus sign, assigns a NaN to `sideMargin_m`:
the call is marked as storing a value that is not a finite number. -/
theorem settings_nonnegative_counterexample :
    (handleNextionInput (setup none).state
        ("SAVE1:-50,20".toList ++ endOfMessage)).state.warningZone_m = -5
    ∧ ¬ Spec.distancesNonneg (runOperations (setup none).state
        [Operation.hmi ("SAVE1:-50,20".toList ++ endOfMessage)])
    ∧ '-' ∉ "SAVE2:nan,20,100".toList ++ endOfMessage
    ∧ tenth "nan".toList = Floating.nan
    ∧ (handleNextionInput (setup none).state
        ("SAVE2:nan,20,100".toList ++ endOfMessage)).nonFinite = true := by
  have hs : strstr "SAVE1:".toList (rxBuffer ("SAVE1:-50,20".toList ++ endOfMessage))
      = some "SAVE1:-50,20".toList := by decide
  have hf : Spec.fields ("SAVE1:-50,20".toList.drop 6) = ["-50".toList, "20".toList] := by
    decide
  have hv : (handleNextionInput (setup none).state
      ("SAVE1:-50,20".toList ++ endOfMessage)).state.warningZone_m = -5 := by
    rw [handleNextionInput_save1 _ _ _ hs, handleSave1_applied _ _ _ _ [] hf, tenth_minus_50]
    rfl
  have hs1 : strstr "SAVE1:".toList (rxBuffer ("SAVE2:nan,20,100".toList ++ endOfMessage))
      = none := by decide
  have hs2 : strstr "SAVE2:".toList (rxBuffer ("SAVE2:nan,20,100".toList ++ endOfMessage))
      = some "SAVE2:nan,20,100".toList := by decide
  have hf2 : Spec.fields ("SAVE2:nan,20,100".toList.drop 6)
      = ["nan".toList, "20".toList, "100".toList] := by decide
  refine ⟨hv, ?_, by decide, tenth_nan, ?_⟩
  · intro hc
    have h1 : (0 : ℚ) ≤ (handleNextionInput (setup none).state
        ("SAVE1:-50,20".toList ++ endOfMessage)).state.warningZone_m := hc.1
    rw [hv] at h1
    norm_num at h1
  · rw [handleNextionInput_save2 _ _ _ hs1 hs2, handleSave2_applied _ _ _ _ _ [] hf2, tenth_nan]
    rfl

/-- C21, amended. Settings invariant: starting from the factory defaults,
after any sequence of calls of `handleNextionInput` on inputs that contain no
minus sign and on which no call assigns a NaN or an infinity to a setting, all
distance settings (`warningZone_m`, `dangerZone_m`, `vehicleRealWidth_m`,
`sideMargin_m`, `maxWidth_m`) are >= 0.  (The fields of a command are not
validated: a field with a minus sign is stored as it is, and so is a field
that reads `nan`.) -/
theorem settings_nonnegative (inputs : List (List Char))
    (hm : ∀ serial ∈ inputs, '-' ∉ serial)
    (hf : ∀ serial ∈ inputs, ∀ s : State, (handleNextionInput s serial).nonFinite = false) :
    0 ≤ (runOperations (setup none).state (inputs.map Operation.hmi)).warningZone_m
    ∧ 0 ≤ (runOperations (setup none).state (inputs.map Operation.hmi)).dangerZone_m
    ∧ 0 ≤ (runOperations (setup none).state (inputs.map Operation.hmi)).vehicleRealWidth_m
    ∧ 0 ≤ (runOperations (setup none).state (inputs.map Operation.hmi)).sideMargin_m
    ∧ 0 ≤ (runOperations (setup none).state (inputs.map Operation.hmi)).maxWidth_m :=
  runOperations_hmi_nonneg inputs hm hf (setup none).state setup_none_nonneg

theorem save1_50_20_finite (s : State) :
    (handleNextionInput s ("SAVE1:50,20".toList ++ endOfMessage)).nonFinite = false := by
  have hs : strstr "SAVE1:".toList (rxBuffer ("SAVE1:50,20".toList ++ endOfMessage))
      = some "SAVE1:50,20".toList := by decide
  have hf : Spec.fields ("SAVE1:50,20".toList.drop 6) = ["50".toList, "20".toList] := by
    decide
  rw [handleNextionInput_save1 _ _ _ hs, handleSave1_applied _ _ _ _ [] hf, tenth_50, tenth_20]
  rfl

theorem resetAll_finite (s : State) :
    (handleNextionInput s ("RESETALL".toList ++ endOfMessage)).nonFinite = false := by
  have hb : rxBuffer ("RESETALL".toList ++ endOfMessage) ≠ [] := by decide
  have h1 : strstr "SAVE1:".toList (rxBuffer ("RESETALL".toList ++ endOfMessage)) = none := by
    decide
  have h2 : strstr "SAVE2:".toList (rxBuffer ("RESETALL".toList ++ endOfMessage)) = none := by
    decide
  have h3 : strstr "SAVE3:".toList (rxBuffer ("RESETALL".toList ++ endOfMessage)) = none := by
    decide
  have h4 : strstr "RESETALL".toList (rxBuffer ("RESETALL".toList ++ endOfMessage))
      = some "RESETALL".toList := by decide
  rw [handleNextionInput_of_ne_nil _ _ hb, h1, h2, h3, h4]

/-- Witness for C21 amended: the commands `SAVE1:50,20` and `RESETALL`; none
has a minus sign, the first stores 5.0 and 2.0, the second the defaults. -/
theorem settings_nonnegative_witness :
    (∀ serial ∈ ["SAVE1:50,20".toList ++ endOfMessage, "RESETALL".toList ++ endOfMessage],
        '-' ∉ serial)
    ∧ (∀ serial ∈ ["SAVE1:50,20".toList ++ endOfMessage, "RESETALL".toList ++ endOfMessage],
        ∀ s : State, (handleNextionInput s serial).nonFinite = false)
    ∧ 0 ≤ (runOperations (setup none).state
        (["SAVE1:50,20".toList ++ endOfMessage, "RESETALL".toList ++ endOfMessage].map
          Operation.hmi)).warningZone_m := by
  have hf : ∀ serial ∈ ["SAVE1:50,20".toList ++ endOfMessage,
      "RESETALL".toList ++ endOfMessage],
      ∀ s : State, (handleNextionInput s serial).nonFinite = false := by
    intro serial hmem s
    rcases List.mem_cons.mp hmem with e | hmem2
    · rw [e]; exact save1_50_20_finite s
    · rw [List.mem_singleton.mp hmem2]; exact resetAll_finite s
  exact ⟨by decide, hf,
    (settings_nonnegative
      ["SAVE1:50,20".toList ++ endOfMessage, "RESETALL".toList ++ endOfMessage]
      (by decide) hf).1⟩

/-! ## The settings in the EEPROM -/

theorem EEPROM_get_put_same {n : Nat} (e : EEPROMClass) (a : Nat) (t t0 : Fin n → Fin 256)
    (h : a + n ≤ EEPROM_SIZE) : EEPROM_get (EEPROM_put e a t) a t0 = t := by
  funext j
  have hj := j.isLt
  simp only [EEPROM_get, EEPROM_put, h, dif_pos, if_true]
  have hc : a ≤ a + j.val ∧ a + j.val < a + n := ⟨by omega, by omega⟩
  simp only [hc, and_self, dif_pos]
  congr 1
  apply Fin.ext
  simp

theorem EEPROM_get_put_other {n m : Nat} (e : EEPROMClass) (a b : Nat)
    (t : Fin n → Fin 256) (t0 : Fin m → Fin 256) (h : b + m ≤ a ∨ a + n ≤ b) :
    EEPROM_get (EEPROM_put e a t) b t0 = EEPROM_get e b t0 := by
  unfold EEPROM_get
  by_cases hb : b + m ≤ EEPROM_SIZE
  · simp only [hb, dif_pos]
    funext j
    have hj := j.isLt
    unfold EEPROM_put
    by_cases ha : a + n ≤ EEPROM_SIZE
    · simp only [ha, if_true]
      have hc : ¬ (a ≤ b + j.val ∧ b + j.val < a + n) := by omega
      simp only [hc, dif_neg, not_false_eq_true]
    · simp only [ha, if_false]
  · simp only [hb, dif_neg, not_false_eq_true]

theorem EEPROM_read_put_other {n : Nat} (e : EEPROMClass) (a b : Nat)
    (t : Fin n → Fin 256) (h : b < a ∨ a + n ≤ b) :
    EEPROM_read (EEPROM_put e a t) b = EEPROM_read e b := by
  unfold EEPROM_read
  by_cases hb : b < EEPROM_SIZE
  · simp only [hb, dif_pos]
    unfold EEPROM_put
    by_cases ha : a + n ≤ EEPROM_SIZE
    · simp only [ha, if_true]
      have hc : ¬ (a ≤ b ∧ b < a + n) := by omega
      simp only [hc, dif_neg, not_false_eq_true]
    · simp only [ha, if_false]
  · simp only [hb, dif_neg, not_false_eq_true]

theorem EEPROM_read_put_magic (e : EEPROMClass) :
    EEPROM_read (EEPROM_put e ADDR_MAGIC_KEY (intObject EEPROM_MAGIC_KEY)) ADDR_MAGIC_KEY
      = 124 := by
  simp [EEPROM_read, EEPROM_put, ADDR_MAGIC_KEY, intObject, EEPROM_MAGIC_KEY]
  rfl

theorem objectBool_boolObject (b : Bool) : objectBool (boolObject b) = b := by
  cases b <;> simp [objectBool, boolObject]

theorem saveSettingsToEEPROM_magic (g : Store.SettingsObjects) (e : EEPROMClass) :
    EEPROM_read (Store.saveSettingsToEEPROM g e) ADDR_MAGIC_KEY = 124 := by
  simp only [Store.saveSettingsToEEPROM]
  rw [EEPROM_read_put_other _ _ _ _ (by decide), EEPROM_read_put_other _ _ _ _ (by decide),
    EEPROM_read_put_other _ _ _ _ (by decide), EEPROM_read_put_other _ _ _ _ (by decide),
    EEPROM_read_put_other _ _ _ _ (by decide), EEPROM_read_put_other _ _ _ _ (by decide),
    EEPROM_read_put_other _ _ _ _ (by decide)]
  exact EEPROM_read_put_magic e

theorem saveSettingsToEEPROM_get (v : Store.SettingsObjects) (e : EEPROMClass)
    (t : Fin 4 → Fin 256) (b : Fin 1 → Fin 256) :
    EEPROM_get (Store.saveSettingsToEEPROM v e) ADDR_WARN_ZONE t = v.warningZone_m
    ∧ EEPROM_get (Store.saveSettingsToEEPROM v e) ADDR_DANGER_ZONE t = v.dangerZone_m
    ∧ EEPROM_get (Store.saveSettingsToEEPROM v e) ADDR_VEHICLE_WIDTH t = v.vehicleRealWidth_m
    ∧ EEPROM_get (Store.saveSettingsToEEPROM v e) ADDR_AUTOZOOM_EN b
        = boolObject v.autoZoom_enabled
    ∧ EEPROM_get (Store.saveSettingsToEEPROM v e) ADDR_AUDIOALARM_EN b
        = boolObject v.audioAlarm_enabled
    ∧ EEPROM_get (Store.saveSettingsToEEPROM v e) ADDR_SIDE_MARGIN t = v.sideMargin_m
    ∧ EEPROM_get (Store.saveSettingsToEEPROM v e) ADDR_MAX_WIDTH t = v.maxWidth_m := by
  simp only [Store.saveSettingsToEEPROM]
  refine ⟨?_, ?_, ?_, ?_, ?_, ?_, ?_⟩ <;>
  · repeat rw [EEPROM_get_put_other _ _ _ _ _ (by decide)]
    rw [EEPROM_get_put_same _ _ _ _ (by decide)]

theorem loadSettingsFromEEPROM_saved (v g : Store.SettingsObjects) (e : EEPROMClass) :
    Store.loadSettingsFromEEPROM g (Store.saveSettingsToEEPROM v e)
      = { globals := v, eeprom := Store.saveSettingsToEEPROM v e, saves := 0 } := by
  have hm := saveSettingsToEEPROM_magic v e
  have hne : ¬ (((124 : Fin 256).val : Int) ≠ EEPROM_MAGIC_KEY) := by decide
  obtain ⟨g1, g2, g3, _, _, g6, g7⟩ :=
    saveSettingsToEEPROM_get v e g.warningZone_m (boolObject g.autoZoom_enabled)
  obtain ⟨_, g2, _, _, _, _, _⟩ :=
    saveSettingsToEEPROM_get v e g.dangerZone_m (boolObject g.autoZoom_enabled)
  obtain ⟨_, _, g3, g4, _, _, _⟩ :=
    saveSettingsToEEPROM_get v e g.vehicleRealWidth_m (boolObject g.autoZoom_enabled)
  obtain ⟨_, _, _, _, g5, g6, _⟩ :=
    saveSettingsToEEPROM_get v e g.sideMargin_m (boolObject g.audioAlarm_enabled)
  obtain ⟨_, _, _, _, _, _, g7⟩ :=
    saveSettingsToEEPROM_get v e g.maxWidth_m (boolObject g.audioAlarm_enabled)
  simp only [Store.loadSettingsFromEEPROM, hm, hne, if_false, g1, g2, g3, g4, g5, g6, g7,
    objectBool_boolObject]

theorem saveSettingsToEEPROM_magic_v350 (g : V350.Store.SettingsObjects) (e : EEPROMClass) :
    EEPROM_read (V350.Store.saveSettingsToEEPROM g e) ADDR_MAGIC_KEY = 124 := by
  simp only [V350.Store.saveSettingsToEEPROM]
  repeat rw [EEPROM_read_put_other _ _ _ _ (by decide)]
  exact EEPROM_read_put_magic e

theorem saveSettingsToEEPROM_get_v350 (v : V350.Store.SettingsObjects) (e : EEPROMClass) :
    (∀ t, EEPROM_get (V350.Store.saveSettingsToEEPROM v e) ADDR_WARN_ZONE t = v.warningZone_m)
    ∧ (∀ t, EEPROM_get (V350.Store.saveSettingsToEEPROM v e) ADDR_DANGER_ZONE t
        = v.dangerZone_m)
    ∧ (∀ t, EEPROM_get (V350.Store.saveSettingsToEEPROM v e) ADDR_VEHICLE_WIDTH t
        = v.vehicleRealWidth_m)
    ∧ (∀ t, EEPROM_get (V350.Store.saveSettingsToEEPROM v e) ADDR_PASSWORD t = v.password)
    ∧ (∀ t, EEPROM_get (V350.Store.saveSettingsToEEPROM v e) V350.ADDR_LATERAL_L1 t
        = v.lateralRange_L1)
    ∧ (∀ t, EEPROM_get (V350.Store.saveSettingsToEEPROM v e) V350.ADDR_LATERAL_L2 t
        = v.lateralRange_L2)
    ∧ (∀ t, EEPROM_get (V350.Store.saveSettingsToEEPROM v e) V350.ADDR_LATERAL_L3 t
        = v.lateralRange_L3)
    ∧ (∀ t, EEPROM_get (V350.Store.saveSettingsToEEPROM v e) V350.ADDR_LATERAL_L4 t
        = v.lateralRange_L4)
    ∧ (∀ t, EEPROM_get (V350.Store.saveSettingsToEEPROM v e) ADDR_AUTOZOOM_EN t
        = boolObject v.autoZoom_enabled)
    ∧ (∀ t, EEPROM_get (V350.Store.saveSettingsToEEPROM v e) ADDR_AUDIOALARM_EN t
        = boolObject v.audioAlarm_enabled)
    ∧ (∀ t, EEPROM_get (V350.Store.saveSettingsToEEPROM v e) ADDR_SIDE_MARGIN t
        = v.sideMargin_m)
    ∧ (∀ t, EEPROM_get (V350.Store.saveSettingsToEEPROM v e) ADDR_MAX_WIDTH t
        = v.maxWidth_m) := by
  simp only [V350.Store.saveSettingsToEEPROM]
  refine ⟨?_, ?_, ?_, ?_, ?_, ?_, ?_, ?_, ?_, ?_, ?_, ?_⟩ <;>
  · intro t
    repeat rw [EEPROM_get_put_other _ _ _ _ _ (by decide)]
    rw [EEPROM_get_put_same _ _ _ _ (by decide)]

theorem loadSettingsFromEEPROM_saved_v350 (v g : V350.Store.SettingsObjects)
    (e : EEPROMClass) :
    V350.Store.loadSettingsFromEEPROM g (V350.Store.saveSettingsToEEPROM v e)
      = { globals := v, eeprom := V350.Store.saveSettingsToEEPROM v e, saves := 0 } := by
  have hm := saveSettingsToEEPROM_magic_v350 v e
  have hne : ¬ (((124 : Fin 256).val : Int) ≠ EEPROM_MAGIC_KEY) := by decide
  obtain ⟨k1, k2, k3, k4, k5, k6, k7, k8, k9, k10, k11, k12⟩ :=
    saveSettingsToEEPROM_get_v350 v e
  simp only [V350.Store.loadSettingsFromEEPROM, hm, hne, if_false, k1, k2, k3, k4, k5, k6,
    k7, k8, k9, k10, k11, k12, objectBool_boolObject]

theorem floatValue_of_normal (x : Fin 4 → Fin 256) (bits : Nat) (h : floatBits x = bits)
    (hs : bits / 2 ^ 31 = 0) (h0 : bits / 2 ^ 23 % 256 ≠ 0) (h255 : bits / 2 ^ 23 % 256 ≠ 255) :
    floatValue x
      = some (((2 : ℚ) ^ 23 + ((bits % 2 ^ 23 : Nat) : ℚ))
          * (2 : ℚ) ^ (((bits / 2 ^ 23 % 256 : Nat) : Int) - 150)) := by
  simp only [floatValue, h, hs, h0, h255, if_false]
  norm_num

theorem default_values :
    floatValue Store.DEFAULT_WARNING_ZONE_M = some DEFAULT_WARNING_ZONE_M
    ∧ floatValue Store.DEFAULT_DANGER_ZONE_M = some DEFAULT_DANGER_ZONE_M
    ∧ floatValue Store.DEFAULT_VEHICLE_WIDTH_M = some DEFAULT_VEHICLE_WIDTH_M
    ∧ floatValue Store.DEFAULT_SIDE_MARGIN_M = some DEFAULT_SIDE_MARGIN_M
    ∧ floatValue Store.DEFAULT_MAX_WIDTH_M = some DEFAULT_MAX_WIDTH_M := by
  refine ⟨?_, ?_, ?_, ?_, ?_⟩
  · rw [floatValue_of_normal _ 0x40A00000 (by decide) (by norm_num) (by norm_num)
      (by norm_num)]
    norm_num [DEFAULT_WARNING_ZONE_M]
  · rw [floatValue_of_normal _ 0x40000000 (by decide) (by norm_num) (by norm_num)
      (by norm_num)]
    norm_num [DEFAULT_DANGER_ZONE_M]
  · rw [floatValue_of_normal _ 0x40000000 (by decide) (by norm_num) (by norm_num)
      (by norm_num)]
    norm_num [DEFAULT_VEHICLE_WIDTH_M]
  · rw [floatValue_of_normal _ 0x3F000000 (by decide) (by norm_num) (by norm_num)
      (by norm_num)]
    norm_num [DEFAULT_SIDE_MARGIN_M]
  · rw [floatValue_of_normal _ 0x41200000 (by decide) (by norm_num) (by norm_num)
      (by norm_num)]
    norm_num [DEFAULT_MAX_WIDTH_M]

theorem magic_ne_iff (e : EEPROMClass) :
    ((EEPROM_read e ADDR_MAGIC_KEY).val : Int) ≠ EEPROM_MAGIC_KEY
      ↔ EEPROM_read e ADDR_MAGIC_KEY ≠ 124 := by
  simp only [EEPROM_MAGIC_KEY, ne_eq, not_iff_not]
  constructor
  · intro h
    apply Fin.ext
    have h2 : (EEPROM_read e ADDR_MAGIC_KEY).val = 124 := by omega
    rw [h2]; rfl
  · intro h
    rw [h]; rfl

/-- C22. Persistence round trip (both revisions): for every value `v` of the
settings objects (five floats and two booleans in v3.7.0), every prior content
`e` of the 64-byte store and whatever the globals hold before the load,
`saveSettingsToEEPROM` leaves 124 in the byte at offset 0, and
`loadSettingsFromEEPROM` on the store it leaves sets the globals to exactly
`v`, without writing.  The objects written occupy the byte ranges at offsets
0, 4, 8, 12, 44, 45, 48 and 52, which are pairwise disjoint and inside the 64
bytes; in v3.5.0 the password and the four lateral ranges are stored as well,
in ranges that are disjoint from those. -/
theorem persistence_round_trip :
    (∀ (v g : Store.SettingsObjects) (e : EEPROMClass),
      EEPROM_read (Store.saveSettingsToEEPROM v e) ADDR_MAGIC_KEY = 124
      ∧ Store.loadSettingsFromEEPROM g (Store.saveSettingsToEEPROM v e)
          = { globals := v, eeprom := Store.saveSettingsToEEPROM v e, saves := 0 })
    ∧ Store.fieldRanges
        = [(0, 4), (4, 4), (8, 4), (12, 4), (44, 1), (45, 1), (48, 4), (52, 4)]
    ∧ Store.fieldRanges.Pairwise (fun a b => a.1 + a.2 ≤ b.1 ∨ b.1 + b.2 ≤ a.1)
    ∧ (∀ r ∈ Store.fieldRanges, r.1 + r.2 ≤ EEPROM_SIZE)
    ∧ (∀ (v g : V350.Store.SettingsObjects) (e : EEPROMClass),
      EEPROM_read (V350.Store.saveSettingsToEEPROM v e) ADDR_MAGIC_KEY = 124
      ∧ V350.Store.loadSettingsFromEEPROM g (V350.Store.saveSettingsToEEPROM v e)
          = { globals := v, eeprom := V350.Store.saveSettingsToEEPROM v e, saves := 0 })
    ∧ V350.Store.fieldRanges.Pairwise (fun a b => a.1 + a.2 ≤ b.1 ∨ b.1 + b.2 ≤ a.1)
    ∧ (∀ r ∈ V350.Store.fieldRanges, r.1 + r.2 ≤ EEPROM_SIZE) := by
  refine ⟨fun v g e => ⟨saveSettingsToEEPROM_magic v e, loadSettingsFromEEPROM_saved v g e⟩,
    rfl, by decide, by decide,
    fun v g e => ⟨saveSettingsToEEPROM_magic_v350 v e, loadSettingsFromEEPROM_saved_v350 v g e⟩,
    by decide, by decide⟩

/-- C23. Self-healing store (v3.7.0): when the byte read at offset 0 is not
124, `loadSettingsFromEEPROM` sets the globals to the factory defaults (the
float objects of 5.0, 2.0, 2.0, 0.5 and 10.0, auto-zoom on, audio on) and
saves them once, so that the sentinel is then 124 and a second load returns
the same defaults without writing; when the byte is 124 the globals are the
objects read from the store, nothing is saved and the store is unchanged.  An
erased store (all bytes 0xFF) is of the first kind. -/
theorem self_healing_store (g : Store.SettingsObjects) (e : EEPROMClass) :
    (EEPROM_read e ADDR_MAGIC_KEY ≠ 124 →
      (Store.loadSettingsFromEEPROM g e).globals.warningZone_m = Store.DEFAULT_WARNING_ZONE_M
      ∧ (Store.loadSettingsFromEEPROM g e).globals.dangerZone_m = Store.DEFAULT_DANGER_ZONE_M
      ∧ (Store.loadSettingsFromEEPROM g e).globals.vehicleRealWidth_m
          = Store.DEFAULT_VEHICLE_WIDTH_M
      ∧ (Store.loadSettingsFromEEPROM g e).globals.sideMargin_m = Store.DEFAULT_SIDE_MARGIN_M
      ∧ (Store.loadSettingsFromEEPROM g e).globals.maxWidth_m = Store.DEFAULT_MAX_WIDTH_M
      ∧ (Store.loadSettingsFromEEPROM g e).globals.autoZoom_enabled = true
      ∧ (Store.loadSettingsFromEEPROM g e).globals.audioAlarm_enabled = true
      ∧ (Store.loadSettingsFromEEPROM g e).saves = 1
      ∧ (Store.loadSettingsFromEEPROM g e).eeprom
          = Store.saveSettingsToEEPROM (Store.loadSettingsFromEEPROM g e).globals e
      ∧ EEPROM_read (Store.loadSettingsFromEEPROM g e).eeprom ADDR_MAGIC_KEY = 124
      ∧ ∀ g2 : Store.SettingsObjects,
          Store.loadSettingsFromEEPROM g2 (Store.loadSettingsFromEEPROM g e).eeprom
            = { globals := (Store.loadSettingsFromEEPROM g e).globals,
                eeprom := (Store.loadSettingsFromEEPROM g e).eeprom,
                saves := 0 })
    ∧ (EEPROM_read e ADDR_MAGIC_KEY = 124 →
      (Store.loadSettingsFromEEPROM g e).saves = 0
      ∧ (Store.loadSettingsFromEEPROM g e).eeprom = e
      ∧ (Store.loadSettingsFromEEPROM g e).globals.warningZone_m
          = EEPROM_get e ADDR_WARN_ZONE g.warningZone_m
      ∧ (Store.loadSettingsFromEEPROM g e).globals.dangerZone_m
          = EEPROM_get e ADDR_DANGER_ZONE g.dangerZone_m
      ∧ (Store.loadSettingsFromEEPROM g e).globals.vehicleRealWidth_m
          = EEPROM_get e ADDR_VEHICLE_WIDTH g.vehicleRealWidth_m
      ∧ (Store.loadSettingsFromEEPROM g e).globals.sideMargin_m
          = EEPROM_get e ADDR_SIDE_MARGIN g.sideMargin_m
      ∧ (Store.loadSettingsFromEEPROM g e).globals.maxWidth_m
          = EEPROM_get e ADDR_MAX_WIDTH g.maxWidth_m
      ∧ (Store.loadSettingsFromEEPROM g e).globals.autoZoom_enabled
          = objectBool (EEPROM_get e ADDR_AUTOZOOM_EN (boolObject g.autoZoom_enabled))
      ∧ (Store.loadSettingsFromEEPROM g e).globals.audioAlarm_enabled
          = objectBool (EEPROM_get e ADDR_AUDIOALARM_EN (boolObject g.audioAlarm_enabled)))
    ∧ floatValue Store.DEFAULT_WARNING_ZONE_M = some 5
    ∧ floatValue Store.DEFAULT_DANGER_ZONE_M = some 2
    ∧ floatValue Store.DEFAULT_VEHICLE_WIDTH_M = some 2
    ∧ floatValue Store.DEFAULT_SIDE_MARGIN_M = some (1 / 2)
    ∧ floatValue Store.DEFAULT_MAX_WIDTH_M = some 10
    ∧ EEPROM_read blankStore ADDR_MAGIC_KEY ≠ 124 := by
  refine ⟨?_, ?_, default_values.1, default_values.2.1, default_values.2.2.1,
    default_values.2.2.2.1, default_values.2.2.2.2, by decide⟩
  · intro h
    have hne := (magic_ne_iff e).mpr h
    have hl : Store.loadSettingsFromEEPROM g e = Store.resetToDefaults e := by
      rw [Store.loadSettingsFromEEPROM, if_pos hne]
    rw [hl]
    refine ⟨rfl, rfl, rfl, rfl, rfl, rfl, rfl, rfl, rfl, ?_, ?_⟩
    · exact saveSettingsToEEPROM_magic _ e
    · intro g2
      exact loadSettingsFromEEPROM_saved _ g2 e
  · intro h
    have hne : ¬ (((EEPROM_read e ADDR_MAGIC_KEY).val : Int) ≠ EEPROM_MAGIC_KEY) :=
      fun hc => (magic_ne_iff e).mp hc h
    rw [Store.loadSettingsFromEEPROM, if_neg hne]
    exact ⟨rfl, rfl, rfl, rfl, rfl, rfl, rfl, rfl, rfl⟩

end RCPS
